import Mathlib

/-!
Shallow embedding of the maze / stone-pushing solver in `src/algorithms.py`
(classes `Tile`, `Movement`, `State`, `Maze`).

Modelling conventions:
* Python `int` is `Int`; grid positions `(row, col)` are `Int × Int`.
* Python `dict` (insertion ordered) is an association list `List (key × value)`;
  `dict.pop k` removes the (unique) entry with key `k`, `d[k] = v` updates it
  in place, `d.update {k: v}` with a fresh key appends at the end.
* Python list indexing `l[i]` wraps negative indices (`l[-1]` is the last
  element) and raises `IndexError` outside `[-len l, len l)`; `pyIdx` resolves
  an index to `Option Nat` accordingly, and code whose indexing can raise is
  modelled in `Except Unit _` (`.error ()` standing for the raised exception).
* `State.heuristic` can raise `ValueError` (Python `min` of an empty sequence);
  it is modelled as `Option Int`, `none` standing for the exception.
-/

abbrev Pos := Int × Int

inductive Tile
  | NONE
  | BLANK
  | BRICK
deriving DecidableEq, Repr, Inhabited

/-- `Movement` enum: `((horizontal, vertical), action)` in fixed order
LEFT, RIGHT, UP, DOWN (`src/algorithms.py` lines 20-24). -/
def movementList : List ((Int × Int) × Char) :=
  [((-1, 0), 'l'), ((1, 0), 'r'), ((0, -1), 'u'), ((0, 1), 'd')]

/-- `State` of `src/algorithms.py` (lines 34-38): agent position, the
insertion-ordered stone dict and the insertion-ordered switch dict.
Python initialises `agent_position` to the empty tuple `()`; every input of
interest contains an agent character that overwrites it, and we use `(0, 0)`
as the initial placeholder value. -/
structure PState where
  agent : Pos
  stones : List (Pos × Int)
  switches : List (Pos × Bool)
deriving DecidableEq, Repr, Inhabited

/-- Keys of an association list (the `dict.keys()` view). -/
def dictKeys {β : Type} (l : List (Pos × β)) : List Pos := l.map Prod.fst

/-- Python `key in dict.keys()`. -/
def hasKey {β : Type} (l : List (Pos × β)) (k : Pos) : Bool :=
  l.any (fun e => e.1 = k)

/-- Python `dict.pop(k)`: value of the entry with key `k` plus the remaining
entries in order; `none` models the `KeyError` raised when `k` is absent. -/
def dictPop {β : Type} (l : List (Pos × β)) (k : Pos) : Option (β × List (Pos × β)) :=
  match l with
  | [] => none
  | e :: rest =>
    if e.1 = k then some (e.2, rest)
    else (dictPop rest k).map (fun p => (p.1, e :: p.2))

/-- Python `d[k] = v` on a key known to be present: update the entry in place
(keys of a Python dict are unique, so mapping over all entries is the same). -/
def dictSet {β : Type} (l : List (Pos × β)) (k : Pos) (v : β) : List (Pos × β) :=
  l.map (fun e => if e.1 = k then (k, v) else e)

/-- `State.is_finished` (line 43-44): all switch flags true. -/
def isFinished (s : PState) : Bool :=
  s.switches.all (fun e => e.2)

/-- `State.get_agent_movements` (lines 46-69).  Returns, for each direction in
order, the agent's destination, the action character (uppercase on a push) and
the pushed stone's destination when the destination holds a stone; a direction
whose push is blocked by a second stone is skipped (`continue`). -/
def getAgentMovements (s : PState) : List (Pos × Char × Option Pos) :=
  movementList.filterMap (fun m =>
    let hor := m.1.1
    let ver := m.1.2
    let act := m.2
    let nr := s.agent.1 + ver
    let nc := s.agent.2 + hor
    if hasKey s.stones (nr, nc) then
      let sr := nr + ver
      let sc := nc + hor
      if hasKey s.stones (sr, sc) then none
      else some ((nr, nc), act.toUpper, some (sr, sc))
    else some ((nr, nc), act, none))

/-- Manhattan distance, the `distance_cost` lambda of `State.heuristic`. -/
def distanceCost (b e : Pos) : Int :=
  (b.1 - e.1).natAbs + (b.2 - e.2).natAbs

/-- Python `min` over a list; `none` models the `ValueError` on an empty
sequence. -/
def pyMin : List Int → Option Int
  | [] => none
  | x :: xs => some ((pyMin xs).elim x (fun m => min x m))

/-- `State.heuristic` (lines 71-83).  For each switch (covered or not) it adds
the summed stone push costs plus the minimum agent-approach cost; `none`
models the `ValueError` raised by `min([])` when the state has a switch but
no stones. -/
def heuristic (s : PState) : Option Int :=
  s.switches.foldl
    (fun acc sw =>
      match acc with
      | none => none
      | some total =>
        let pushCosts := s.stones.map (fun st => distanceCost st.1 sw.1 * st.2)
        let moveCosts := s.stones.map
          (fun st => distanceCost s.agent st.1 + distanceCost st.1 sw.1 * st.2)
        match pyMin moveCosts with
        | none => none
        | some m => some (total + (pushCosts.sum + m)))
    (some 0)

/-- Resolve a Python list index: negative indices wrap once, anything outside
`[-len, len)` is an `IndexError` (`none`). -/
def pyIdx (len : Nat) (i : Int) : Option Nat :=
  if 0 ≤ i then (if i < (len : Int) then some i.toNat else none)
  else (if 0 ≤ i + (len : Int) then some (i + (len : Int)).toNat else none)

/-- Python `l[i]` for reading. -/
def pyGet {α : Type} (l : List α) (i : Int) : Option α :=
  (pyIdx l.length i).bind (fun n => l.get? n)

/-- Python `l[i] = v`. -/
def pySet {α : Type} (l : List α) (i : Int) (v : α) : Option (List α) :=
  (pyIdx l.length i).map (fun n => l.set n v)

/-- Python `self._tiles[r][c]` for reading (`none` = `IndexError`). -/
def tileAt (tiles : List (List Tile)) (p : Pos) : Option Tile :=
  (pyGet tiles p.1).bind (fun row => pyGet row p.2)

/-- The state produced for one legal movement inside
`Maze._generate_new_states` (lines 375-387): a deep copy with the agent moved,
and on a push the stone entry re-keyed to its destination and the two affected
switch flags updated.  `none` propagates the `KeyError` of
`stones_weights.pop`, which is unreachable because a push destination is only
reported by `get_agent_movements` when the agent destination holds a stone. -/
def applyMove (s : PState) (dst : Pos) (stoneDst : Option Pos) : Option PState :=
  match stoneDst with
  | none => some { s with agent := dst }
  | some d2 =>
    match dictPop s.stones dst with
    | none => none
    | some (w, rest) =>
      let stones1 := rest ++ [(d2, w)]
      let switches1 := if hasKey s.switches dst then dictSet s.switches dst false else s.switches
      let switches2 := if hasKey switches1 d2 then dictSet switches1 d2 true else switches1
      some { agent := dst, stones := stones1, switches := switches2 }

/-- `Maze._generate_new_states` (lines 360-390), without the path suffixes:
the successor states paired with their action characters, in direction order.
A `Tile.BRICK` agent or stone destination skips the direction; an
out-of-range tile lookup raises `IndexError` (`.error ()`), which in Python
aborts the whole expansion (the partially built list is discarded). -/
def genSuccsGo (tiles : List (List Tile)) (s : PState) :
    List (Pos × Char × Option Pos) → Except Unit (List (PState × Char))
  | [] => .ok []
  | (dst, act, stoneDst) :: rest =>
    match tileAt tiles dst with
    | none => .error ()
    | some Tile.BRICK => genSuccsGo tiles s rest
    | some _ =>
      match stoneDst with
      | none =>
        match applyMove s dst none with
        | none => .error ()
        | some s' => (genSuccsGo tiles s rest).map (fun l => (s', act) :: l)
      | some d2 =>
        match tileAt tiles d2 with
        | none => .error ()
        | some Tile.BRICK => genSuccsGo tiles s rest
        | some _ =>
          match applyMove s dst (some d2) with
          | none => .error ()
          | some s' => (genSuccsGo tiles s rest).map (fun l => (s', act) :: l)

def genSuccs (tiles : List (List Tile)) (s : PState) :
    Except Unit (List (PState × Char)) :=
  genSuccsGo tiles s (getAgentMovements s)

/-- `Tile.value or ' '` used by `_compress_state` line 399: `NONE`/`BLANK`
render as a space, `BRICK` as `'#'`. -/
def tileChar : Tile → Char
  | Tile.NONE => ' '
  | Tile.BLANK => ' '
  | Tile.BRICK => '#'

/-- Python `ll[r][c]` read on a nested list. -/
def pyGet2 {α : Type} (ll : List (List α)) (r c : Int) : Option α :=
  (pyGet ll r).bind (fun row => pyGet row c)

/-- Python `ll[r][c] = v` on a nested list. -/
def pySet2 {α : Type} (ll : List (List α)) (r c : Int) (v : α) :
    Option (List (List α)) :=
  (pyIdx ll.length r).bind (fun ri =>
    (ll.get? ri).bind (fun row =>
      (pySet row c v).map (fun row' => ll.set ri row')))

/-- Switch pass of `_compress_state` (lines 400-401): write `'.'` at every
switch key (the covered flag is not consulted). -/
def markSwitches : List (List Char) → List Pos → Option (List (List Char))
  | ll, [] => some ll
  | ll, p :: rest => (pySet2 ll p.1 p.2 '.').bind (fun ll' => markSwitches ll' rest)

/-- Stone pass of `_compress_state` (lines 403-404): `'$'` on a space,
`'*'` otherwise. -/
def markStones : List (List Char) → List Pos → Option (List (List Char))
  | ll, [] => some ll
  | ll, p :: rest =>
    (pyGet2 ll p.1 p.2).bind (fun ch =>
      (pySet2 ll p.1 p.2 (if ch = ' ' then '$' else '*')).bind (fun ll' =>
        markStones ll' rest))

/-- `Maze._compress_state` (lines 392-408): render the board text with
switches, stones and the agent and join the rows with newlines.  The result
is the visited-set key; `.error ()` models an `IndexError` from a position
outside the wrapped index range. -/
def compress (tiles : List (List Tile)) (s : PState) : Except Unit (List Char) :=
  let lines0 := tiles.map (fun row => row.map tileChar)
  match markSwitches lines0 (dictKeys s.switches) with
  | none => .error ()
  | some l1 =>
    match markStones l1 (dictKeys s.stones) with
    | none => .error ()
    | some l2 =>
      match pyGet2 l2 s.agent.1 s.agent.2 with
      | none => .error ()
      | some ch =>
        match pySet2 l2 s.agent.1 s.agent.2 (if ch = ' ' then '@' else '+') with
        | none => .error ()
        | some l3 => .ok (List.intercalate ['\n'] l3)

/-- The `Maze` object's fields that `read_input` populates. -/
structure Maze where
  state : PState
  tiles : List (List Tile)
  size : Pos
deriving DecidableEq, Repr, Inhabited

/-- A freshly constructed `Maze()` (Python initialises `agent_position` to the
empty tuple; `(0, 0)` is our placeholder for that unset value). -/
def freshMaze : Maze :=
  { state := { agent := (0, 0), stones := [], switches := [] },
    tiles := [], size := (0, 0) }

/-- The Python exception that aborts `read_input`'s grid loop: the
`IndexError` of `stone_weights_list.pop()` on an empty list. -/
inductive PyErr
  | indexError
deriving DecidableEq, Repr

/-- Python `list.pop()` (pop the last element); `none` is the `IndexError`
on an empty list. -/
def pyPopLast {α : Type} (l : List α) : Option (α × List α) :=
  match l.getLast? with
  | none => none
  | some x => some (x, l.dropLast)

/-- Outcome of processing one grid row in `read_input`'s character loop.
The carried state/weights/tiles reflect the mutations made so far: a bad
character returns `False` after mutating (`badChar`), an exhausted weight
list raises `IndexError` mid-row (`underflow`). -/
inductive RowOut
  | ok (st : PState) (ws : List Int) (tilesRow : List Tile)
  | badChar (st : PState) (ws : List Int) (tilesRow : List Tile)
  | underflow (st : PState) (tilesRow : List Tile)
deriving DecidableEq, Repr

/-- The character loop of `read_input` (lines 159-178) over one row: `ws` is
the (already reversed) stone-weight list popped from its back.  A tile is
appended for a cell only after its character is handled, so the failing
cell's tile is absent from the partial row. -/
def processRow (st : PState) (ws : List Int) (r : Int) : Int → List Char → RowOut
  | _, [] => RowOut.ok st ws []
  | c, ch :: rest =>
    if ch = '@' ∨ ch = '+' then
      consTile Tile.NONE (processRow { st with agent := (r, c) } ws r (c + 1) rest)
    else if ch = '$' then
      match pyPopLast ws with
      | none => RowOut.underflow st []
      | some (w, ws') =>
        consTile Tile.NONE
          (processRow { st with stones := st.stones ++ [((r, c), w)] } ws' r (c + 1) rest)
    else if ch = '.' then
      consTile Tile.NONE
        (processRow { st with switches := st.switches ++ [((r, c), false)] } ws r (c + 1) rest)
    else if ch = '*' then
      match pyPopLast ws with
      | none => RowOut.underflow st []
      | some (w, ws') =>
        consTile Tile.NONE
          (processRow
            { st with stones := st.stones ++ [((r, c), w)],
                      switches := st.switches ++ [((r, c), true)] } ws' r (c + 1) rest)
    else if ch = ' ' then
      consTile Tile.NONE (processRow st ws r (c + 1) rest)
    else if ch = '#' then
      consTile Tile.BRICK (processRow st ws r (c + 1) rest)
    else
      RowOut.badChar st ws []
where
  consTile (t : Tile) : RowOut → RowOut
    | RowOut.ok st' ws' row => RowOut.ok st' ws' (t :: row)
    | RowOut.badChar st' ws' row => RowOut.badChar st' ws' (t :: row)
    | RowOut.underflow st' row => RowOut.underflow st' (t :: row)

/-- Outcome of the whole grid loop of `read_input`. -/
inductive ReadOut
  | ok (st : PState) (ws : List Int) (tiles : List (List Tile))
  | badChar (st : PState) (ws : List Int) (tiles : List (List Tile))
  | underflow (st : PState) (tiles : List (List Tile))
deriving DecidableEq, Repr

/-- The row loop of `read_input` (lines 149-178) over the padded grid; a new
(possibly partial) tile row is appended before each row's characters run. -/
def processGrid (st : PState) (ws : List Int) (r : Int) :
    List (List Char) → ReadOut
  | [] => ReadOut.ok st ws []
  | line :: rest =>
    match processRow st ws r 0 line with
    | RowOut.ok st' ws' row => consRow row (processGrid st' ws' (r + 1) rest)
    | RowOut.badChar st' ws' row => ReadOut.badChar st' ws' [row]
    | RowOut.underflow st' row => ReadOut.underflow st' [row]
where
  consRow (row : List Tile) : ReadOut → ReadOut
    | ReadOut.ok st' ws' tl => ReadOut.ok st' ws' (row :: tl)
    | ReadOut.badChar st' ws' tl => ReadOut.badChar st' ws' (row :: tl)
    | ReadOut.underflow st' tl => ReadOut.underflow st' (row :: tl)

/-- The horizontal scan of `_calculate_blank_tiles` (lines 212-226) over one
row: maximal runs `(begin, end)` (half-open) of non-wall characters opened
just after a `'#'` whose successor is not `'#'` and closed at the next `'#'`;
a run still open at the line's end is dropped. -/
def hPartsGo : List Char → Nat → Nat → Nat → Bool → List (Nat × Nat)
  | [], _, _, _, _ => []
  | ch :: rest, col, bg, en, valid =>
    if ch = '#' then
      let closed := if valid then [(bg, en)] else []
      match rest.head? with
      | some c2 =>
        if c2 ≠ '#' then closed ++ hPartsGo rest (col + 1) (col + 1) (col + 1) true
        else closed ++ hPartsGo rest (col + 1) bg en false
      | none => closed ++ hPartsGo rest (col + 1) bg en false
    else
      if valid then hPartsGo rest (col + 1) bg (en + 1) valid
      else hPartsGo rest (col + 1) bg en valid

/-- The vertical scan of `_calculate_blank_tiles` (lines 228-243) down one
column.  `mazeRows` is `self._size[0]`; a `none` models the `IndexError` of
`line[col]` or `maze_strings[row + 1][col]` on misaligned data (it never
fires on the padded grid built by `read_input`). -/
def vPartsGo (colIdx : Nat) (mazeRows : Int) :
    List (List Char) → Nat → Nat → Nat → Bool → Option (List (Nat × Nat))
  | [], _, _, _, _ => some []
  | line :: rest, row, bg, en, valid =>
    match line.get? colIdx with
    | none => none
    | some ch =>
      if ch = '#' then
        let closed := if valid then [(bg, en)] else []
        if ((row : Int) + 1) < mazeRows then
          match rest.head? with
          | none => none
          | some l2 =>
            match l2.get? colIdx with
            | none => none
            | some c2 =>
              if c2 ≠ '#' then
                (vPartsGo colIdx mazeRows rest (row + 1) (row + 1) (row + 1) true).map
                  (fun t => closed ++ t)
              else
                (vPartsGo colIdx mazeRows rest (row + 1) bg en false).map
                  (fun t => closed ++ t)
        else
          (vPartsGo colIdx mazeRows rest (row + 1) bg en false).map
            (fun t => closed ++ t)
      else
        if valid then vPartsGo colIdx mazeRows rest (row + 1) bg (en + 1) valid
        else vPartsGo colIdx mazeRows rest (row + 1) bg en valid

/-- `for j in range(left, right): row[j] = Tile.BLANK`; `none` models the
`IndexError` when the run reaches past the row's end. -/
def setRunBlank (row : List Tile) (l r : Nat) : Option (List Tile) :=
  if l < r ∧ row.length < r then none
  else some (row.mapIdx (fun j t => if l ≤ j ∧ j < r then Tile.BLANK else t))

/-- The intersection pass of `_calculate_blank_tiles` (lines 245-254) for one
tile row: each horizontal run whose midpoint column has a vertical run
covering this row index is painted `BLANK`.  The source `break`s after the
first covering vertical run; painting is idempotent, so testing with `any`
is the same. -/
def applyPartsRow (vAll : List (List (Nat × Nat))) (i : Nat) :
    List Tile → List (Nat × Nat) → Option (List Tile)
  | row, [] => some row
  | row, (l, r) :: parts =>
    let mid := l + (r - l) / 2
    match vAll.get? mid with
    | none => none
    | some vparts =>
      if vparts.any (fun tb => tb.1 ≤ i ∧ i < tb.2) then
        (setRunBlank row l r).bind (fun row' => applyPartsRow vAll i row' parts)
      else applyPartsRow vAll i row parts

/-- Iterate `applyPartsRow` over all tile rows. -/
def calcBlankRows (vAll : List (List (Nat × Nat))) (hAll : List (List (Nat × Nat))) :
    List (List Tile) → Nat → Option (List (List Tile))
  | [], _ => some []
  | row :: rows, i =>
    match hAll.get? i with
    | none => none
    | some parts =>
      (applyPartsRow vAll i row parts).bind (fun row' =>
        (calcBlankRows vAll hAll rows (i + 1)).map (fun tl => row' :: tl))

/-- `Maze._calculate_blank_tiles` (lines 202-255). -/
def calculateBlankTiles (tiles : List (List Tile)) (size : Pos)
    (mazeStrings : List (List Char)) : Option (List (List Tile)) :=
  let hAll := mazeStrings.map (fun line => hPartsGo line 0 0 0 false)
  ((List.range size.2.toNat).mapM
      (fun col => vPartsGo col size.1 mazeStrings 0 0 0 false)).bind
    (fun vAll => calcBlankRows vAll hAll tiles 0)

/-- `Maze.read_input` (lines 133-182) after the file has been split into the
integers of its first line (`weights`, in left-to-right order) and the grid
lines.  The first line's token list is reversed (`[::-1]`) and then popped
from its back as stones are encountered.  Mutations made before a failure
persist in the returned `Maze`, mirroring the mutated Python object; the
`Bool` mirrors the method's return value and `.error .indexError` a raised
exception. -/
def readInput (m0 : Maze) (weights : List Int) (lines : List (List Char)) :
    Maze × Except PyErr Bool :=
  let rws := weights.reverse
  let cols := (lines.map List.length).foldl max 0
  let padded := lines.map (fun l => l ++ List.replicate (cols - l.length) ' ')
  match processGrid m0.state rws 0 padded with
  | ReadOut.ok st _ tiles =>
    let tiles1 := m0.tiles ++ tiles
    let size1 : Pos := ((tiles1.length : Int), (cols : Int))
    match calculateBlankTiles tiles1 size1 padded with
    | some tiles2 => ({ state := st, tiles := tiles2, size := size1 }, .ok true)
    | none => ({ state := st, tiles := tiles1, size := size1 }, .error .indexError)
  | ReadOut.badChar st _ tiles =>
    ({ m0 with state := st, tiles := m0.tiles ++ tiles }, .ok false)
  | ReadOut.underflow st tiles =>
    ({ m0 with state := st, tiles := m0.tiles ++ tiles }, .error .indexError)

/-- Comparison `state1 < state2` (`State.__lt__`, lines 40-41): compares the
heuristics; `.error ()` models a `ValueError` escaping from `heuristic`. -/
def stateLtE (s1 s2 : PState) : Except Unit Bool :=
  match heuristic s1, heuristic s2 with
  | some h1, some h2 => .ok (decide (h1 < h2))
  | _, _ => .error ()

/-- A frontier entry `(cost, state, path)` of `uniform_cost_search`. -/
abbrev Entry := Nat × PState × List Char

/-- Python `<` on two heap entries.  Tuple comparison finds the first unequal
component: integer costs first; two distinct `State` objects are never `==`
(identity equality), so equal costs always fall through to `State.__lt__`
and the path strings are never compared. -/
def entryLtE (e1 e2 : Entry) : Except Unit Bool :=
  if e1.1 ≠ e2.1 then .ok (decide (e1.1 < e2.1))
  else stateLtE e1.2.1 e2.2.1

/-- CPython `heapq._siftdown(heap, startpos, pos)` with `newitem` already
read from `heap[pos]`: walk up while `newitem < parent`, moving parents
down, and store `newitem` at the final position.  The loop strictly
decreases `pos`, so any `fuel > pos` reproduces the Python loop exactly;
callers pass an ample bound (the fuel-out branch is unreachable for them). -/
def siftdown {α : Type} [Inhabited α] (lt : α → α → Except Unit Bool) :
    Nat → List α → Nat → Nat → α → Except Unit (List α)
  | 0, _, _, _, _ => .error ()
  | fuel + 1, heap, startpos, pos, newitem =>
    if startpos < pos then
      let parentpos := (pos - 1) / 2
      let parent := heap.getD parentpos default
      match lt newitem parent with
      | .error e => .error e
      | .ok true => siftdown lt fuel (heap.set pos parent) startpos parentpos newitem
      | .ok false => .ok (heap.set pos newitem)
    else .ok (heap.set pos newitem)

/-- CPython `heapq._siftup(heap, pos)` (with its fixed `endpos` and
`startpos`): bubble the smaller child up to `pos` until a leaf is reached,
then sift `newitem` down from the leaf.  The `childpos = rightpos`
reassignment of the source is rendered by duplicating the recursive call on
the selected child; the loop strictly increases `pos` below `endpos`, so any
`fuel ≥ endpos` reproduces the Python loop exactly. -/
def siftup {α : Type} [Inhabited α] (lt : α → α → Except Unit Bool)
    (endpos : Nat) : Nat → List α → Nat → Nat → α → Except Unit (List α)
  | 0, _, _, _, _ => .error ()
  | fuel + 1, heap, startpos, pos, newitem =>
    let childpos := 2 * pos + 1
    if childpos < endpos then
      let rightpos := childpos + 1
      if rightpos < endpos then
        match lt (heap.getD childpos default) (heap.getD rightpos default) with
        | .error e => .error e
        | .ok true =>
          siftup lt endpos fuel (heap.set pos (heap.getD childpos default)) startpos childpos newitem
        | .ok false =>
          siftup lt endpos fuel (heap.set pos (heap.getD rightpos default)) startpos rightpos newitem
      else
        siftup lt endpos fuel (heap.set pos (heap.getD childpos default)) startpos childpos newitem
    else siftdown lt (pos + 1) heap startpos pos newitem

/-- CPython `heapq.heappush`: append, then sift the new item up from the
last position. -/
def heappush {α : Type} [Inhabited α] (lt : α → α → Except Unit Bool)
    (heap : List α) (item : α) : Except Unit (List α) :=
  siftdown lt (heap.length + 1) (heap ++ [item]) 0 heap.length item

/-- CPython `heapq.heappop`: pop the last element; if entries remain, move it
to the root and sift up.  `.error ()` on an empty heap models the
`IndexError` of `heap.pop()` (never reached: the search loops only while the
frontier is non-empty). -/
def heappop {α : Type} [Inhabited α] (lt : α → α → Except Unit Bool)
    (heap : List α) : Except Unit (α × List α) :=
  match heap.getLast? with
  | none => .error ()
  | some lastelt =>
    let rest := heap.dropLast
    if rest.isEmpty then .ok (lastelt, [])
    else
      let returnitem := rest.getD 0 default
      (siftup lt rest.length (rest.length + 1) (rest.set 0 lastelt) 0 0 lastelt).map
        (fun hp => (returnitem, hp))

/-- Result of a `uniform_cost_search` run: `found` is `return True` with the
solution path, `exhausted` is `return False`, `crashed` is an uncaught
Python exception, `fuelOut` means the modelling fuel ran out (the Python
loop just keeps running). -/
inductive SearchResult
  | found (path : List Char)
  | exhausted
  | crashed
  | fuelOut
deriving DecidableEq, Repr

/-- The successor loop of `uniform_cost_search` (lines 330-332): compress
each successor, and push `(cost + 1, state, path + action)` for each key not
yet visited, adding the key to the visited set. -/
def pushSuccs (tiles : List (List Tile)) (visited : List (List Char))
    (heap : List Entry) (cost : Nat) (path : List Char) :
    List (PState × Char) → Except Unit (List (List Char) × List Entry)
  | [] => .ok (visited, heap)
  | (s', a) :: rest =>
    match compress tiles s' with
    | .error e => .error e
    | .ok key =>
      if visited.contains key then pushSuccs tiles visited heap cost path rest
      else
        match heappush entryLtE heap (cost + 1, s', path ++ [a]) with
        | .error e => .error e
        | .ok heap' => pushSuccs tiles (visited ++ [key]) heap' cost path rest

/-- The `while states_heapq:` loop of `uniform_cost_search` (lines 321-333),
fuelled. -/
def ucsLoop (tiles : List (List Tile)) :
    Nat → List (List Char) → List Entry → SearchResult
  | 0, _, _ => .fuelOut
  | fuel + 1, visited, heap =>
    if heap.isEmpty then .exhausted
    else
      match heappop entryLtE heap with
      | .error _ => .crashed
      | .ok ((cost, s, path), heap') =>
        if isFinished s then .found path
        else
          match genSuccs tiles s with
          | .error _ => .crashed
          | .ok succs =>
            match pushSuccs tiles visited heap' cost path succs with
            | .error _ => .crashed
            | .ok (v', h') => ucsLoop tiles fuel v' h'

/-- `Maze.uniform_cost_search` (lines 310-333): visited set seeded with the
initial state's key, frontier seeded with `(0, state, "")`. -/
def uniformCostSearch (tiles : List (List Tile)) (s0 : PState) (fuel : Nat) :
    SearchResult :=
  match compress tiles s0 with
  | .error _ => .crashed
  | .ok k0 => ucsLoop tiles fuel [k0] [(0, s0, [])]

/-!  Legal-move semantics: a step is an entry of a successful
`_generate_new_states` expansion; a path is a sequence of such steps. -/

/-- One legal move: `(s', a)` is produced by `_generate_new_states` on `s`. -/
def LegalStep (tiles : List (List Tile)) (s : PState) (a : Char) (s' : PState) : Prop :=
  ∃ l, genSuccs tiles s = .ok l ∧ (s', a) ∈ l

/-- A legal action sequence from `s` to `s'`. -/
inductive ExecPath (tiles : List (List Tile)) : PState → List Char → PState → Prop
  | nil (s : PState) : ExecPath tiles s [] s
  | cons {s s' s'' : PState} {a : Char} {as : List Char} :
      LegalStep tiles s a s' → ExecPath tiles s' as s'' →
      ExecPath tiles s (a :: as) s''

/-- A solution: a legal action sequence reaching a finished state. -/
def Solves (tiles : List (List Tile)) (s0 : PState) (p : List Char) : Prop :=
  ∃ sF, ExecPath tiles s0 p sF ∧ isFinished sF = true

/-- Helper to write grids. -/
def gridOf (ls : List String) : List (List Char) := ls.map String.toList

/-!  Concrete boards used by the counterexamples. -/

/-- Board with a forward/reverse weight-order test: two stones, weights 1 2. -/
def c1maze : Maze := (readInput freshMaze [1, 2] (gridOf ["#@$ $#"])).1

/-- Board whose cell `(2,3)` is Unknown (`Tile.NONE`) and adjacent to the
agent: the third row's run is never closed by a wall, so the cell stays
outside the detected interior. -/
def c2maze : Maze := (readInput freshMaze [1] (gridOf ["#####", "#  @#", "### #"])).1

/-- Corridor board: agent, stone, switch in a row. -/
def c6maze : Maze := (readInput freshMaze [1] (gridOf ["#####", "#@$.#", "#####"])).1

/-- A state over `c6maze`'s board with the switch still uncovered. -/
def c6s1 : PState := { agent := (1, 1), stones := [((1, 2), 1)], switches := [((1, 3), false)] }

/-- The same state with the switch's covered flag set. -/
def c6s2 : PState := { agent := (1, 1), stones := [((1, 2), 1)], switches := [((1, 3), true)] }

/-- C1 counterexample: on grid `#@$ $#` with weight line `1 2`, the first
stone encountered (cell `(0,2)`) receives the FIRST weight 1, not the last
weight 2 as the claim states: `split(' ')[::-1]` reverses the token list and
`pop()` then removes from its back, i.e. weights are consumed in their
original left-to-right order. -/
theorem C1_counterexample :
    (readInput freshMaze [1, 2] (gridOf ["#@$ $#"])).2 = .ok true ∧
    c1maze.state.stones = [((0, 2), 1), ((0, 4), 2)] ∧
    c1maze.state.stones ≠ [((0, 2), 2), ((0, 4), 1)] :=
  ⟨rfl, rfl, by decide⟩

/-- C2 counterexample: `_generate_new_states` only rejects `Tile.BRICK`
destinations, so on this parsed board it produces a successor whose agent
occupies the Unknown cell `(2,3)`, contradicting the claim that Unknown
destinations yield no successor. -/
theorem C2_counterexample :
    (readInput freshMaze [1] (gridOf ["#####", "#  @#", "### #"])).2 = .ok true ∧
    tileAt c2maze.tiles (2, 3) = some Tile.NONE ∧
    genSuccs c2maze.tiles c2maze.state =
      .ok [({ agent := (1, 2), stones := [], switches := [] }, 'l'),
           ({ agent := (2, 3), stones := [], switches := [] }, 'd')] :=
  ⟨rfl, rfl, rfl⟩

/-- Row runs used by the claim-side Floor predicate for C3 (the scan itself
is the code's; the dispute is which column of a run gets tested). -/
def hPartsOf (lines : List (List Char)) (r : Nat) : List (Nat × Nat) :=
  hPartsGo ((lines.get? r).getD []) 0 0 0 false

/-- Column runs used by the claim-side Floor predicate for C3. -/
def vPartsOf (lines : List (List Char)) (mazeRows : Int) (c : Nat) : List (Nat × Nat) :=
  (vPartsGo c mazeRows lines 0 0 0 false).getD []

/-- The Floor predicate exactly as claim C3 words it: the cell belongs to a
wall-bounded row run whose COLUMN RANGE intersects a wall-bounded column run
covering the cell's row.  (The code instead tests only the run's midpoint
column.) -/
def claimFloorB (lines : List (List Char)) (r c : Nat) : Bool :=
  (hPartsOf lines r).any (fun lr =>
    decide (lr.1 ≤ c) && decide (c < lr.2) &&
    (List.range' lr.1 (lr.2 - lr.1)).any (fun col =>
      (vPartsOf lines (lines.length : Int) col).any (fun tb =>
        decide (tb.1 ≤ r) && decide (r < tb.2))))

/-- C3 counterexample: on this parsed grid, cell `(1,1)` lies in the row run
`[1,3)` of row 1 (walls at columns 0 and 3), and column 1 carries the
wall-bounded column run `[1,2)` covering row 1, so the claim classifies the
cell as Floor; the code tests only the run's midpoint column 2, whose column
run is unbounded below, and leaves the cell Unknown. -/
theorem C3_counterexample :
    (readInput freshMaze [1] (gridOf ["####", "#  #", "##"])).2 = .ok true ∧
    claimFloorB (gridOf ["####", "#  #", "##  "]) 1 1 = true ∧
    tileAt (readInput freshMaze [1] (gridOf ["####", "#  #", "##"])).1.tiles (1, 1) =
      some Tile.NONE :=
  ⟨rfl, by decide, rfl⟩

/-- C5 counterexample: on a state with one switch and no stones,
`State.heuristic` evaluates `min([])`, which raises `ValueError` (`none`)
instead of returning a non-negative integer. -/
theorem C5_counterexample :
    heuristic { agent := (0, 0), stones := [], switches := [((1, 1), false)] } = none :=
  rfl

/-- C6 counterexample: two states over the same parsed board that differ
only in the switch's covered flag produce the SAME key:
`_compress_state` iterates `switches_states.keys()` and never reads the
flags, so the claimed key difference for different covered-flag sets fails. -/
theorem C6_counterexample :
    c6s1.switches ≠ c6s2.switches ∧ c6s1.agent = c6s2.agent ∧
    c6s1.stones = c6s2.stones ∧
    compress c6maze.tiles c6s1 = compress c6maze.tiles c6s2 :=
  ⟨by decide, rfl, rfl, rfl⟩

/-- C7 counterexample: on grid `$x` with weight line `3`, `read_input`
reports the invalid character and returns `False`, but the `Maze` has
already been mutated: the stone read before the failure and the partial
tile row remain observable, contradicting "no partial board". -/
theorem C7_counterexample :
    (readInput freshMaze [3] (gridOf ["$x"])).2 = .ok false ∧
    (readInput freshMaze [3] (gridOf ["$x"])).1.state.stones = [((0, 0), 3)] ∧
    (readInput freshMaze [3] (gridOf ["$x"])).1.tiles = [[Tile.NONE]] ∧
    (readInput freshMaze [3] (gridOf ["$x"])).1 ≠ freshMaze :=
  ⟨rfl, rfl, rfl, by decide⟩

/-- C8 counterexample: on grid `$$` with a single weight, the second stone's
`stone_weights_list.pop()` raises a plain `IndexError` (no distinct
"insufficient weight data" condition is surfaced), and the first stone's
assignment is left behind in the mutated state. -/
theorem C8_counterexample :
    (readInput freshMaze [5] (gridOf ["$$"])).2 = .error PyErr.indexError ∧
    (readInput freshMaze [5] (gridOf ["$$"])).1.state.stones = [((0, 0), 5)] :=
  ⟨rfl, rfl⟩

/-!  Association-list lemmas. -/

theorem hasKey_iff {β : Type} {l : List (Pos × β)} {k : Pos} :
    hasKey l k = true ↔ ∃ w, (k, w) ∈ l := by
  induction l with
  | nil => simp [hasKey]
  | cons e rest ih =>
    simp only [hasKey, List.any_cons, Bool.or_eq_true, decide_eq_true_eq,
      List.mem_cons] at *
    constructor
    · rintro (he | hr)
      · exact ⟨e.2, Or.inl (by rw [← he])⟩
      · obtain ⟨w, hw⟩ := ih.mp hr
        exact ⟨w, Or.inr hw⟩
    · rintro ⟨w, (hw | hw)⟩
      · exact Or.inl (congrArg Prod.fst hw).symm
      · exact Or.inr (ih.mpr ⟨w, hw⟩)

theorem hasKey_eq_false_iff {β : Type} {l : List (Pos × β)} {k : Pos} :
    hasKey l k = false ↔ ∀ w, (k, w) ∉ l := by
  rw [← Bool.not_eq_true, hasKey_iff]
  push_neg
  rfl

theorem dictPop_mem {β : Type} {l rest : List (Pos × β)} {k : Pos} {w : β}
    (h : dictPop l k = some (w, rest)) : (k, w) ∈ l := by
  induction l generalizing rest with
  | nil => simp [dictPop] at h
  | cons e tl ih =>
    simp only [dictPop] at h
    split at h
    · rename_i he
      cases h
      subst he
      exact List.mem_cons_self _ _
    · match hrec : dictPop tl k with
      | none => rw [hrec] at h; simp at h
      | some (w', rest') =>
        rw [hrec] at h
        simp only [Option.map_some'] at h
        cases h
        exact List.mem_cons_of_mem _ (ih hrec)

theorem dictPop_sub {β : Type} {l rest : List (Pos × β)} {k : Pos} {w : β}
    (h : dictPop l k = some (w, rest)) : ∀ e ∈ rest, e ∈ l := by
  induction l generalizing rest with
  | nil => simp [dictPop] at h
  | cons e tl ih =>
    simp only [dictPop] at h
    split at h
    · cases h
      exact fun e he => List.mem_cons_of_mem _ he
    · match hrec : dictPop tl k with
      | none => rw [hrec] at h; simp at h
      | some (w', rest') =>
        rw [hrec] at h
        simp only [Option.map_some'] at h
        cases h
        intro x hx
        rcases List.mem_cons.mp hx with hx | hx
        · exact hx ▸ List.mem_cons_self _ _
        · exact List.mem_cons_of_mem _ (ih hrec x hx)

theorem dictPop_length {β : Type} {l rest : List (Pos × β)} {k : Pos} {w : β}
    (h : dictPop l k = some (w, rest)) : l.length = rest.length + 1 := by
  induction l generalizing rest with
  | nil => simp [dictPop] at h
  | cons e tl ih =>
    simp only [dictPop] at h
    split at h
    · cases h; rfl
    · match hrec : dictPop tl k with
      | none => rw [hrec] at h; simp at h
      | some (w', rest') =>
        rw [hrec] at h
        simp only [Option.map_some'] at h
        cases h
        simp [ih hrec]

theorem dictPop_isSome_of_hasKey {β : Type} {l : List (Pos × β)} {k : Pos}
    (h : hasKey l k = true) : (dictPop l k).isSome := by
  induction l with
  | nil => simp [hasKey] at h
  | cons e tl ih =>
    simp only [hasKey, List.any_cons, Bool.or_eq_true, decide_eq_true_eq] at h
    simp only [dictPop]
    split
    · simp
    · rename_i hne
      rcases h with h | h
      · exact absurd h hne
      · have := ih h
        match hrec : dictPop tl k with
        | none => rw [hrec] at this; simp at this
        | some p => simp [hrec]

theorem dictSet_cons {β : Type} (e : Pos × β) (tl : List (Pos × β)) (k : Pos) (v : β) :
    dictSet (e :: tl) k v = (if e.1 = k then (k, v) else e) :: dictSet tl k v := rfl

theorem dictKeys_cons {β : Type} (e : Pos × β) (tl : List (Pos × β)) :
    dictKeys (e :: tl) = e.1 :: dictKeys tl := rfl

theorem dictSet_keys {β : Type} (l : List (Pos × β)) (k : Pos) (v : β) :
    dictKeys (dictSet l k v) = dictKeys l := by
  induction l with
  | nil => rfl
  | cons e tl ih =>
    rw [dictSet_cons]
    by_cases he : e.1 = k
    · rw [if_pos he, dictKeys_cons, dictKeys_cons, ih, he]
    · rw [if_neg he, dictKeys_cons, dictKeys_cons, ih]

theorem dictSet_length {β : Type} (l : List (Pos × β)) (k : Pos) (v : β) :
    (dictSet l k v).length = l.length := by
  simp [dictSet]

/-!  Characterisation of the move generator's output. -/

theorem movementList_delta_ne : ∀ m ∈ movementList, ¬(m.1.1 = 0 ∧ m.1.2 = 0) := by
  decide

theorem mem_getAgentMovements {s : PState} {dst : Pos} {act : Char} {sd : Option Pos}
    (h : (dst, act, sd) ∈ getAgentMovements s) :
    (sd = none ∧ hasKey s.stones dst = false) ∨
    (∃ d2, sd = some d2 ∧ hasKey s.stones dst = true ∧ hasKey s.stones d2 = false ∧
      d2 ≠ dst) := by
  unfold getAgentMovements at h
  rw [List.mem_filterMap] at h
  obtain ⟨m, hm, hf⟩ := h
  simp only at hf
  split at hf
  · rename_i hk
    split at hf
    · exact absurd hf (by simp)
    · rename_i hk2
      rw [Option.some.injEq] at hf
      injection hf with h1 hrest
      injection hrest with h2 h3
      refine Or.inr ⟨_, h3.symm, ?_, ?_, ?_⟩
      · rw [← h1]; exact hk
      · rw [Bool.not_eq_true] at hk2; exact hk2
      · rw [← h1]
        intro hcontra
        have hne := movementList_delta_ne m hm
        have e1 : s.agent.1 + m.1.2 + m.1.2 = s.agent.1 + m.1.2 :=
          congrArg Prod.fst hcontra
        have e2 : s.agent.2 + m.1.1 + m.1.1 = s.agent.2 + m.1.1 :=
          congrArg Prod.snd hcontra
        exact hne ⟨by omega, by omega⟩
  · rename_i hk
    rw [Option.some.injEq] at hf
    injection hf with h1 hrest
    injection hrest with h2 h3
    refine Or.inl ⟨h3.symm, ?_⟩
    rw [← h1]
    exact Bool.not_eq_true _ ▸ hk

theorem mem_genSuccsGo {tiles : List (List Tile)} {s : PState}
    {ms : List (Pos × Char × Option Pos)} {l : List (PState × Char)}
    (h : genSuccsGo tiles s ms = .ok l) {s' : PState} {a : Char}
    (hm : (s', a) ∈ l) :
    ∃ dst sd, (dst, a, sd) ∈ ms ∧
      (∃ t, tileAt tiles dst = some t ∧ t ≠ Tile.BRICK) ∧
      (∀ d2, sd = some d2 → ∃ t, tileAt tiles d2 = some t ∧ t ≠ Tile.BRICK) ∧
      applyMove s dst sd = some s' := by
  induction ms generalizing l with
  | nil =>
    simp only [genSuccsGo] at h
    cases h
    cases hm
  | cons m rest ih =>
    obtain ⟨dst, act, sd⟩ := m
    simp only [genSuccsGo] at h
    match htile : tileAt tiles dst with
    | none => simp only [htile] at h; cases h
    | some Tile.BRICK =>
      simp only [htile] at h
      obtain ⟨dst', sd', hmem, hp⟩ := ih h hm
      exact ⟨dst', sd', List.mem_cons_of_mem _ hmem, hp⟩
    | some Tile.NONE =>
      simp only [htile] at h
      cases sd with
      | none =>
        match hrec : genSuccsGo tiles s rest with
        | .error e => simp only [hrec] at h; cases h
        | .ok l' =>
          simp only [hrec, Except.map, Except.ok.injEq, applyMove] at h
          subst h
          rcases List.mem_cons.mp hm with heq | hmem
          · injection heq with e1 e2
            subst e2
            exact ⟨dst, none, List.mem_cons_self _ _,
              ⟨Tile.NONE, htile, by simp⟩, by simp, by subst e1; rfl⟩
          · obtain ⟨dst', sd', hmem', hp⟩ := ih hrec hmem
            exact ⟨dst', sd', List.mem_cons_of_mem _ hmem', hp⟩
      | some d2 =>
        match htile2 : tileAt tiles d2 with
        | none => simp only [htile2] at h; cases h
        | some Tile.BRICK =>
          simp only [htile2] at h
          obtain ⟨dst', sd', hmem, hp⟩ := ih h hm
          exact ⟨dst', sd', List.mem_cons_of_mem _ hmem, hp⟩
        | some Tile.NONE =>
          simp only [htile2] at h
          match happ : applyMove s dst (some d2) with
          | none => simp only [happ] at h; cases h
          | some s₀ =>
            simp only [happ] at h
            match hrec : genSuccsGo tiles s rest with
            | .error e => simp only [hrec] at h; cases h
            | .ok l' =>
              simp only [hrec, Except.map, Except.ok.injEq] at h
              subst h
              rcases List.mem_cons.mp hm with heq | hmem
              · injection heq with e1 e2
                subst e2
                exact ⟨dst, some d2, List.mem_cons_self _ _,
                  ⟨Tile.NONE, htile, by simp⟩,
                  fun d hd => by cases hd; exact ⟨Tile.NONE, htile2, by simp⟩,
                  by subst e1; exact happ⟩
              · obtain ⟨dst', sd', hmem', hp⟩ := ih hrec hmem
                exact ⟨dst', sd', List.mem_cons_of_mem _ hmem', hp⟩
        | some Tile.BLANK =>
          simp only [htile2] at h
          match happ : applyMove s dst (some d2) with
          | none => simp only [happ] at h; cases h
          | some s₀ =>
            simp only [happ] at h
            match hrec : genSuccsGo tiles s rest with
            | .error e => simp only [hrec] at h; cases h
            | .ok l' =>
              simp only [hrec, Except.map, Except.ok.injEq] at h
              subst h
              rcases List.mem_cons.mp hm with heq | hmem
              · injection heq with e1 e2
                subst e2
                exact ⟨dst, some d2, List.mem_cons_self _ _,
                  ⟨Tile.NONE, htile, by simp⟩,
                  fun d hd => by cases hd; exact ⟨Tile.BLANK, htile2, by simp⟩,
                  by subst e1; exact happ⟩
              · obtain ⟨dst', sd', hmem', hp⟩ := ih hrec hmem
                exact ⟨dst', sd', List.mem_cons_of_mem _ hmem', hp⟩
    | some Tile.BLANK =>
      simp only [htile] at h
      cases sd with
      | none =>
        match hrec : genSuccsGo tiles s rest with
        | .error e => simp only [hrec] at h; cases h
        | .ok l' =>
          simp only [hrec, Except.map, Except.ok.injEq, applyMove] at h
          subst h
          rcases List.mem_cons.mp hm with heq | hmem
          · injection heq with e1 e2
            subst e2
            exact ⟨dst, none, List.mem_cons_self _ _,
              ⟨Tile.BLANK, htile, by simp⟩, by simp, by subst e1; rfl⟩
          · obtain ⟨dst', sd', hmem', hp⟩ := ih hrec hmem
            exact ⟨dst', sd', List.mem_cons_of_mem _ hmem', hp⟩
      | some d2 =>
        match htile2 : tileAt tiles d2 with
        | none => simp only [htile2] at h; cases h
        | some Tile.BRICK =>
          simp only [htile2] at h
          obtain ⟨dst', sd', hmem, hp⟩ := ih h hm
          exact ⟨dst', sd', List.mem_cons_of_mem _ hmem, hp⟩
        | some Tile.NONE =>
          simp only [htile2] at h
          match happ : applyMove s dst (some d2) with
          | none => simp only [happ] at h; cases h
          | some s₀ =>
            simp only [happ] at h
            match hrec : genSuccsGo tiles s rest with
            | .error e => simp only [hrec] at h; cases h
            | .ok l' =>
              simp only [hrec, Except.map, Except.ok.injEq] at h
              subst h
              rcases List.mem_cons.mp hm with heq | hmem
              · injection heq with e1 e2
                subst e2
                exact ⟨dst, some d2, List.mem_cons_self _ _,
                  ⟨Tile.BLANK, htile, by simp⟩,
                  fun d hd => by cases hd; exact ⟨Tile.NONE, htile2, by simp⟩,
                  by subst e1; exact happ⟩
              · obtain ⟨dst', sd', hmem', hp⟩ := ih hrec hmem
                exact ⟨dst', sd', List.mem_cons_of_mem _ hmem', hp⟩
        | some Tile.BLANK =>
          simp only [htile2] at h
          match happ : applyMove s dst (some d2) with
          | none => simp only [happ] at h; cases h
          | some s₀ =>
            simp only [happ] at h
            match hrec : genSuccsGo tiles s rest with
            | .error e => simp only [hrec] at h; cases h
            | .ok l' =>
              simp only [hrec, Except.map, Except.ok.injEq] at h
              subst h
              rcases List.mem_cons.mp hm with heq | hmem
              · injection heq with e1 e2
                subst e2
                exact ⟨dst, some d2, List.mem_cons_self _ _,
                  ⟨Tile.BLANK, htile, by simp⟩,
                  fun d hd => by cases hd; exact ⟨Tile.BLANK, htile2, by simp⟩,
                  by subst e1; exact happ⟩
              · obtain ⟨dst', sd', hmem', hp⟩ := ih hrec hmem
                exact ⟨dst', sd', List.mem_cons_of_mem _ hmem', hp⟩

theorem dictKeys_mem_iff {β : Type} {l : List (Pos × β)} {p : Pos} :
    p ∈ dictKeys l ↔ ∃ w, (p, w) ∈ l := by
  simp only [dictKeys, List.mem_map]
  constructor
  · rintro ⟨e, he, hp⟩
    subst hp
    exact ⟨e.2, he⟩
  · rintro ⟨w, hw⟩
    exact ⟨(p, w), hw, rfl⟩

/-- The switch dict after a push from `dst` to `d2`
(`_generate_new_states` lines 383-387). -/
def pushSwitches (sw : List (Pos × Bool)) (dst d2 : Pos) : List (Pos × Bool) :=
  let sw1 := if hasKey sw dst then dictSet sw dst false else sw
  if hasKey sw1 d2 then dictSet sw1 d2 true else sw1

theorem applyMove_some_cases {s : PState} {dst : Pos} {sd : Option Pos} {s' : PState}
    (h : applyMove s dst sd = some s') :
    (sd = none ∧ s' = { s with agent := dst }) ∨
    (∃ d2 w rest, sd = some d2 ∧ dictPop s.stones dst = some (w, rest) ∧
      s' = { agent := dst, stones := rest ++ [(d2, w)],
             switches := pushSwitches s.switches dst d2 }) := by
  cases sd with
  | none =>
    simp only [applyMove, Option.some.injEq] at h
    exact Or.inl ⟨rfl, h.symm⟩
  | some d2 =>
    simp only [applyMove] at h
    match hpop : dictPop s.stones dst with
    | none => rw [hpop] at h; cases h
    | some (w, rest) =>
      rw [hpop] at h
      simp only [Option.some.injEq] at h
      exact Or.inr ⟨d2, w, rest, rfl, rfl, h.symm⟩

/-- Claim C2, amended: a direction whose agent destination is a Wall
(`Tile.BRICK`) yields no successor and a push whose stone destination is a
Wall is rejected, so every successor's agent cell and every newly occupied
stone cell carries a non-Wall tile; destinations classified Unknown
(`Tile.NONE`) are however accepted (only the Wall check exists in
`_generate_new_states`). -/
theorem C2_amended {tiles : List (List Tile)} {s : PState} {l : List (PState × Char)}
    (h : genSuccs tiles s = .ok l) {s' : PState} {a : Char} (hm : (s', a) ∈ l) :
    (∃ t, tileAt tiles s'.agent = some t ∧ t ≠ Tile.BRICK) ∧
    (∀ p ∈ dictKeys s'.stones, hasKey s.stones p = true ∨
      ∃ t, tileAt tiles p = some t ∧ t ≠ Tile.BRICK) := by
  obtain ⟨dst, sd, _, ⟨t, ht, htb⟩, hsd, happ⟩ := mem_genSuccsGo h hm
  rcases applyMove_some_cases happ with ⟨hn, hs'⟩ | ⟨d2, w, rest, hsome, hpop, hs'⟩
  · subst hs'
    refine ⟨⟨t, ht, htb⟩, ?_⟩
    intro p hp
    exact Or.inl (hasKey_iff.mpr (dictKeys_mem_iff.mp hp))
  · subst hs'
    refine ⟨⟨t, ht, htb⟩, ?_⟩
    intro p hp
    simp only [dictKeys, List.map_append, List.mem_append, List.map_cons,
      List.map_nil, List.mem_singleton] at hp
    rcases hp with hp | hp
    · obtain ⟨w', hw'⟩ := dictKeys_mem_iff.mp hp
      exact Or.inl (hasKey_iff.mpr ⟨w', dictPop_sub hpop _ hw'⟩)
    · exact Or.inr (hp ▸ hsd d2 hsome)

/-- The single successor on the corridor board: the stone pushed right onto
the switch. -/
def c2w : PState :=
  { agent := (1, 2), stones := [((1, 3), 1)], switches := [((1, 3), true)] }

/-- Witness for the amended C2: on the corridor board the push successor's
agent cell and new stone cell are non-Wall. -/
theorem C2_amended_witness :
    genSuccs c6maze.tiles c6maze.state = .ok [(c2w, 'R')] ∧
    ((∃ t, tileAt c6maze.tiles c2w.agent = some t ∧ t ≠ Tile.BRICK) ∧
     (∀ p ∈ dictKeys c2w.stones, hasKey c6maze.state.stones p = true ∨
       ∃ t, tileAt c6maze.tiles p = some t ∧ t ≠ Tile.BRICK)) :=
  ⟨rfl, @C2_amended c6maze.tiles c6maze.state [(c2w, 'R')] rfl c2w 'R'
    (List.mem_singleton.mpr rfl)⟩

theorem dictPop_keys_sublist {β : Type} {l rest : List (Pos × β)} {k : Pos} {w : β}
    (h : dictPop l k = some (w, rest)) : (dictKeys rest).Sublist (dictKeys l) := by
  induction l generalizing rest with
  | nil => simp [dictPop] at h
  | cons e tl ih =>
    simp only [dictPop] at h
    split at h
    · cases h
      exact List.sublist_cons_self _ _
    · match hrec : dictPop tl k with
      | none => rw [hrec] at h; simp at h
      | some (w', rest') =>
        rw [hrec] at h
        simp only [Option.map_some'] at h
        cases h
        exact List.Sublist.cons₂ _ (ih hrec)

theorem dictPop_not_hasKey {β : Type} {l rest : List (Pos × β)} {k : Pos} {w : β}
    (hnd : (dictKeys l).Nodup) (h : dictPop l k = some (w, rest)) :
    hasKey rest k = false := by
  induction l generalizing rest with
  | nil => simp [dictPop] at h
  | cons e tl ih =>
    simp only [dictPop] at h
    rw [dictKeys_cons, List.nodup_cons] at hnd
    split at h
    · rename_i he
      cases h
      rw [hasKey_eq_false_iff]
      intro w' hw'
      exact hnd.1 (he ▸ dictKeys_mem_iff.mpr ⟨w', hw'⟩)
    · rename_i hne
      match hrec : dictPop tl k with
      | none => rw [hrec] at h; simp at h
      | some (w', rest') =>
        rw [hrec] at h
        simp only [Option.map_some'] at h
        cases h
        rw [hasKey_eq_false_iff]
        intro w'' hw''
        rcases List.mem_cons.mp hw'' with hw'' | hw''
        · exact absurd (congrArg Prod.fst hw'').symm hne
        · have hres := ih hnd.2 hrec
          rw [hasKey_eq_false_iff] at hres
          exact hres w'' hw''

theorem pushSwitches_keys (sw : List (Pos × Bool)) (dst d2 : Pos) :
    dictKeys (pushSwitches sw dst d2) = dictKeys sw := by
  unfold pushSwitches
  by_cases h1 : hasKey sw dst = true
  · by_cases h2 : hasKey (dictSet sw dst false) d2 = true
    · simp [h1, h2, dictSet_keys]
    · simp [h1, h2, dictSet_keys]
  · by_cases h2 : hasKey sw d2 = true
    · simp [h1, h2, dictSet_keys]
    · simp [h1, h2]

/-- Single-step invariants of `_generate_new_states`: each successor keeps
the stone count and the switch key list, keeps stone keys duplicate-free,
and never leaves the agent on a stone. -/
theorem stepInv {tiles : List (List Tile)} {s : PState} {l : List (PState × Char)}
    (h : genSuccs tiles s = .ok l) {s' : PState} {a : Char} (hm : (s', a) ∈ l)
    (hnd : (dictKeys s.stones).Nodup) :
    s'.stones.length = s.stones.length ∧
    dictKeys s'.switches = dictKeys s.switches ∧
    (dictKeys s'.stones).Nodup ∧
    hasKey s'.stones s'.agent = false := by
  obtain ⟨dst, sd, hmv, _, _, happ⟩ := mem_genSuccsGo h hm
  have hmvfacts := mem_getAgentMovements hmv
  rcases applyMove_some_cases happ with ⟨hn, hs'⟩ | ⟨d2, w, rest, hsome, hpop, hs'⟩
  · subst hs'
    refine ⟨rfl, rfl, hnd, ?_⟩
    rcases hmvfacts with ⟨_, hk⟩ | ⟨d2, hd2, _⟩
    · exact hk
    · rw [hn] at hd2; cases hd2
  · subst hs'
    rcases hmvfacts with ⟨hsdn, _⟩ | ⟨d2', hd2, hkdst, hkd2, hne⟩
    · rw [hsome] at hsdn; cases hsdn
    · rw [hsome, Option.some.injEq] at hd2
      subst hd2
      have hsub := dictPop_keys_sublist hpop
      have hndrest : (dictKeys rest).Nodup := hnd.sublist hsub
      have hd2rest : d2 ∉ dictKeys rest := by
        intro hc
        obtain ⟨w', hw'⟩ := dictKeys_mem_iff.mp hc
        have : hasKey s.stones d2 = true :=
          hasKey_iff.mpr ⟨w', dictPop_sub hpop _ hw'⟩
        rw [this] at hkd2; cases hkd2
      constructor
      · simp only [List.length_append, List.length_singleton]
        rw [dictPop_length hpop]
      constructor
      · exact pushSwitches_keys s.switches dst d2
      constructor
      · show (dictKeys (rest ++ [(d2, w)])).Nodup
        simp only [dictKeys, List.map_append, List.map_cons, List.map_nil]
        rw [List.nodup_append]
        exact ⟨hndrest, List.nodup_singleton _,
          fun p hp hq => hd2rest ((List.mem_singleton.mp hq) ▸ hp)⟩
      · show hasKey (rest ++ [(d2, w)]) dst = false
        rw [hasKey_eq_false_iff]
        intro w' hw'
        rcases List.mem_append.mp hw' with hw' | hw'
        · have := dictPop_not_hasKey hnd hpop
          rw [hasKey_eq_false_iff] at this
          exact this w' hw'
        · exact hne (congrArg Prod.fst (List.mem_singleton.mp hw')).symm

/-- Reachability by legal moves from an initial state. -/
inductive Reach (tiles : List (List Tile)) (s0 : PState) : PState → Prop
  | refl : Reach tiles s0 s0
  | step {s s' : PState} {a : Char} :
      Reach tiles s0 s → LegalStep tiles s a s' → Reach tiles s0 s'

/-- The invariant pack carried along reachability. -/
theorem reach_inv {tiles : List (List Tile)} {s0 s : PState}
    (hnd : (dictKeys s0.stones).Nodup) (hr : Reach tiles s0 s) :
    s.stones.length = s0.stones.length ∧
    dictKeys s.switches = dictKeys s0.switches ∧
    (dictKeys s.stones).Nodup := by
  induction hr with
  | refl => exact ⟨rfl, rfl, hnd⟩
  | step hr hstep ih =>
    obtain ⟨l, hgen, hmem⟩ := hstep
    obtain ⟨h1, h2, h3, _⟩ := stepInv hgen hmem ih.2.2
    exact ⟨h1.trans ih.1, h2.trans ih.2.1, h3⟩

/-- Claim C9: for every state reachable from an initial state with
duplicate-free stone keys and every successor generated from it, the stone
count and the switch key list equal the initial ones, the stones remain
duplicate-free (no two stones share a cell; a push onto an occupied cell is
rejected by `get_agent_movements`), and the agent stands on no stone. -/
theorem C9_invariants {tiles : List (List Tile)} {s0 s s' : PState} {a : Char}
    (hnd : (dictKeys s0.stones).Nodup) (hr : Reach tiles s0 s)
    (hs : LegalStep tiles s a s') :
    s'.stones.length = s0.stones.length ∧
    dictKeys s'.switches = dictKeys s0.switches ∧
    (dictKeys s'.stones).Nodup ∧
    hasKey s'.stones s'.agent = false := by
  obtain ⟨hlen, hsw, hndr⟩ := reach_inv hnd hr
  obtain ⟨l, hgen, hmem⟩ := hs
  obtain ⟨h1, h2, h3, h4⟩ := stepInv hgen hmem hndr
  exact ⟨h1.trans hlen, h2.trans hsw, h3, h4⟩

/-- Witness for C9: the corridor board's single push keeps one stone, the
same switch key, distinct stones and the agent off the stones. -/
theorem C9_invariants_witness :
    c2w.stones.length = c6maze.state.stones.length ∧
    dictKeys c2w.switches = dictKeys c6maze.state.switches ∧
    (dictKeys c2w.stones).Nodup ∧
    hasKey c2w.stones c2w.agent = false :=
  @C9_invariants c6maze.tiles c6maze.state c6maze.state c2w 'R'
    (by decide) Reach.refl ⟨[(c2w, 'R')], rfl, List.mem_singleton.mpr rfl⟩

/-- A state's switch flags agree with stone occupancy. -/
def Consistent (s : PState) : Prop :=
  ∀ e ∈ s.switches, (e.2 = true ↔ hasKey s.stones e.1 = true)

theorem hasKey_append {β : Type} (l1 l2 : List (Pos × β)) (p : Pos) :
    hasKey (l1 ++ l2) p = (hasKey l1 p || hasKey l2 p) := by
  simp [hasKey, List.any_append]

theorem hasKey_dictSet {β : Type} (l : List (Pos × β)) (k p : Pos) (v : β) :
    hasKey (dictSet l k v) p = hasKey l p := by
  induction l with
  | nil => rfl
  | cons e tl ih =>
    rw [dictSet_cons]
    by_cases he : e.1 = k
    · rw [if_pos he]
      show (decide (k = p) || hasKey (dictSet tl k v) p) = (decide (e.1 = p) || hasKey tl p)
      rw [ih, he]
    · rw [if_neg he]
      show (decide (e.1 = p) || hasKey (dictSet tl k v) p) = (decide (e.1 = p) || hasKey tl p)
      rw [ih]

theorem mem_dictSet_iff {β : Type} {l : List (Pos × β)} {k : Pos} {v : β} {e' : Pos × β} :
    e' ∈ dictSet l k v ↔ ∃ e ∈ l, e' = if e.1 = k then (k, v) else e := by
  simp only [dictSet, List.mem_map]
  constructor
  · rintro ⟨e, he, hf⟩; exact ⟨e, he, hf.symm⟩
  · rintro ⟨e, he, hf⟩; exact ⟨e, he, hf.symm⟩

theorem dictPop_rest_hasKey {β : Type} {l rest : List (Pos × β)} {k : Pos} {w : β}
    (hnd : (dictKeys l).Nodup) (h : dictPop l k = some (w, rest)) (p : Pos) :
    hasKey rest p = true ↔ (hasKey l p = true ∧ p ≠ k) := by
  constructor
  · intro hp
    obtain ⟨w', hw'⟩ := hasKey_iff.mp hp
    refine ⟨hasKey_iff.mpr ⟨w', dictPop_sub h _ hw'⟩, ?_⟩
    intro hpk
    subst hpk
    have := dictPop_not_hasKey hnd h
    rw [hasKey_eq_false_iff] at this
    exact this w' hw'
  · rintro ⟨hp, hpk⟩
    obtain ⟨w', hw'⟩ := hasKey_iff.mp hp
    induction l generalizing rest with
    | nil => cases hw'
    | cons e tl ih =>
      simp only [dictPop] at h
      split at h
      · rename_i he
        cases h
        rcases List.mem_cons.mp hw' with hw'' | hw''
        · exact absurd ((congrArg Prod.fst hw'').trans he) hpk
        · exact hasKey_iff.mpr ⟨w', hw''⟩
      · rename_i hne
        match hrec : dictPop tl k with
        | none => rw [hrec] at h; simp at h
        | some (w0, rest0) =>
          rw [hrec] at h
          simp only [Option.map_some'] at h
          cases h
          rw [dictKeys_cons, List.nodup_cons] at hnd
          rcases List.mem_cons.mp hw' with hw'' | hw''
          · show (decide (e.1 = p) || hasKey rest0 p) = true
            have : e.1 = p := congrArg Prod.fst hw''.symm
            simp [this]
          · show (decide (e.1 = p) || hasKey rest0 p) = true
            have hres := ih hnd.2 hrec (hasKey_iff.mpr ⟨w', hw''⟩) hw''
            rw [hres]
            simp

theorem mem_pushSwitches {sw : List (Pos × Bool)} {dst d2 : Pos} {e' : Pos × Bool}
    (hne : d2 ≠ dst) (h : e' ∈ pushSwitches sw dst d2) :
    ∃ e ∈ sw, e' = if e.1 = d2 then (d2, true) else if e.1 = dst then (dst, false) else e := by
  unfold pushSwitches at h
  by_cases h1 : hasKey sw dst = true
  · rw [if_pos h1] at h
    by_cases h2 : hasKey (dictSet sw dst false) d2 = true
    · rw [if_pos h2] at h
      obtain ⟨e1, he1, hf1⟩ := mem_dictSet_iff.mp h
      obtain ⟨e0, he0, hf0⟩ := mem_dictSet_iff.mp he1
      refine ⟨e0, he0, ?_⟩
      by_cases hed : e0.1 = dst
      · rw [if_pos hed] at hf0
        subst hf0
        rw [if_neg (show ¬((dst, false).1 = d2) from fun hc => hne hc.symm)] at hf1
        rw [if_neg (fun hc : e0.1 = d2 => hne (hc.symm.trans hed)), if_pos hed]
        exact hf1
      · rw [if_neg hed] at hf0
        rw [hf0] at hf1
        by_cases hed2 : e0.1 = d2
        · rw [if_pos hed2] at hf1
          rw [if_pos hed2]
          exact hf1
        · rw [if_neg hed2] at hf1
          rw [if_neg hed2, if_neg hed]
          exact hf1
    · rw [if_neg h2] at h
      obtain ⟨e0, he0, hf0⟩ := mem_dictSet_iff.mp h
      refine ⟨e0, he0, ?_⟩
      have hnk : hasKey sw d2 ≠ true := by
        rw [← hasKey_dictSet sw dst d2 false]; exact h2
      by_cases hed2 : e0.1 = d2
      · exact absurd (hasKey_iff.mpr ⟨e0.2, by rw [← hed2]; exact he0⟩) hnk
      · rw [if_neg hed2]
        exact hf0
  · rw [if_neg h1] at h
    by_cases h2 : hasKey sw d2 = true
    · rw [if_pos h2] at h
      obtain ⟨e0, he0, hf0⟩ := mem_dictSet_iff.mp h
      refine ⟨e0, he0, ?_⟩
      by_cases hed2 : e0.1 = d2
      · rw [if_pos hed2] at hf0
        rw [if_pos hed2]
        exact hf0
      · rw [if_neg hed2] at hf0
        rw [if_neg hed2,
          if_neg (fun hc : e0.1 = dst => h1 (hasKey_iff.mpr ⟨e0.2, by rw [← hc]; exact he0⟩))]
        exact hf0
    · rw [if_neg h2] at h
      refine ⟨e', h, ?_⟩
      rw [if_neg (fun hc : e'.1 = d2 => h2 (hasKey_iff.mpr ⟨e'.2, by rw [← hc]; exact h⟩)),
        if_neg (fun hc : e'.1 = dst => h1 (hasKey_iff.mpr ⟨e'.2, by rw [← hc]; exact h⟩))]

/-- `_generate_new_states` keeps the covered flags consistent with stone
occupancy: pushing a stone off a switch clears its flag, onto a switch sets
it, and everything else is untouched. -/
theorem stepConsistent {tiles : List (List Tile)} {s : PState} {l : List (PState × Char)}
    (h : genSuccs tiles s = .ok l) {s' : PState} {a : Char} (hm : (s', a) ∈ l)
    (hnd : (dictKeys s.stones).Nodup) (hc : Consistent s) : Consistent s' := by
  obtain ⟨dst, sd, hmv, _, _, happ⟩ := mem_genSuccsGo h hm
  have hmvfacts := mem_getAgentMovements hmv
  rcases applyMove_some_cases happ with ⟨hn, hs'⟩ | ⟨d2, w, rest, hsome, hpop, hs'⟩
  · subst hs'
    exact hc
  · subst hs'
    rcases hmvfacts with ⟨hsdn, _⟩ | ⟨d2', hd2, hkdst, hkd2, hne⟩
    · rw [hsome] at hsdn; cases hsdn
    · rw [hsome, Option.some.injEq] at hd2
      subst hd2
      have hpres : ∀ p : Pos, hasKey (rest ++ [(d2, w)]) p = true ↔
          ((hasKey s.stones p = true ∧ p ≠ dst) ∨ p = d2) := by
        intro p
        rw [hasKey_append]
        simp only [Bool.or_eq_true]
        constructor
        · rintro (hp | hp)
          · exact Or.inl ((dictPop_rest_hasKey hnd hpop p).mp hp)
          · refine Or.inr ?_
            have : decide (d2 = p) = true := by
              simpa [hasKey] using hp
            exact (of_decide_eq_true this).symm
        · rintro (⟨hp, hpd⟩ | hp)
          · exact Or.inl ((dictPop_rest_hasKey hnd hpop p).mpr ⟨hp, hpd⟩)
          · subst hp
            refine Or.inr ?_
            simp [hasKey]
      intro e' he'
      obtain ⟨e0, he0, hf0⟩ := mem_pushSwitches hne he'
      by_cases hed2 : e0.1 = d2
      · rw [if_pos hed2] at hf0
        subst hf0
        constructor
        · intro _
          exact (hpres d2).mpr (Or.inr rfl)
        · intro _
          rfl
      · by_cases hed : e0.1 = dst
        · rw [if_neg hed2, if_pos hed] at hf0
          subst hf0
          constructor
          · intro hcf; cases hcf
          · intro hp
            rcases (hpres dst).mp hp with ⟨_, hcon⟩ | hcon
            · exact absurd rfl hcon
            · exact absurd hcon.symm hne
        · rw [if_neg hed2, if_neg hed] at hf0
          rw [hf0]
          constructor
          · intro hf
            exact (hpres e0.1).mpr (Or.inl ⟨(hc e0 he0).mp hf, hed⟩)
          · intro hp
            rcases (hpres e0.1).mp hp with ⟨hk, _⟩ | hk
            · exact (hc e0 he0).mpr hk
            · exact absurd hk hed2

/-- A key read before cell `(r, c)` in row-major order. -/
def KeyBefore (p : Pos) (r c : Int) : Prop :=
  p.1 < r ∨ (p.1 = r ∧ p.2 < c)

theorem KeyBefore_ne {p : Pos} {r c : Int} (h : KeyBefore p r c) : p ≠ (r, c) := by
  rintro rfl
  rcases h with h | ⟨_, h⟩ <;> omega

theorem KeyBefore_mono_col {p : Pos} {r c : Int} (h : KeyBefore p r c) :
    KeyBefore p r (c + 1) := by
  rcases h with h | ⟨h1, h2⟩
  · exact Or.inl h
  · exact Or.inr ⟨h1, by omega⟩

theorem KeyBefore_next_row {p : Pos} {r c : Int} (h : KeyBefore p r c) :
    KeyBefore p (r + 1) 0 := by
  rcases h with h | ⟨h1, _⟩
  · exact Or.inl (by omega)
  · exact Or.inl (by omega)

/-- Invariant of `read_input`'s character loop at cell `(r, c)`: flags agree
with stones, keys are duplicate-free and all lie before the cursor. -/
def ParseInv (st : PState) (r c : Int) : Prop :=
  Consistent st ∧ (dictKeys st.stones).Nodup ∧ (dictKeys st.switches).Nodup ∧
  (∀ p ∈ dictKeys st.stones, KeyBefore p r c) ∧
  (∀ p ∈ dictKeys st.switches, KeyBefore p r c)

theorem hasKey_append_single_ne {β : Type} {l : List (Pos × β)} {q p : Pos} {w : β}
    (hne : p ≠ q) : hasKey (l ++ [(q, w)]) p = hasKey l p := by
  rw [hasKey_append]
  have : hasKey [(q, w)] p = false := by
    simp only [hasKey, List.any_cons, List.any_nil, Bool.or_false, decide_eq_false_iff_not]
    exact fun hc => hne (hc.symm)
  rw [this, Bool.or_false]

theorem nodup_keys_append_single {β : Type} {l : List (Pos × β)} {q : Pos} {w : β}
    (hnd : (dictKeys l).Nodup) (hq : ∀ p ∈ dictKeys l, p ≠ q) :
    (dictKeys (l ++ [(q, w)])).Nodup := by
  simp only [dictKeys, List.map_append, List.map_cons, List.map_nil]
  rw [List.nodup_append]
  exact ⟨hnd, List.nodup_singleton _,
    fun p hp hq' => (hq p hp) (List.mem_singleton.mp hq')⟩

theorem mem_keys_append_single {β : Type} {l : List (Pos × β)} {q p : Pos} {w : β}
    (h : p ∈ dictKeys (l ++ [(q, w)])) : p ∈ dictKeys l ∨ p = q := by
  simp only [dictKeys, List.map_append, List.map_cons, List.map_nil, List.mem_append,
    List.mem_singleton] at h
  exact h

theorem consTile_ok {t : Tile} {res : RowOut} {st' : PState} {ws' : List Int}
    {row : List Tile} (h : processRow.consTile t res = RowOut.ok st' ws' row) :
    ∃ row0, res = RowOut.ok st' ws' row0 ∧ row = t :: row0 := by
  cases res with
  | ok a b c =>
    simp only [processRow.consTile, RowOut.ok.injEq] at h
    exact ⟨c, by rw [h.1, h.2.1], h.2.2.symm⟩
  | badChar a b c => simp [processRow.consTile] at h
  | underflow a b => simp [processRow.consTile] at h

theorem ParseInv_skip {st : PState} {r c : Int} (h : ParseInv st r c) :
    ParseInv st r (c + 1) :=
  ⟨h.1, h.2.1, h.2.2.1, fun p hp => KeyBefore_mono_col (h.2.2.2.1 p hp),
   fun p hp => KeyBefore_mono_col (h.2.2.2.2 p hp)⟩

theorem ParseInv_agent {st : PState} {r c : Int} {a' : Pos} (h : ParseInv st r c) :
    ParseInv { st with agent := a' } r (c + 1) :=
  ParseInv_skip ⟨h.1, h.2⟩

theorem hasKey_false_of_KeyBefore {β : Type} {l : List (Pos × β)} {r c : Int}
    (hkb : ∀ p ∈ dictKeys l, KeyBefore p r c) : hasKey l (r, c) = false := by
  rw [hasKey_eq_false_iff]
  intro w hw
  exact KeyBefore_ne (hkb _ (dictKeys_mem_iff.mpr ⟨w, hw⟩)) rfl

theorem ParseInv_stone {st : PState} {r c : Int} {w : Int} (h : ParseInv st r c) :
    ParseInv { st with stones := st.stones ++ [((r, c), w)] } r (c + 1) := by
  obtain ⟨hcons, hnds, hndw, hkbs, hkbw⟩ := h
  refine ⟨?_, ?_, hndw, ?_, fun p hp => KeyBefore_mono_col (hkbw p hp)⟩
  · intro e he
    rw [show ({ st with stones := st.stones ++ [((r, c), w)] } : PState).switches
        = st.switches from rfl] at he
    have hne : e.1 ≠ (r, c) := KeyBefore_ne (hkbw _ (dictKeys_mem_iff.mpr ⟨e.2, he⟩))
    show e.2 = true ↔ hasKey (st.stones ++ [((r, c), w)]) e.1 = true
    rw [hasKey_append_single_ne hne]
    exact hcons e he
  · exact nodup_keys_append_single hnds
      (fun p hp => KeyBefore_ne (hkbs p hp))
  · intro p hp
    rcases mem_keys_append_single hp with hp | hp
    · exact KeyBefore_mono_col (hkbs p hp)
    · exact hp ▸ Or.inr ⟨rfl, by omega⟩

theorem ParseInv_switch_false {st : PState} {r c : Int} (h : ParseInv st r c) :
    ParseInv { st with switches := st.switches ++ [((r, c), false)] } r (c + 1) := by
  obtain ⟨hcons, hnds, hndw, hkbs, hkbw⟩ := h
  refine ⟨?_, hnds, ?_, fun p hp => KeyBefore_mono_col (hkbs p hp), ?_⟩
  · intro e he
    rcases List.mem_append.mp he with he | he
    · exact hcons e he
    · rw [List.mem_singleton.mp he]
      show (false : Bool) = true ↔ hasKey st.stones (r, c) = true
      rw [hasKey_false_of_KeyBefore hkbs]
  · exact nodup_keys_append_single hndw
      (fun p hp => KeyBefore_ne (hkbw p hp))
  · intro p hp
    rcases mem_keys_append_single hp with hp | hp
    · exact KeyBefore_mono_col (hkbw p hp)
    · exact hp ▸ Or.inr ⟨rfl, by omega⟩

theorem ParseInv_both {st : PState} {r c : Int} {w : Int} (h : ParseInv st r c) :
    ParseInv { st with stones := st.stones ++ [((r, c), w)],
                       switches := st.switches ++ [((r, c), true)] } r (c + 1) := by
  obtain ⟨hcons, hnds, hndw, hkbs, hkbw⟩ := h
  refine ⟨?_, ?_, ?_, ?_, ?_⟩
  · intro e he
    rcases List.mem_append.mp he with he | he
    · have hne : e.1 ≠ (r, c) := KeyBefore_ne (hkbw _ (dictKeys_mem_iff.mpr ⟨e.2, he⟩))
      show e.2 = true ↔ hasKey (st.stones ++ [((r, c), w)]) e.1 = true
      rw [hasKey_append_single_ne hne]
      exact hcons e he
    · rw [List.mem_singleton.mp he]
      show (true : Bool) = true ↔ hasKey (st.stones ++ [((r, c), w)]) (r, c) = true
      rw [hasKey_append]
      simp [hasKey]
  · exact nodup_keys_append_single hnds (fun p hp => KeyBefore_ne (hkbs p hp))
  · exact nodup_keys_append_single hndw (fun p hp => KeyBefore_ne (hkbw p hp))
  · intro p hp
    rcases mem_keys_append_single hp with hp | hp
    · exact KeyBefore_mono_col (hkbs p hp)
    · exact hp ▸ Or.inr ⟨rfl, by omega⟩
  · intro p hp
    rcases mem_keys_append_single hp with hp | hp
    · exact KeyBefore_mono_col (hkbw p hp)
    · exact hp ▸ Or.inr ⟨rfl, by omega⟩

theorem processRow_inv {line : List Char} :
    ∀ {st : PState} {ws : List Int} {r c : Int} {st' : PState} {ws' : List Int}
    {row : List Tile},
    ParseInv st r c → processRow st ws r c line = RowOut.ok st' ws' row →
    ParseInv st' r (c + line.length) := by
  induction line with
  | nil =>
    intro st ws r c st' ws' row hI h
    simp only [processRow] at h
    cases h
    simpa using hI
  | cons ch rest ih =>
    intro st ws r c st' ws' row hI h
    have hlen : (c + (ch :: rest).length : Int) = (c + 1) + rest.length := by
      simp only [List.length_cons]
      push_cast
      omega
    rw [hlen]
    simp only [processRow] at h
    by_cases h1 : ch = '@' ∨ ch = '+'
    · rw [if_pos h1] at h
      obtain ⟨row0, hrec, _⟩ := consTile_ok h
      exact ih (ParseInv_agent hI) hrec
    · rw [if_neg h1] at h
      by_cases h2 : ch = '$'
      · rw [if_pos h2] at h
        match hpop : pyPopLast ws with
        | none => rw [hpop] at h; cases h
        | some (w, ws1) =>
          rw [hpop] at h
          obtain ⟨row0, hrec, _⟩ := consTile_ok h
          exact ih (ParseInv_stone hI) hrec
      · rw [if_neg h2] at h
        by_cases h3 : ch = '.'
        · rw [if_pos h3] at h
          obtain ⟨row0, hrec, _⟩ := consTile_ok h
          exact ih (ParseInv_switch_false hI) hrec
        · rw [if_neg h3] at h
          by_cases h4 : ch = '*'
          · rw [if_pos h4] at h
            match hpop : pyPopLast ws with
            | none => rw [hpop] at h; cases h
            | some (w, ws1) =>
              rw [hpop] at h
              obtain ⟨row0, hrec, _⟩ := consTile_ok h
              exact ih (ParseInv_both hI) hrec
          · rw [if_neg h4] at h
            by_cases h5 : ch = ' '
            · rw [if_pos h5] at h
              obtain ⟨row0, hrec, _⟩ := consTile_ok h
              exact ih (ParseInv_skip hI) hrec
            · rw [if_neg h5] at h
              by_cases h6 : ch = '#'
              · rw [if_pos h6] at h
                obtain ⟨row0, hrec, _⟩ := consTile_ok h
                exact ih (ParseInv_skip hI) hrec
              · rw [if_neg h6] at h
                cases h

theorem ParseInv_next_row {st : PState} {r c : Int} (h : ParseInv st r c) :
    ParseInv st (r + 1) 0 :=
  ⟨h.1, h.2.1, h.2.2.1, fun p hp => KeyBefore_next_row (h.2.2.2.1 p hp),
   fun p hp => KeyBefore_next_row (h.2.2.2.2 p hp)⟩

theorem consRow_ok {row : List Tile} {res : ReadOut} {st' : PState} {ws' : List Int}
    {tl : List (List Tile)} (h : processGrid.consRow row res = ReadOut.ok st' ws' tl) :
    ∃ tl0, res = ReadOut.ok st' ws' tl0 ∧ tl = row :: tl0 := by
  cases res with
  | ok a b c =>
    simp only [processGrid.consRow, ReadOut.ok.injEq] at h
    exact ⟨c, by rw [h.1, h.2.1], h.2.2.symm⟩
  | badChar a b c => simp [processGrid.consRow] at h
  | underflow a b => simp [processGrid.consRow] at h

theorem processGrid_inv {lines : List (List Char)} :
    ∀ {st : PState} {ws : List Int} {r : Int} {st' : PState} {ws' : List Int}
    {tl : List (List Tile)},
    ParseInv st r 0 → processGrid st ws r lines = ReadOut.ok st' ws' tl →
    Consistent st' ∧ (dictKeys st'.stones).Nodup := by
  induction lines with
  | nil =>
    intro st ws r st' ws' tl hI h
    simp only [processGrid] at h
    cases h
    exact ⟨hI.1, hI.2.1⟩
  | cons line rest ih =>
    intro st ws r st' ws' tl hI h
    simp only [processGrid] at h
    match hrow : processRow st ws r 0 line with
    | RowOut.ok st1 ws1 row =>
      rw [hrow] at h
      obtain ⟨tl0, hrec, _⟩ := consRow_ok h
      have hI1 := processRow_inv hI hrow
      exact ih (ParseInv_next_row (by simpa using hI1)) hrec
    | RowOut.badChar st1 ws1 row => rw [hrow] at h; cases h
    | RowOut.underflow st1 row => rw [hrow] at h; cases h

theorem readInput_ok_inv {m0 : Maze} {w : List Int} {lines : List (List Char)} {m : Maze}
    (h : readInput m0 w lines = (m, .ok true)) :
    ∃ ws tl, processGrid m0.state w.reverse 0
      (lines.map (fun l =>
        l ++ List.replicate (((lines.map List.length).foldl max 0) - l.length) ' '))
      = ReadOut.ok m.state ws tl := by
  simp only [readInput] at h
  match hpg : processGrid m0.state w.reverse 0
      (lines.map (fun l =>
        l ++ List.replicate (((lines.map List.length).foldl max 0) - l.length) ' ')) with
  | ReadOut.ok st ws tl =>
    simp only [hpg] at h
    match hcb : calculateBlankTiles (m0.tiles ++ tl)
        (((m0.tiles ++ tl).length : Int), (((lines.map List.length).foldl max 0 : Nat) : Int))
        (lines.map (fun l =>
          l ++ List.replicate (((lines.map List.length).foldl max 0) - l.length) ' ')) with
    | some t2 =>
      simp only [hcb] at h
      have hm : st = m.state := congrArg (fun q => q.1.state) h
      exact ⟨ws, tl, hm ▸ hpg⟩
    | none =>
      simp only [hcb] at h
      have h2 := congrArg Prod.snd h
      simp at h2
  | ReadOut.badChar st ws tl =>
    simp only [hpg] at h
    have h2 := congrArg Prod.snd h
    simp at h2
  | ReadOut.underflow st tl =>
    simp only [hpg] at h
    have h2 := congrArg Prod.snd h
    simp at h2

/-- Claim C10: for every state reachable by legal moves from the initial
state of a successfully parsed input, each switch's covered flag is true iff
a stone occupies the switch's cell (so the flags are a function of the stone
position set, which is what makes the flag-free canonical key sound). -/
theorem C10_flags {w : List Int} {lines : List (List Char)} {m : Maze} {s : PState}
    (hread : readInput freshMaze w lines = (m, .ok true))
    (hr : Reach m.tiles m.state s) :
    ∀ e ∈ s.switches, (e.2 = true ↔ hasKey s.stones e.1 = true) := by
  obtain ⟨ws, tl, hpg⟩ := readInput_ok_inv hread
  have hI0 : ParseInv freshMaze.state 0 0 := by
    refine ⟨?_, ?_, ?_, ?_, ?_⟩ <;> simp [freshMaze, Consistent, dictKeys]
  obtain ⟨hcons, hnd⟩ := processGrid_inv hI0 hpg
  induction hr with
  | refl => exact hcons
  | step hr hstep ih =>
    obtain ⟨l, hgen, hmem⟩ := hstep
    have hnds := (reach_inv hnd hr).2.2
    exact stepConsistent hgen hmem hnds ih

/-- Witness for C10: on the corridor board's initial state the (single)
switch is uncovered and indeed carries no stone. -/
theorem C10_flags_witness :
    ((((1 : Int), (3 : Int)), false) : Pos × Bool).2 = true ↔
      hasKey c6maze.state.stones ((1 : Int), (3 : Int)) = true :=
  C10_flags
    (show readInput freshMaze [1] (gridOf ["#####", "#@$.#", "#####"]) =
      (c6maze, Except.ok true) from rfl)
    Reach.refl (((1, 3)), false) (by decide)

theorem distanceCost_nonneg (b e : Pos) : 0 ≤ distanceCost b e := by
  unfold distanceCost
  positivity

theorem pyMin_eq_none_iff {l : List Int} : pyMin l = none ↔ l = [] := by
  cases l <;> simp [pyMin]

theorem pyMin_mem_le {l : List Int} {m : Int} (h : pyMin l = some m) :
    ∀ x ∈ l, m ≤ x := by
  induction l generalizing m with
  | nil => cases h
  | cons y ys ih =>
    simp only [pyMin, Option.some.injEq] at h
    intro x hx
    match hys : pyMin ys with
    | none =>
      rw [hys] at h
      simp only [Option.elim] at h
      rw [pyMin_eq_none_iff] at hys
      subst hys
      rcases List.mem_singleton.mp hx with rfl
      omega
    | some m' =>
      rw [hys] at h
      simp only [Option.elim] at h
      subst h
      rcases List.mem_cons.mp hx with rfl | hx
      · exact min_le_left _ _
      · exact le_trans (min_le_right _ _) (ih hys x hx)

theorem pyMin_mem {l : List Int} {m : Int} (h : pyMin l = some m) : m ∈ l := by
  induction l generalizing m with
  | nil => cases h
  | cons y ys ih =>
    simp only [pyMin, Option.some.injEq] at h
    match hys : pyMin ys with
    | none =>
      rw [hys] at h
      simp only [Option.elim] at h
      subst h
      exact List.mem_cons_self _ _
    | some m' =>
      rw [hys] at h
      simp only [Option.elim] at h
      rcases min_cases y m' with ⟨hmin, _⟩ | ⟨hmin, _⟩
      · rw [hmin] at h
        subst h
        exact List.mem_cons_self _ _
      · rw [hmin] at h
        subst h
        exact List.mem_cons_of_mem _ (ih hys)

/-- The per-switch cost that `State.heuristic` adds, spelled out from the
claim's wording: total push cost plus the best approach cost. -/
def switchCost (s : PState) (sw : Pos) : Int :=
  (s.stones.map (fun st => distanceCost st.1 sw * st.2)).sum +
    ((pyMin (s.stones.map (fun st =>
      distanceCost s.agent st.1 + distanceCost st.1 sw * st.2))).getD 0)

theorem heuristic_foldl_eq {s : PState} (hst : s.stones ≠ []) :
    ∀ (sws : List (Pos × Bool)) (acc : Int),
    List.foldl
      (fun acc sw =>
        match acc with
        | none => none
        | some total =>
          match pyMin (s.stones.map
            (fun st => distanceCost s.agent st.1 + distanceCost st.1 sw.1 * st.2)) with
          | none => none
          | some m => some (total +
              ((s.stones.map (fun st => distanceCost st.1 sw.1 * st.2)).sum + m)))
      (some acc) sws
    = some (acc + (sws.map (fun sw => switchCost s sw.1)).sum) := by
  intro sws
  induction sws with
  | nil => intro acc; simp
  | cons sw rest ih =>
    intro acc
    rw [List.foldl_cons]
    match hmin : pyMin (s.stones.map
        (fun st => distanceCost s.agent st.1 + distanceCost st.1 sw.1 * st.2)) with
    | none =>
      rw [pyMin_eq_none_iff] at hmin
      exact absurd (List.map_eq_nil.mp hmin) hst
    | some m =>
      simp only [hmin]
      rw [ih]
      congr 1
      simp only [List.map_cons, List.sum_cons, switchCost, hmin, Option.getD_some]
      ring

/-- Claim C5, amended: on every state that has a stone whenever it has a
switch (and whose stone weights are positive, as the data model prescribes),
`State.heuristic` returns the non-negative integer that sums, per switch
(covered or not), all stones' `manhattan * weight` push costs plus the
minimum over stones of approach-plus-push cost.  On a state with a switch
and no stones it instead raises `ValueError` (see the counterexample). -/
theorem C5_amended {s : PState} (hw : ∀ e ∈ s.stones, 1 ≤ e.2)
    (hne : s.stones ≠ [] ∨ s.switches = []) :
    heuristic s = some ((s.switches.map (fun sw => switchCost s sw.1)).sum) ∧
    0 ≤ (s.switches.map (fun sw => switchCost s sw.1)).sum := by
  constructor
  · rcases hne with hne | hne
    · unfold heuristic
      have := heuristic_foldl_eq hne s.switches 0
      rw [this]
      congr 1
      omega
    · unfold heuristic
      rw [hne]
      simp
  · apply List.sum_nonneg
    intro x hx
    obtain ⟨sw, hsw, hx⟩ := List.mem_map.mp hx
    subst hx
    unfold switchCost
    have h1 : 0 ≤ (s.stones.map (fun st => distanceCost st.1 sw.1 * st.2)).sum := by
      apply List.sum_nonneg
      intro y hy
      obtain ⟨st, hst, hy⟩ := List.mem_map.mp hy
      subst hy
      exact mul_nonneg (distanceCost_nonneg _ _) (by linarith [hw st hst])
    have h2 : 0 ≤ (pyMin (s.stones.map (fun st =>
        distanceCost s.agent st.1 + distanceCost st.1 sw.1 * st.2))).getD 0 := by
      match hmin : pyMin (s.stones.map (fun st =>
          distanceCost s.agent st.1 + distanceCost st.1 sw.1 * st.2)) with
      | none => rw [hmin]; simp
      | some m =>
        rw [hmin]
        simp only [Option.getD_some]
        have hm := pyMin_mem hmin
        obtain ⟨st, hst, hy⟩ := List.mem_map.mp hm
        have := hw st hst
        have := distanceCost_nonneg s.agent st.1
        have := distanceCost_nonneg st.1 sw.1
        nlinarith
    omega

/-- Witness for the amended C5 at a one-stone, one-switch state. -/
theorem C5_amended_witness :
    (∀ e ∈ ([(((1 : Int), (2 : Int)), (3 : Int))] : List (Pos × Int)), 1 ≤ e.2) ∧
    heuristic { agent := (1, 1), stones := [((1, 2), 3)], switches := [((1, 3), false)] } =
      some ((([((1, 3), false)] : List (Pos × Bool)).map
        (fun sw => switchCost
          { agent := (1, 1), stones := [((1, 2), 3)], switches := [((1, 3), false)] } sw.1)).sum) :=
  ⟨by decide,
   (@C5_amended { agent := (1, 1), stones := [((1, 2), 3)], switches := [((1, 3), false)] }
      (by decide) (Or.inl (by decide))).1⟩

theorem pyPopLast_eq {α : Type} {ws ws1 : List α} {w : α}
    (h : pyPopLast ws = some (w, ws1)) : ws = ws1 ++ [w] := by
  unfold pyPopLast at h
  match hl : ws.getLast? with
  | none => rw [hl] at h; cases h
  | some x =>
    rw [hl] at h
    simp only [Option.some.injEq] at h
    cases h
    exact (List.dropLast_append_getLast? w (Option.mem_def.mpr hl)).symm

theorem pyPopLast_reverse {α : Type} {ws ws1 : List α} {w : α}
    (h : pyPopLast ws = some (w, ws1)) : ws.reverse = w :: ws1.reverse := by
  rw [pyPopLast_eq h]
  simp

/-- The stone cells (`'$'` or `'*'`) of one row from column `c` on, in
left-to-right order. -/
def stoneCellsRow (r : Int) : Int → List Char → List Pos
  | _, [] => []
  | c, ch :: rest =>
    if ch = '$' ∨ ch = '*' then (r, c) :: stoneCellsRow r (c + 1) rest
    else stoneCellsRow r (c + 1) rest

/-- The stone cells of a grid from row `r` on, in reading order. -/
def stoneCells : Int → List (List Char) → List Pos
  | _, [] => []
  | r, line :: rest => stoneCellsRow r 0 line ++ stoneCells (r + 1) rest

theorem zip_append_left {α β : Type} (a b : List α) (ws : List β) :
    (a ++ b).zip ws = a.zip ws ++ b.zip (ws.drop a.length) := by
  induction a generalizing ws with
  | nil => simp
  | cons x xs ih =>
    cases ws with
    | nil => simp [List.zip_nil_right]
    | cons w wws => simp [List.zip_cons_cons, ih]

theorem processRow_stones {line : List Char} :
    ∀ {st : PState} {ws : List Int} {r c : Int} {st' : PState} {ws' : List Int}
    {row : List Tile},
    processRow st ws r c line = RowOut.ok st' ws' row →
    st'.stones = st.stones ++ ((stoneCellsRow r c line).zip ws.reverse) ∧
    ws'.reverse = ws.reverse.drop (stoneCellsRow r c line).length := by
  induction line with
  | nil =>
    intro st ws r c st' ws' row h
    simp only [processRow] at h
    cases h
    simp [stoneCellsRow]
  | cons ch rest ih =>
    intro st ws r c st' ws' row h
    simp only [processRow] at h
    by_cases h1 : ch = '@' ∨ ch = '+'
    · rw [if_pos h1] at h
      obtain ⟨row0, hrec, _⟩ := consTile_ok h
      have hss : ¬(ch = '$' ∨ ch = '*') := by
        rcases h1 with rfl | rfl <;> simp
      rw [show stoneCellsRow r c (ch :: rest) = stoneCellsRow r (c + 1) rest from by
        rw [stoneCellsRow, if_neg hss]]
      exact @ih { st with agent := (r, c) } ws r (c + 1) st' ws' row0 hrec
    · rw [if_neg h1] at h
      by_cases h2 : ch = '$'
      · rw [if_pos h2] at h
        match hpop : pyPopLast ws with
        | none => rw [hpop] at h; cases h
        | some (w, ws1) =>
          rw [hpop] at h
          obtain ⟨row0, hrec, _⟩ := consTile_ok h
          obtain ⟨hst, hws⟩ := ih hrec
          have hcell : stoneCellsRow r c (ch :: rest) = (r, c) :: stoneCellsRow r (c + 1) rest := by
            rw [stoneCellsRow, if_pos (Or.inl h2)]
          rw [hcell, pyPopLast_reverse hpop]
          constructor
          · rw [hst]
            simp [List.zip_cons_cons]
          · rw [hws]
            simp
      · rw [if_neg h2] at h
        by_cases h3 : ch = '.'
        · rw [if_pos h3] at h
          obtain ⟨row0, hrec, _⟩ := consTile_ok h
          have hss : ¬(ch = '$' ∨ ch = '*') := by subst h3; simp
          rw [show stoneCellsRow r c (ch :: rest) = stoneCellsRow r (c + 1) rest from by
            rw [stoneCellsRow, if_neg hss]]
          exact @ih { st with switches := st.switches ++ [((r, c), false)] } ws r (c + 1)
            st' ws' row0 hrec
        · rw [if_neg h3] at h
          by_cases h4 : ch = '*'
          · rw [if_pos h4] at h
            match hpop : pyPopLast ws with
            | none => rw [hpop] at h; cases h
            | some (w, ws1) =>
              rw [hpop] at h
              obtain ⟨row0, hrec, _⟩ := consTile_ok h
              obtain ⟨hst, hws⟩ := ih hrec
              have hcell : stoneCellsRow r c (ch :: rest) =
                  (r, c) :: stoneCellsRow r (c + 1) rest := by
                rw [stoneCellsRow, if_pos (Or.inr h4)]
              rw [hcell, pyPopLast_reverse hpop]
              constructor
              · rw [hst]
                simp [List.zip_cons_cons]
              · rw [hws]
                simp
          · rw [if_neg h4] at h
            by_cases h5 : ch = ' '
            · rw [if_pos h5] at h
              obtain ⟨row0, hrec, _⟩ := consTile_ok h
              have hss : ¬(ch = '$' ∨ ch = '*') := by subst h5; simp
              rw [show stoneCellsRow r c (ch :: rest) = stoneCellsRow r (c + 1) rest from by
                rw [stoneCellsRow, if_neg hss]]
              exact @ih _ _ _ _ _ _ _ hrec
            · rw [if_neg h5] at h
              by_cases h6 : ch = '#'
              · rw [if_pos h6] at h
                obtain ⟨row0, hrec, _⟩ := consTile_ok h
                have hss : ¬(ch = '$' ∨ ch = '*') := by subst h6; simp
                rw [show stoneCellsRow r c (ch :: rest) = stoneCellsRow r (c + 1) rest from by
                  rw [stoneCellsRow, if_neg hss]]
                exact @ih _ _ _ _ _ _ _ hrec
              · rw [if_neg h6] at h
                cases h

theorem processGrid_stones {lines : List (List Char)} :
    ∀ {st : PState} {ws : List Int} {r : Int} {st' : PState} {ws' : List Int}
    {tl : List (List Tile)},
    processGrid st ws r lines = ReadOut.ok st' ws' tl →
    st'.stones = st.stones ++ ((stoneCells r lines).zip ws.reverse) := by
  induction lines with
  | nil =>
    intro st ws r st' ws' tl h
    simp only [processGrid] at h
    cases h
    simp [stoneCells]
  | cons line rest ih =>
    intro st ws r st' ws' tl h
    simp only [processGrid] at h
    match hrow : processRow st ws r 0 line with
    | RowOut.ok st1 ws1 row =>
      rw [hrow] at h
      obtain ⟨tl0, hrec, _⟩ := consRow_ok h
      obtain ⟨hst1, hws1⟩ := processRow_stones hrow
      have hrest := ih hrec
      rw [hrest, hst1, hws1]
      rw [show stoneCells r (line :: rest) = stoneCellsRow r 0 line ++ stoneCells (r + 1) rest
        from rfl]
      rw [List.append_assoc]
      congr 1
      exact (zip_append_left _ _ _).symm
    | RowOut.badChar st1 ws1 row => rw [hrow] at h; cases h
    | RowOut.underflow st1 row => rw [hrow] at h; cases h

/-- Claim C1, amended: the weights of the first line are assigned to stones
in the stones' first-encountered reading order itself, not its reverse: the
i-th stone encountered (row-major over the padded grid) receives the i-th
weight.  The `[::-1]` reversal is cancelled by `pop()` taking from the
list's back. -/
theorem C1_amended {w : List Int} {lines : List (List Char)} {m : Maze}
    (h : readInput freshMaze w lines = (m, .ok true)) :
    m.state.stones =
      (stoneCells 0 (lines.map (fun l =>
        l ++ List.replicate (((lines.map List.length).foldl max 0) - l.length) ' '))).zip w := by
  obtain ⟨ws, tl, hpg⟩ := readInput_ok_inv h
  have := processGrid_stones hpg
  simpa [freshMaze] using this

/-- Witness for the amended C1 on the two-stone board: the first stone gets
weight 1, the second weight 2. -/
theorem C1_amended_witness :
    c1maze.state.stones =
      (stoneCells 0 ((gridOf ["#@$ $#"]).map (fun l =>
        l ++ List.replicate ((((gridOf ["#@$ $#"]).map List.length).foldl max 0) - l.length) ' '))).zip
        [1, 2] :=
  C1_amended (show readInput freshMaze [1, 2] (gridOf ["#@$ $#"]) = (c1maze, Except.ok true)
    from rfl)

/-- The character set `read_input` accepts. -/
def validChar (ch : Char) : Prop :=
  ch = '@' ∨ ch = '+' ∨ ch = '$' ∨ ch = '.' ∨ ch = '*' ∨ ch = ' ' ∨ ch = '#'

theorem pyPopLast_none_iff {α : Type} {ws : List α} : pyPopLast ws = none ↔ ws = [] := by
  cases ws with
  | nil => simp [pyPopLast]
  | cons x xs =>
    simp only [pyPopLast]
    rw [List.getLast?_eq_getLast _ (List.cons_ne_nil x xs)]
    simp

theorem processRow_ok_of_valid {line : List Char} :
    ∀ {st : PState} {ws : List Int} {r c : Int},
    (∀ ch ∈ line, validChar ch) →
    (stoneCellsRow r c line).length ≤ ws.length →
    ∃ st' ws' row, processRow st ws r c line = RowOut.ok st' ws' row := by
  induction line with
  | nil =>
    intro st ws r c _ _
    exact ⟨st, ws, [], rfl⟩
  | cons ch rest ih =>
    intro st ws r c hv hlen
    have hvch := hv ch (List.mem_cons_self _ _)
    have hvrest : ∀ c' ∈ rest, validChar c' := fun c' hc' => hv c' (List.mem_cons_of_mem _ hc')
    simp only [processRow]
    rcases hvch with h1 | h1 | h1 | h1 | h1 | h1 | h1
    · rw [if_pos (Or.inl h1)]
      have hcl : stoneCellsRow r c (ch :: rest) = stoneCellsRow r (c + 1) rest := by
        rw [stoneCellsRow, if_neg (by subst h1; simp)]
      obtain ⟨a, b, d, hd⟩ := ih hvrest (hcl ▸ hlen)
      exact ⟨a, b, Tile.NONE :: d, by rw [hd]; rfl⟩
    · rw [if_pos (Or.inr h1)]
      have hcl : stoneCellsRow r c (ch :: rest) = stoneCellsRow r (c + 1) rest := by
        rw [stoneCellsRow, if_neg (by subst h1; simp)]
      obtain ⟨a, b, d, hd⟩ := ih hvrest (hcl ▸ hlen)
      exact ⟨a, b, Tile.NONE :: d, by rw [hd]; rfl⟩
    · rw [if_neg (by subst h1; simp), if_pos h1]
      have hcl : stoneCellsRow r c (ch :: rest) = (r, c) :: stoneCellsRow r (c + 1) rest := by
        rw [stoneCellsRow, if_pos (Or.inl h1)]
      rw [hcl, List.length_cons] at hlen
      match hpop : pyPopLast ws with
      | none =>
        rw [pyPopLast_none_iff] at hpop
        subst hpop
        simp at hlen
      | some (w, ws1) =>
        have hws1 : ws1.length + 1 = ws.length := by
          have hp := pyPopLast_eq hpop
          subst hp
          simp
        obtain ⟨a, b, d, hd⟩ :=
          @ih { st with stones := st.stones ++ [((r, c), w)] } ws1 r (c + 1) hvrest (by omega)
        exact ⟨a, b, Tile.NONE :: d, by simp only [hd]; rfl⟩
    · rw [if_neg (by subst h1; simp), if_neg (by subst h1; simp), if_pos h1]
      have hcl : stoneCellsRow r c (ch :: rest) = stoneCellsRow r (c + 1) rest := by
        rw [stoneCellsRow, if_neg (by subst h1; simp)]
      obtain ⟨a, b, d, hd⟩ := ih hvrest (hcl ▸ hlen)
      exact ⟨a, b, Tile.NONE :: d, by rw [hd]; rfl⟩
    · rw [if_neg (by subst h1; simp), if_neg (by subst h1; simp), if_neg (by subst h1; simp), if_pos h1]
      have hcl : stoneCellsRow r c (ch :: rest) = (r, c) :: stoneCellsRow r (c + 1) rest := by
        rw [stoneCellsRow, if_pos (Or.inr h1)]
      rw [hcl, List.length_cons] at hlen
      match hpop : pyPopLast ws with
      | none =>
        rw [pyPopLast_none_iff] at hpop
        subst hpop
        simp at hlen
      | some (w, ws1) =>
        have hws1 : ws1.length + 1 = ws.length := by
          have hp := pyPopLast_eq hpop
          subst hp
          simp
        obtain ⟨a, b, d, hd⟩ :=
          @ih { st with stones := st.stones ++ [((r, c), w)],
                        switches := st.switches ++ [((r, c), true)] } ws1 r (c + 1) hvrest (by omega)
        exact ⟨a, b, Tile.NONE :: d, by simp only [hd]; rfl⟩
    · rw [if_neg (by subst h1; simp), if_neg (by subst h1; simp), if_neg (by subst h1; simp), if_neg (by subst h1; simp), if_pos h1]
      have hcl : stoneCellsRow r c (ch :: rest) = stoneCellsRow r (c + 1) rest := by
        rw [stoneCellsRow, if_neg (by subst h1; simp)]
      obtain ⟨a, b, d, hd⟩ := ih hvrest (hcl ▸ hlen)
      exact ⟨a, b, Tile.NONE :: d, by rw [hd]; rfl⟩
    · rw [if_neg (by subst h1; simp), if_neg (by subst h1; simp), if_neg (by subst h1; simp), if_neg (by subst h1; simp), if_neg (by subst h1; simp), if_pos h1]
      have hcl : stoneCellsRow r c (ch :: rest) = stoneCellsRow r (c + 1) rest := by
        rw [stoneCellsRow, if_neg (by subst h1; simp)]
      obtain ⟨a, b, d, hd⟩ := ih hvrest (hcl ▸ hlen)
      exact ⟨a, b, Tile.BRICK :: d, by rw [hd]; rfl⟩

instance (ch : Char) : Decidable (validChar ch) := by
  unfold validChar
  infer_instance

theorem stoneCellsRow_replicate_space {r : Int} :
    ∀ (n : Nat) (c : Int), stoneCellsRow r c (List.replicate n ' ') = [] := by
  intro n
  induction n with
  | zero => intro c; rfl
  | succ k ih =>
    intro c
    rw [List.replicate_succ, stoneCellsRow, if_neg (by simp)]
    exact ih (c + 1)

theorem stoneCellsRow_append_spaces {r : Int} {n : Nat} :
    ∀ {c : Int} {l : List Char},
    stoneCellsRow r c (l ++ List.replicate n ' ') = stoneCellsRow r c l := by
  intro c l
  induction l generalizing c with
  | nil =>
    rw [List.nil_append, stoneCellsRow_replicate_space]
    rfl
  | cons ch rest ih =>
    rw [List.cons_append, stoneCellsRow, stoneCellsRow]
    by_cases h : ch = '$' ∨ ch = '*'
    · rw [if_pos h, if_pos h, ih]
    · rw [if_neg h, if_neg h, ih]

theorem stoneCells_pad (lines : List (List Char)) (f : List Char → Nat) :
    ∀ r, stoneCells r (lines.map (fun l => l ++ List.replicate (f l) ' ')) =
      stoneCells r lines := by
  induction lines with
  | nil => intro r; rfl
  | cons line rest ih =>
    intro r
    rw [List.map_cons, stoneCells, stoneCells, stoneCellsRow_append_spaces, ih]

theorem validChar_pad {l : List Char} {n : Nat} (h : ∀ ch ∈ l, validChar ch) :
    ∀ ch ∈ l ++ List.replicate n ' ', validChar ch := by
  intro ch hch
  rcases List.mem_append.mp hch with h1 | h1
  · exact h ch h1
  · have := List.eq_of_mem_replicate h1
    subst this
    exact Or.inr (Or.inr (Or.inr (Or.inr (Or.inr (Or.inl rfl)))))

theorem processRow_ws_length {line : List Char} {st : PState} {ws : List Int}
    {r c : Int} {st' : PState} {ws' : List Int} {row : List Tile}
    (h : processRow st ws r c line = RowOut.ok st' ws' row) :
    ws'.length = ws.length - (stoneCellsRow r c line).length := by
  have h2 := (processRow_stones h).2
  have hl := congrArg List.length h2
  simpa using hl

theorem processRow_underflow_of_short {line : List Char} :
    ∀ {st : PState} {ws : List Int} {r c : Int},
    (∀ ch ∈ line, validChar ch) →
    ws.length < (stoneCellsRow r c line).length →
    ∃ st' tl, processRow st ws r c line = RowOut.underflow st' tl := by
  induction line with
  | nil =>
    intro st ws r c _ hlen
    rw [stoneCellsRow] at hlen
    simp at hlen
  | cons ch rest ih =>
    intro st ws r c hv hlen
    have hvch := hv ch (List.mem_cons_self _ _)
    have hvrest : ∀ x ∈ rest, validChar x := fun x hx => hv x (List.mem_cons_of_mem _ hx)
    simp only [processRow]
    rcases hvch with h1 | h1 | h1 | h1 | h1 | h1 | h1
    · rw [if_pos (Or.inl h1)]
      have hcl : stoneCellsRow r c (ch :: rest) = stoneCellsRow r (c + 1) rest := by
        rw [stoneCellsRow, if_neg (by subst h1; simp)]
      obtain ⟨a, d, hd⟩ := ih hvrest (hcl ▸ hlen)
      exact ⟨a, Tile.NONE :: d, by rw [hd]; rfl⟩
    · rw [if_pos (Or.inr h1)]
      have hcl : stoneCellsRow r c (ch :: rest) = stoneCellsRow r (c + 1) rest := by
        rw [stoneCellsRow, if_neg (by subst h1; simp)]
      obtain ⟨a, d, hd⟩ := ih hvrest (hcl ▸ hlen)
      exact ⟨a, Tile.NONE :: d, by rw [hd]; rfl⟩
    · rw [if_neg (by subst h1; simp), if_pos h1]
      have hcl : stoneCellsRow r c (ch :: rest) = (r, c) :: stoneCellsRow r (c + 1) rest := by
        rw [stoneCellsRow, if_pos (Or.inl h1)]
      rw [hcl, List.length_cons] at hlen
      match hpop : pyPopLast ws with
      | none => exact ⟨st, [], rfl⟩
      | some (w, ws1) =>
        have hws1 : ws1.length + 1 = ws.length := by
          have hp := pyPopLast_eq hpop
          subst hp
          simp
        obtain ⟨a, d, hd⟩ :=
          @ih { st with stones := st.stones ++ [((r, c), w)] } ws1 r (c + 1) hvrest (by omega)
        exact ⟨a, Tile.NONE :: d, by simp only [hd]; rfl⟩
    · rw [if_neg (by subst h1; simp), if_neg (by subst h1; simp), if_pos h1]
      have hcl : stoneCellsRow r c (ch :: rest) = stoneCellsRow r (c + 1) rest := by
        rw [stoneCellsRow, if_neg (by subst h1; simp)]
      obtain ⟨a, d, hd⟩ := ih hvrest (hcl ▸ hlen)
      exact ⟨a, Tile.NONE :: d, by rw [hd]; rfl⟩
    · rw [if_neg (by subst h1; simp), if_neg (by subst h1; simp), if_neg (by subst h1; simp), if_pos h1]
      have hcl : stoneCellsRow r c (ch :: rest) = (r, c) :: stoneCellsRow r (c + 1) rest := by
        rw [stoneCellsRow, if_pos (Or.inr h1)]
      rw [hcl, List.length_cons] at hlen
      match hpop : pyPopLast ws with
      | none => exact ⟨st, [], rfl⟩
      | some (w, ws1) =>
        have hws1 : ws1.length + 1 = ws.length := by
          have hp := pyPopLast_eq hpop
          subst hp
          simp
        obtain ⟨a, d, hd⟩ :=
          @ih { st with stones := st.stones ++ [((r, c), w)],
                        switches := st.switches ++ [((r, c), true)] } ws1 r (c + 1) hvrest (by omega)
        exact ⟨a, Tile.NONE :: d, by simp only [hd]; rfl⟩
    · rw [if_neg (by subst h1; simp), if_neg (by subst h1; simp), if_neg (by subst h1; simp), if_neg (by subst h1; simp), if_pos h1]
      have hcl : stoneCellsRow r c (ch :: rest) = stoneCellsRow r (c + 1) rest := by
        rw [stoneCellsRow, if_neg (by subst h1; simp)]
      obtain ⟨a, d, hd⟩ := ih hvrest (hcl ▸ hlen)
      exact ⟨a, Tile.NONE :: d, by rw [hd]; rfl⟩
    · rw [if_neg (by subst h1; simp), if_neg (by subst h1; simp), if_neg (by subst h1; simp), if_neg (by subst h1; simp), if_neg (by subst h1; simp), if_pos h1]
      have hcl : stoneCellsRow r c (ch :: rest) = stoneCellsRow r (c + 1) rest := by
        rw [stoneCellsRow, if_neg (by subst h1; simp)]
      obtain ⟨a, d, hd⟩ := ih hvrest (hcl ▸ hlen)
      exact ⟨a, Tile.BRICK :: d, by rw [hd]; rfl⟩

theorem processGrid_underflow_of_short {lines : List (List Char)} :
    ∀ {st : PState} {ws : List Int} {r : Int},
    (∀ line ∈ lines, ∀ ch ∈ line, validChar ch) →
    ws.length < (stoneCells r lines).length →
    ∃ st' tl, processGrid st ws r lines = ReadOut.underflow st' tl := by
  induction lines with
  | nil =>
    intro st ws r _ hlen
    rw [stoneCells] at hlen
    simp at hlen
  | cons line rest ih =>
    intro st ws r hv hlen
    have hvline := hv line (List.mem_cons_self _ _)
    have hvrest : ∀ l ∈ rest, ∀ ch ∈ l, validChar ch :=
      fun l hl => hv l (List.mem_cons_of_mem _ hl)
    rw [stoneCells, List.length_append] at hlen
    simp only [processGrid]
    by_cases hrow : ws.length < (stoneCellsRow r 0 line).length
    · obtain ⟨a, d, hd⟩ := processRow_underflow_of_short hvline hrow
      rw [hd]
      exact ⟨a, [d], rfl⟩
    · push_neg at hrow
      obtain ⟨st1, ws1, row, hok⟩ := processRow_ok_of_valid hvline hrow
      rw [hok]
      have hw1 := processRow_ws_length hok
      obtain ⟨a, d, hd⟩ := @ih st1 ws1 (r + 1) hvrest (by omega)
      exact ⟨a, row :: d, by simp only [hd]; rfl⟩

theorem processRow_bad_of_invalid {line : List Char} :
    ∀ {st : PState} {ws : List Int} {r c : Int},
    (∃ ch ∈ line, ¬ validChar ch) →
    (stoneCellsRow r c line).length ≤ ws.length →
    ∃ st' ws' tl, processRow st ws r c line = RowOut.badChar st' ws' tl := by
  induction line with
  | nil =>
    intro st ws r c hinv _
    obtain ⟨ch, hch, _⟩ := hinv
    cases hch
  | cons ch rest ih =>
    intro st ws r c hinv hlen
    simp only [processRow]
    by_cases hvch : validChar ch
    · have hinvrest : ∃ x ∈ rest, ¬ validChar x := by
        obtain ⟨x, hx, hnx⟩ := hinv
        rcases List.mem_cons.mp hx with h | h
        · exact absurd (h ▸ hvch) hnx
        · exact ⟨x, h, hnx⟩
      rcases hvch with h1 | h1 | h1 | h1 | h1 | h1 | h1
      · rw [if_pos (Or.inl h1)]
        have hcl : stoneCellsRow r c (ch :: rest) = stoneCellsRow r (c + 1) rest := by
          rw [stoneCellsRow, if_neg (by subst h1; simp)]
        obtain ⟨a, b, d, hd⟩ := ih hinvrest (hcl ▸ hlen)
        exact ⟨a, b, Tile.NONE :: d, by rw [hd]; rfl⟩
      · rw [if_pos (Or.inr h1)]
        have hcl : stoneCellsRow r c (ch :: rest) = stoneCellsRow r (c + 1) rest := by
          rw [stoneCellsRow, if_neg (by subst h1; simp)]
        obtain ⟨a, b, d, hd⟩ := ih hinvrest (hcl ▸ hlen)
        exact ⟨a, b, Tile.NONE :: d, by rw [hd]; rfl⟩
      · rw [if_neg (by subst h1; simp), if_pos h1]
        have hcl : stoneCellsRow r c (ch :: rest) = (r, c) :: stoneCellsRow r (c + 1) rest := by
          rw [stoneCellsRow, if_pos (Or.inl h1)]
        rw [hcl, List.length_cons] at hlen
        match hpop : pyPopLast ws with
        | none =>
          rw [pyPopLast_none_iff] at hpop
          subst hpop
          simp at hlen
        | some (w, ws1) =>
          have hws1 : ws1.length + 1 = ws.length := by
            have hp := pyPopLast_eq hpop
            subst hp
            simp
          obtain ⟨a, b, d, hd⟩ :=
            @ih { st with stones := st.stones ++ [((r, c), w)] } ws1 r (c + 1) hinvrest (by omega)
          exact ⟨a, b, Tile.NONE :: d, by simp only [hd]; rfl⟩
      · rw [if_neg (by subst h1; simp), if_neg (by subst h1; simp), if_pos h1]
        have hcl : stoneCellsRow r c (ch :: rest) = stoneCellsRow r (c + 1) rest := by
          rw [stoneCellsRow, if_neg (by subst h1; simp)]
        obtain ⟨a, b, d, hd⟩ := ih hinvrest (hcl ▸ hlen)
        exact ⟨a, b, Tile.NONE :: d, by rw [hd]; rfl⟩
      · rw [if_neg (by subst h1; simp), if_neg (by subst h1; simp), if_neg (by subst h1; simp), if_pos h1]
        have hcl : stoneCellsRow r c (ch :: rest) = (r, c) :: stoneCellsRow r (c + 1) rest := by
          rw [stoneCellsRow, if_pos (Or.inr h1)]
        rw [hcl, List.length_cons] at hlen
        match hpop : pyPopLast ws with
        | none =>
          rw [pyPopLast_none_iff] at hpop
          subst hpop
          simp at hlen
        | some (w, ws1) =>
          have hws1 : ws1.length + 1 = ws.length := by
            have hp := pyPopLast_eq hpop
            subst hp
            simp
          obtain ⟨a, b, d, hd⟩ :=
            @ih { st with stones := st.stones ++ [((r, c), w)],
                          switches := st.switches ++ [((r, c), true)] } ws1 r (c + 1) hinvrest (by omega)
          exact ⟨a, b, Tile.NONE :: d, by simp only [hd]; rfl⟩
      · rw [if_neg (by subst h1; simp), if_neg (by subst h1; simp), if_neg (by subst h1; simp), if_neg (by subst h1; simp), if_pos h1]
        have hcl : stoneCellsRow r c (ch :: rest) = stoneCellsRow r (c + 1) rest := by
          rw [stoneCellsRow, if_neg (by subst h1; simp)]
        obtain ⟨a, b, d, hd⟩ := ih hinvrest (hcl ▸ hlen)
        exact ⟨a, b, Tile.NONE :: d, by rw [hd]; rfl⟩
      · rw [if_neg (by subst h1; simp), if_neg (by subst h1; simp), if_neg (by subst h1; simp), if_neg (by subst h1; simp), if_neg (by subst h1; simp), if_pos h1]
        have hcl : stoneCellsRow r c (ch :: rest) = stoneCellsRow r (c + 1) rest := by
          rw [stoneCellsRow, if_neg (by subst h1; simp)]
        obtain ⟨a, b, d, hd⟩ := ih hinvrest (hcl ▸ hlen)
        exact ⟨a, b, Tile.BRICK :: d, by rw [hd]; rfl⟩
    · have n1 : ¬ (ch = '@' ∨ ch = '+') :=
        fun h => hvch (h.elim Or.inl (fun h2 => Or.inr (Or.inl h2)))
      have n2 : ¬ ch = '$' := fun h => hvch (Or.inr (Or.inr (Or.inl h)))
      have n3 : ¬ ch = '.' := fun h => hvch (Or.inr (Or.inr (Or.inr (Or.inl h))))
      have n4 : ¬ ch = '*' := fun h => hvch (Or.inr (Or.inr (Or.inr (Or.inr (Or.inl h)))))
      have n5 : ¬ ch = ' ' :=
        fun h => hvch (Or.inr (Or.inr (Or.inr (Or.inr (Or.inr (Or.inl h))))))
      have n6 : ¬ ch = '#' :=
        fun h => hvch (Or.inr (Or.inr (Or.inr (Or.inr (Or.inr (Or.inr h))))))
      rw [if_neg n1, if_neg n2, if_neg n3, if_neg n4, if_neg n5, if_neg n6]
      exact ⟨st, ws, [], rfl⟩

theorem processGrid_bad_of_invalid {lines : List (List Char)} :
    ∀ {st : PState} {ws : List Int} {r : Int},
    (∃ line ∈ lines, ∃ ch ∈ line, ¬ validChar ch) →
    (stoneCells r lines).length ≤ ws.length →
    ∃ st' ws' tl, processGrid st ws r lines = ReadOut.badChar st' ws' tl := by
  induction lines with
  | nil =>
    intro st ws r hinv _
    obtain ⟨l, hl, _⟩ := hinv
    cases hl
  | cons line rest ih =>
    intro st ws r hinv hlen
    rw [stoneCells, List.length_append] at hlen
    simp only [processGrid]
    by_cases hline : ∃ ch ∈ line, ¬ validChar ch
    · obtain ⟨a, b, d, hd⟩ := @processRow_bad_of_invalid line st ws r 0 hline (by omega)
      rw [hd]
      exact ⟨a, b, [d], rfl⟩
    · push_neg at hline
      obtain ⟨st1, ws1, row, hok⟩ := @processRow_ok_of_valid line st ws r 0 hline (by omega)
      rw [hok]
      have hw1 := processRow_ws_length hok
      have hinvrest : ∃ l ∈ rest, ∃ x ∈ l, ¬ validChar x := by
        obtain ⟨l, hl, hx⟩ := hinv
        rcases List.mem_cons.mp hl with h | h
        · rw [h] at hx
          obtain ⟨x, hxm, hn⟩ := hx
          exact absurd (hline x hxm) hn
        · exact ⟨l, h, hx⟩
      obtain ⟨a, b, d, hd⟩ := @ih st1 ws1 (r + 1) hinvrest (by omega)
      exact ⟨a, b, row :: d, by simp only [hd]; rfl⟩

/-- C7 (amended): on a grid containing a character outside the recognized set
(and enough weights for the grid's stone cells), `read_input` does report
failure by returning `False`, but the maze is NOT left as if no load had
occurred: the returned object keeps the partially built state and the tile
rows produced before (and including) the offending row. -/
theorem C7_amended (m0 : Maze) (weights : List Int) (lines : List (List Char))
    (hinv : ∃ line ∈ lines, ∃ ch ∈ line, ¬ validChar ch)
    (hlen : (stoneCells 0 lines).length ≤ weights.length) :
    ∃ st' tl, readInput m0 weights lines =
      ({ m0 with state := st', tiles := m0.tiles ++ tl }, Except.ok false) := by
  have hinv' : ∃ line ∈ lines.map (fun l =>
      l ++ List.replicate ((lines.map List.length).foldl max 0 - l.length) ' '),
      ∃ ch ∈ line, ¬ validChar ch := by
    obtain ⟨l, hl, ch, hch, hn⟩ := hinv
    exact ⟨l ++ List.replicate ((lines.map List.length).foldl max 0 - l.length) ' ',
      List.mem_map_of_mem _ hl, ch, List.mem_append_left _ hch, hn⟩
  have hlen' : (stoneCells 0 (lines.map (fun l =>
      l ++ List.replicate ((lines.map List.length).foldl max 0 - l.length) ' '))).length ≤
      (weights.reverse).length := by
    rw [stoneCells_pad lines (fun l => (lines.map List.length).foldl max 0 - l.length) 0]
    simpa using hlen
  obtain ⟨a, b, d, hd⟩ :=
    @processGrid_bad_of_invalid _ m0.state weights.reverse 0 hinv' hlen'
  refine ⟨a, d, ?_⟩
  simp only [readInput]
  rw [hd]

/-- Witness for the amended C7: a one-character grid `"!"` makes `read_input`
return `False` while keeping the partial mutations. -/
theorem C7_amended_witness :
    ∃ st' tl, readInput freshMaze [] (gridOf ["!"]) =
      ({ freshMaze with state := st', tiles := freshMaze.tiles ++ tl },
        Except.ok false) :=
  C7_amended freshMaze [] (gridOf ["!"]) (by decide) (by decide)

/-- C8 (amended): when every grid character is recognized but the grid has
more stone cells than the first line has weights, `read_input` does fail, but
not with a distinct "insufficient weight data" condition: the pop of the
reversed weight list underflows and the raw `IndexError` escapes, again with
the partially built state and tiles left on the maze object. -/
theorem C8_amended (m0 : Maze) (weights : List Int) (lines : List (List Char))
    (hv : ∀ line ∈ lines, ∀ ch ∈ line, validChar ch)
    (hlen : weights.length < (stoneCells 0 lines).length) :
    ∃ st' tl, readInput m0 weights lines =
      ({ m0 with state := st', tiles := m0.tiles ++ tl },
        Except.error PyErr.indexError) := by
  have hv' : ∀ line ∈ lines.map (fun l =>
      l ++ List.replicate ((lines.map List.length).foldl max 0 - l.length) ' '),
      ∀ ch ∈ line, validChar ch := by
    intro l hl
    obtain ⟨l0, hl0, hpad⟩ := List.mem_map.mp hl
    subst hpad
    exact validChar_pad (hv l0 hl0)
  have hlen' : (weights.reverse).length <
      (stoneCells 0 (lines.map (fun l =>
        l ++ List.replicate ((lines.map List.length).foldl max 0 - l.length) ' '))).length := by
    rw [stoneCells_pad lines (fun l => (lines.map List.length).foldl max 0 - l.length) 0]
    simpa using hlen
  obtain ⟨a, d, hd⟩ :=
    @processGrid_underflow_of_short _ m0.state weights.reverse 0 hv' hlen'
  refine ⟨a, d, ?_⟩
  simp only [readInput]
  rw [hd]

/-- Witness for the amended C8: one stone and no weights raise the modelled
`IndexError`. -/
theorem C8_amended_witness :
    ∃ st' tl, readInput freshMaze [] (gridOf ["$"]) =
      ({ freshMaze with state := st', tiles := freshMaze.tiles ++ tl },
        Except.error PyErr.indexError) :=
  C8_amended freshMaze [] (gridOf ["$"]) (by decide) (by decide)

/-- C6 (amended): `_compress_state` is deterministic and its key depends only
on the agent position, the stone key list and the switch key list — the
covered flags are never consulted, so two states agreeing on those three
components (even with different flags) always get the same key. -/
theorem C6_amended (tiles : List (List Tile)) (s1 s2 : PState)
    (hag : s1.agent = s2.agent)
    (hst : dictKeys s1.stones = dictKeys s2.stones)
    (hsw : dictKeys s1.switches = dictKeys s2.switches) :
    compress tiles s1 = compress tiles s2 := by
  unfold compress
  rw [hag, hst, hsw]

/-- Witness for the amended C6 on the parsed two-state board of the C6
counterexample: flipping the covered flag leaves the key unchanged. -/
theorem C6_amended_witness :
    compress c6maze.tiles c6s1 = compress c6maze.tiles c6s2 :=
  C6_amended c6maze.tiles c6s1 c6s2 rfl rfl rfl

theorem get?_mapIdx_opt {α β : Type} (l : List α) (f : Nat → α → β) (j : Nat) :
    (l.mapIdx f).get? j = (l.get? j).map (f j) := by
  by_cases h : j < l.length
  · rw [List.get?_eq_get h, List.get?_eq_get (by simpa [List.length_mapIdx] using h)]
    rw [List.get_mapIdx]
    rfl
  · rw [List.get?_eq_none.mpr (by simpa [List.length_mapIdx] using Nat.le_of_not_lt h),
      List.get?_eq_none.mpr (Nat.le_of_not_lt h)]
    rfl

/-- The rule `_calculate_blank_tiles` actually implements for a cell `(i, j)`
of one tile row: some horizontal run `[l, r)` of row `i` contains column `j`
AND the vertical runs of the run's MIDPOINT column contain row `i`. -/
def midCovered (vAll : List (List (Nat × Nat))) (parts : List (Nat × Nat))
    (i j : Nat) : Bool :=
  parts.any (fun lr =>
    decide (lr.1 ≤ j ∧ j < lr.2) &&
      ((vAll.get? (lr.1 + (lr.2 - lr.1) / 2)).getD []).any
        (fun tb => tb.1 ≤ i ∧ i < tb.2))

theorem applyPartsRow_spec {vAll : List (List (Nat × Nat))} {i : Nat} :
    ∀ {parts : List (Nat × Nat)} {row row' : List Tile},
    applyPartsRow vAll i row parts = some row' →
    ∀ j, row'.get? j = (row.get? j).map
      (fun t => if midCovered vAll parts i j then Tile.BLANK else t) := by
  intro parts
  induction parts with
  | nil =>
    intro row row' h j
    simp only [applyPartsRow] at h
    cases h
    have hmc : midCovered vAll [] i j = false := rfl
    rw [hmc]
    cases row.get? j <;> rfl
  | cons lr parts ih =>
    intro row row' h j
    obtain ⟨l, r⟩ := lr
    simp only [applyPartsRow] at h
    match hmid : vAll.get? (l + (r - l) / 2) with
    | none =>
      simp only [hmid] at h
      cases h
    | some vparts =>
      simp only [hmid] at h
      by_cases hcov : (vparts.any (fun tb => tb.1 ≤ i ∧ i < tb.2)) = true
      · rw [if_pos hcov] at h
        match hsrb : setRunBlank row l r with
        | none => rw [hsrb] at h; cases h
        | some row1 =>
          rw [hsrb] at h
          simp only [Option.some_bind] at h
          have hrec := ih h j
          have hrow1 : row1 =
              row.mapIdx (fun j t => if l ≤ j ∧ j < r then Tile.BLANK else t) := by
            unfold setRunBlank at hsrb
            by_cases hc : l < r ∧ row.length < r
            · rw [if_pos hc] at hsrb; cases hsrb
            · rw [if_neg hc] at hsrb
              injection hsrb with h2
              exact h2.symm
          rw [hrow1] at hrec
          rw [hrec, get?_mapIdx_opt]
          have hmc : midCovered vAll ((l, r) :: parts) i j =
              (decide (l ≤ j ∧ j < r) || midCovered vAll parts i j) := by
            simp only [midCovered, List.any_cons, hmid, Option.getD_some, hcov,
              Bool.and_true]
          cases hrj : row.get? j
          · rfl
          · simp only [Option.map_some']
            congr 1
            rw [hmc]
            by_cases hin : l ≤ j ∧ j < r
            · simp [hin]
            · simp [hin]
      · rw [if_neg hcov] at h
        have hrec := ih h j
        rw [hrec]
        have hcf : (vparts.any (fun tb => tb.1 ≤ i ∧ i < tb.2)) = false :=
          Bool.eq_false_iff.mpr hcov
        have hmc : midCovered vAll ((l, r) :: parts) i j =
            midCovered vAll parts i j := by
          simp only [midCovered, List.any_cons, hmid, Option.getD_some, hcf,
            Bool.and_false, Bool.false_or]
        rw [hmc]

theorem calcBlankRows_spec {vAll hAll : List (List (Nat × Nat))} :
    ∀ {rows : List (List Tile)} {i : Nat} {rows' : List (List Tile)},
    calcBlankRows vAll hAll rows i = some rows' →
    ∀ k row, rows.get? k = some row →
    ∃ parts row', hAll.get? (i + k) = some parts ∧ rows'.get? k = some row' ∧
      ∀ j, row'.get? j = (row.get? j).map
        (fun t => if midCovered vAll parts (i + k) j then Tile.BLANK else t) := by
  intro rows
  induction rows with
  | nil =>
    intro i rows' h k row hk
    cases hk
  | cons row0 rest ih =>
    intro i rows' h k row hk
    simp only [calcBlankRows] at h
    match hparts : hAll.get? i with
    | none => simp only [hparts] at h; cases h
    | some parts =>
      simp only [hparts] at h
      match hap : applyPartsRow vAll i row0 parts with
      | none => simp only [hap] at h; cases h
      | some row0q =>
        simp only [hap, Option.some_bind] at h
        match hcr : calcBlankRows vAll hAll rest (i + 1) with
        | none => simp only [hcr] at h; cases h
        | some tl =>
          simp only [hcr, Option.map_some'] at h
          cases h
          cases k with
          | zero =>
            have hrow : row = row0 := by
              injection hk with h2
              exact h2.symm
            subst hrow
            refine ⟨parts, row0q, by simpa using hparts, rfl, ?_⟩
            intro j
            simpa using applyPartsRow_spec hap j
          | succ kq =>
            have hk2 : rest.get? kq = some row := hk
            obtain ⟨parts2, row2, hp2, hr2, hspec⟩ := ih hcr kq row hk2
            refine ⟨parts2, row2, ?_, hr2, ?_⟩
            · have : i + (kq + 1) = (i + 1) + kq := by omega
              rw [this]
              exact hp2
            · intro j
              have : i + (kq + 1) = (i + 1) + kq := by omega
              rw [this]
              exact hspec j

/-- C3 (amended): after a successful `_calculate_blank_tiles`, a cell `(k, j)`
is `Tile.BLANK` exactly when it already was, or when it lies in a
wall-bounded horizontal run of row `k` whose MIDPOINT column has a
wall-bounded vertical run covering row `k` (`midCovered`); every other cell
keeps its previous tile.  Only the midpoint column is consulted — not the
whole column range of the run. -/
theorem C3_amended {tiles tiles' : List (List Tile)} {size : Pos}
    {mazeStrings : List (List Char)}
    (h : calculateBlankTiles tiles size mazeStrings = some tiles') :
    ∃ vAll, ((List.range size.2.toNat).mapM
        (fun col => vPartsGo col size.1 mazeStrings 0 0 0 false)) = some vAll ∧
      ∀ k row, tiles.get? k = some row →
      ∃ parts row',
        (mazeStrings.map (fun line => hPartsGo line 0 0 0 false)).get? k =
          some parts ∧
        tiles'.get? k = some row' ∧
        ∀ j, row'.get? j = (row.get? j).map
          (fun t => if midCovered vAll parts k j then Tile.BLANK else t) := by
  unfold calculateBlankTiles at h
  match hm : (List.range size.2.toNat).mapM
      (fun col => vPartsGo col size.1 mazeStrings 0 0 0 false) with
  | none => rw [hm] at h; cases h
  | some vAll =>
    rw [hm] at h
    simp only [Option.some_bind] at h
    refine ⟨vAll, rfl, ?_⟩
    intro k row hk
    obtain ⟨parts, row', hp, hr, hspec⟩ := calcBlankRows_spec h k row hk
    exact ⟨parts, row', by simpa using hp, hr, by simpa using hspec⟩

/-- Witness for the amended C3 on the parsed board `#####` over `#   #`:
the middle cells of the open row become `BLANK` via the midpoint rule. -/
theorem C3_amended_witness :
    ∃ vAll, ((List.range (((3 : Int), (3 : Int)) : Pos).2.toNat).mapM
        (fun col => vPartsGo col (((3 : Int), (3 : Int)) : Pos).1 (gridOf ["###", "# #", "###"]) 0 0 0 false)) =
        some vAll ∧
      ∀ k row, [[Tile.BRICK, Tile.BRICK, Tile.BRICK],
        [Tile.BRICK, Tile.NONE, Tile.BRICK],
        [Tile.BRICK, Tile.BRICK, Tile.BRICK]].get? k = some row →
      ∃ parts row',
        ((gridOf ["###", "# #", "###"]).map
          (fun line => hPartsGo line 0 0 0 false)).get? k = some parts ∧
        ((calculateBlankTiles [[Tile.BRICK, Tile.BRICK, Tile.BRICK],
          [Tile.BRICK, Tile.NONE, Tile.BRICK],
          [Tile.BRICK, Tile.BRICK, Tile.BRICK]] (((3 : Int), (3 : Int)) : Pos)
            (gridOf ["###", "# #", "###"])).getD []).get? k = some row' ∧
        ∀ j, row'.get? j = (row.get? j).map
          (fun t => if midCovered vAll parts k j then Tile.BLANK else t) := by
  have := @C3_amended [[Tile.BRICK, Tile.BRICK, Tile.BRICK],
    [Tile.BRICK, Tile.NONE, Tile.BRICK],
    [Tile.BRICK, Tile.BRICK, Tile.BRICK]]
    ((calculateBlankTiles [[Tile.BRICK, Tile.BRICK, Tile.BRICK],
      [Tile.BRICK, Tile.NONE, Tile.BRICK],
      [Tile.BRICK, Tile.BRICK, Tile.BRICK]] (((3 : Int), (3 : Int)) : Pos)
        (gridOf ["###", "# #", "###"])).getD [])
    (((3 : Int), (3 : Int)) : Pos) (gridOf ["###", "# #", "###"]) rfl
  exact this

theorem ucsLoop_step (tiles : List (List Tile)) (fuel : Nat)
    (visited : List (List Char)) (heap : List Entry)
    (cost : Nat) (s : PState) (path : List Char) (hp : List Entry)
    (succs : List (PState × Char)) (v2 : List (List Char)) (h2 : List Entry)
    (hne : heap.isEmpty = false)
    (hpop : heappop entryLtE heap = Except.ok ((cost, s, path), hp))
    (hfin : isFinished s = false)
    (hsuccs : genSuccs tiles s = Except.ok succs)
    (hpush : pushSuccs tiles visited hp cost path succs = Except.ok (v2, h2)) :
    ucsLoop tiles (fuel + 1) visited heap = ucsLoop tiles fuel v2 h2 := by
  simp only [ucsLoop, hne, hpop, hfin, hsuccs, hpush]
  rw [if_neg Bool.false_ne_true, if_neg Bool.false_ne_true]

theorem ucsLoop_found (tiles : List (List Tile)) (fuel : Nat)
    (visited : List (List Char)) (heap : List Entry)
    (cost : Nat) (s : PState) (path : List Char) (hp : List Entry)
    (hne : heap.isEmpty = false)
    (hpop : heappop entryLtE heap = Except.ok ((cost, s, path), hp))
    (hfin : isFinished s = true) :
    ucsLoop tiles (fuel + 1) visited heap = SearchResult.found path := by
  simp only [ucsLoop, hne, hpop, hfin]
  rw [if_neg Bool.false_ne_true]
  rw [if_pos trivial]

theorem getD_mem_of_lt {α : Type} :
    ∀ {l : List α} {n : Nat} (d : α), n < l.length → l.getD n d ∈ l := by
  intro l
  induction l with
  | nil => intro n d h; cases h
  | cons x xs ih =>
    intro n d h
    cases n with
    | zero => exact List.mem_cons_self _ _
    | succ m =>
      exact List.mem_cons_of_mem _ (ih d (Nat.lt_of_succ_lt_succ h))

theorem siftdown_pred {α : Type} [Inhabited α] {lt : α → α → Except Unit Bool}
    {P : α → Prop} :
    ∀ {fuel : Nat} {heap : List α} {startpos pos : Nat} {newitem : α}
    {out : List α},
    siftdown lt fuel heap startpos pos newitem = .ok out →
    pos < heap.length → (∀ x ∈ heap, P x) → P newitem →
    (∀ x ∈ out, P x) ∧ out.length = heap.length := by
  intro fuel
  induction fuel with
  | zero =>
    intro heap sp pos ni out h _ _ _
    cases h
  | succ f ih =>
    intro heap sp pos ni out h hpos hP hni
    simp only [siftdown] at h
    by_cases hlt : sp < pos
    · rw [if_pos hlt] at h
      have hpar : (pos - 1) / 2 < heap.length :=
        Nat.lt_of_le_of_lt (Nat.le_trans (Nat.div_le_self _ _) (Nat.sub_le _ _)) hpos
      have hparm : heap.getD ((pos - 1) / 2) default ∈ heap :=
        getD_mem_of_lt default hpar
      match hcmp : lt ni (heap.getD ((pos - 1) / 2) default) with
      | .error e => simp only [hcmp] at h; cases h
      | .ok true =>
        simp only [hcmp] at h
        have hlen : (heap.set pos (heap.getD ((pos - 1) / 2) default)).length =
            heap.length := List.length_set heap _ _
        have hmem : ∀ x ∈ heap.set pos (heap.getD ((pos - 1) / 2) default), P x :=
          fun x hx => (List.mem_or_eq_of_mem_set hx).elim (hP x)
            (fun he => he ▸ hP _ hparm)
        have hres := ih h (by rw [hlen]; exact hpar) hmem hni
        exact ⟨hres.1, hres.2.trans hlen⟩
      | .ok false =>
        simp only [hcmp] at h
        injection h with h2
        subst h2
        exact ⟨fun x hx => (List.mem_or_eq_of_mem_set hx).elim (hP x)
          (fun he => he ▸ hni), List.length_set heap _ _⟩
    · rw [if_neg hlt] at h
      injection h with h2
      subst h2
      exact ⟨fun x hx => (List.mem_or_eq_of_mem_set hx).elim (hP x)
        (fun he => he ▸ hni), List.length_set heap _ _⟩

theorem siftup_pred {α : Type} [Inhabited α] {lt : α → α → Except Unit Bool}
    {endpos : Nat} {P : α → Prop} :
    ∀ {fuel : Nat} {heap : List α} {startpos pos : Nat} {newitem : α}
    {out : List α},
    siftup lt endpos fuel heap startpos pos newitem = .ok out →
    pos < heap.length → endpos ≤ heap.length → (∀ x ∈ heap, P x) → P newitem →
    (∀ x ∈ out, P x) ∧ out.length = heap.length := by
  intro fuel
  induction fuel with
  | zero =>
    intro heap sp pos ni out h _ _ _ _
    cases h
  | succ f ih =>
    intro heap sp pos ni out h hpos hend hP hni
    simp only [siftup] at h
    by_cases h1 : 2 * pos + 1 < endpos
    · rw [if_pos h1] at h
      have hc1 : 2 * pos + 1 < heap.length := Nat.lt_of_lt_of_le h1 hend
      have hm1 : heap.getD (2 * pos + 1) default ∈ heap := getD_mem_of_lt default hc1
      by_cases h2 : 2 * pos + 1 + 1 < endpos
      · rw [if_pos h2] at h
        have hc2 : 2 * pos + 1 + 1 < heap.length := Nat.lt_of_lt_of_le h2 hend
        have hm2 : heap.getD (2 * pos + 1 + 1) default ∈ heap :=
          getD_mem_of_lt default hc2
        match hcmp : lt (heap.getD (2 * pos + 1) default)
            (heap.getD (2 * pos + 1 + 1) default) with
        | .error e => simp only [hcmp] at h; cases h
        | .ok true =>
          simp only [hcmp] at h
          have hlen : (heap.set pos (heap.getD (2 * pos + 1) default)).length =
              heap.length := List.length_set heap _ _
          have hmem : ∀ x ∈ heap.set pos (heap.getD (2 * pos + 1) default), P x :=
            fun x hx => (List.mem_or_eq_of_mem_set hx).elim (hP x)
              (fun he => he ▸ hP _ hm1)
          have hres := ih h (by rw [hlen]; exact hc1) (by rw [hlen]; exact hend)
            hmem hni
          exact ⟨hres.1, hres.2.trans hlen⟩
        | .ok false =>
          simp only [hcmp] at h
          have hlen : (heap.set pos (heap.getD (2 * pos + 1 + 1) default)).length =
              heap.length := List.length_set heap _ _
          have hmem : ∀ x ∈ heap.set pos (heap.getD (2 * pos + 1 + 1) default), P x :=
            fun x hx => (List.mem_or_eq_of_mem_set hx).elim (hP x)
              (fun he => he ▸ hP _ hm2)
          have hres := ih h (by rw [hlen]; exact hc2) (by rw [hlen]; exact hend)
            hmem hni
          exact ⟨hres.1, hres.2.trans hlen⟩
      · rw [if_neg h2] at h
        have hlen : (heap.set pos (heap.getD (2 * pos + 1) default)).length =
            heap.length := List.length_set heap _ _
        have hmem : ∀ x ∈ heap.set pos (heap.getD (2 * pos + 1) default), P x :=
          fun x hx => (List.mem_or_eq_of_mem_set hx).elim (hP x)
            (fun he => he ▸ hP _ hm1)
        have hres := ih h (by rw [hlen]; exact hc1) (by rw [hlen]; exact hend)
          hmem hni
        exact ⟨hres.1, hres.2.trans hlen⟩
    · rw [if_neg h1] at h
      exact siftdown_pred h hpos hP hni

theorem heappush_pred {α : Type} [Inhabited α] {lt : α → α → Except Unit Bool}
    {P : α → Prop} {heap : List α} {item : α} {out : List α}
    (h : heappush lt heap item = .ok out)
    (hP : ∀ x ∈ heap, P x) (hi : P item) : ∀ x ∈ out, P x := by
  unfold heappush at h
  refine (siftdown_pred h ?_ ?_ hi).1
  · rw [List.length_append]
    simp
  · intro x hx
    rcases List.mem_append.mp hx with h1 | h1
    · exact hP x h1
    · rw [List.mem_singleton] at h1
      exact h1 ▸ hi

theorem heappop_pred {α : Type} [Inhabited α] {lt : α → α → Except Unit Bool}
    {P : α → Prop} {heap : List α} {e : α} {hp : List α}
    (h : heappop lt heap = .ok (e, hp))
    (hP : ∀ x ∈ heap, P x) : P e ∧ ∀ x ∈ hp, P x := by
  unfold heappop at h
  match hlast : heap.getLast? with
  | none => rw [hlast] at h; cases h
  | some lastelt =>
    rw [hlast] at h
    simp only [] at h
    have hpp : pyPopLast heap = some (lastelt, heap.dropLast) := by
      unfold pyPopLast
      rw [hlast]
    have hsplit := pyPopLast_eq hpp
    have hlm : P lastelt := by
      refine hP _ ?_
      rw [hsplit]
      exact List.mem_append_right _ (List.mem_singleton_self _)
    have hdm : ∀ x ∈ heap.dropLast, P x := by
      intro x hx
      refine hP x ?_
      rw [hsplit]
      exact List.mem_append_left _ hx
    by_cases hre : heap.dropLast.isEmpty = true
    · rw [if_pos hre] at h
      injection h with h2
      injection h2 with h3 h4
      subst h3
      subst h4
      exact ⟨hlm, by intro x hx; cases hx⟩
    · rw [if_neg hre] at h
      have hlen : 0 < heap.dropLast.length := by
        cases hd : heap.dropLast with
        | nil => rw [hd] at hre; simp at hre
        | cons y ys => simp
      match hsift : siftup lt heap.dropLast.length
          (heap.dropLast.length + 1) (heap.dropLast.set 0 lastelt) 0 0 lastelt with
      | .error e2 => rw [hsift] at h; cases h
      | .ok out =>
        rw [hsift] at h
        simp only [Except.map] at h
        injection h with h2
        injection h2 with h3 h4
        subst h3
        subst h4
        constructor
        · exact hdm _ (getD_mem_of_lt default hlen)
        · refine (siftup_pred hsift ?_ ?_ ?_ hlm).1
          · rw [List.length_set]
            exact hlen
          · rw [List.length_set]
          · intro x hx
            exact (List.mem_or_eq_of_mem_set hx).elim (hdm x) (fun he => he ▸ hlm)

theorem pushSuccs_pred {tiles : List (List Tile)} {P : Entry → Prop} :
    ∀ {succs : List (PState × Char)} {visited : List (List Char)}
    {heap : List Entry} {cost : Nat} {path : List Char}
    {v2 : List (List Char)} {h2 : List Entry},
    pushSuccs tiles visited heap cost path succs = .ok (v2, h2) →
    (∀ x ∈ heap, P x) →
    (∀ sa ∈ succs, P (cost + 1, sa.1, path ++ [sa.2])) →
    ∀ x ∈ h2, P x := by
  intro succs
  induction succs with
  | nil =>
    intro visited heap cost path v2 h2 h hP _
    simp only [pushSuccs] at h
    injection h with h1
    injection h1 with h3 h4
    subst h4
    exact hP
  | cons sa rest ih =>
    intro visited heap cost path v2 h2 h hP hs
    obtain ⟨s1, a⟩ := sa
    simp only [pushSuccs] at h
    match hc : compress tiles s1 with
    | .error e => simp only [hc] at h; cases h
    | .ok key =>
      simp only [hc] at h
      by_cases hv : visited.contains key = true
      · rw [if_pos hv] at h
        exact ih h hP (fun x hx => hs x (List.mem_cons_of_mem _ hx))
      · rw [if_neg hv] at h
        match hpush : heappush entryLtE heap (cost + 1, s1, path ++ [a]) with
        | .error e => simp only [hpush] at h; cases h
        | .ok heap2 =>
          simp only [hpush] at h
          exact ih h
            (heappush_pred hpush hP (hs (s1, a) (List.mem_cons_self _ _)))
            (fun x hx => hs x (List.mem_cons_of_mem _ hx))

theorem execPath_snoc {tiles : List (List Tile)} {s0 s s' : PState}
    {p : List Char} {a : Char}
    (h : ExecPath tiles s0 p s) (hs : LegalStep tiles s a s') :
    ExecPath tiles s0 (p ++ [a]) s' := by
  induction h with
  | nil s1 => exact ExecPath.cons hs (ExecPath.nil s')
  | cons hstep htail ih => exact ExecPath.cons hstep (ih hs)

theorem ucsLoop_sound {tiles : List (List Tile)} {s0 : PState} :
    ∀ {fuel : Nat} {visited : List (List Char)} {heap : List Entry}
    {p : List Char},
    (∀ e ∈ heap, ExecPath tiles s0 e.2.2 e.2.1) →
    ucsLoop tiles fuel visited heap = .found p →
    Solves tiles s0 p := by
  intro fuel
  induction fuel with
  | zero =>
    intro visited heap p _ h
    cases h
  | succ f ih =>
    intro visited heap p hInv h
    simp only [ucsLoop] at h
    by_cases hemp : heap.isEmpty = true
    · rw [if_pos hemp] at h; cases h
    · rw [if_neg hemp] at h
      match hpop : heappop entryLtE heap with
      | .error e => simp only [hpop] at h; cases h
      | .ok ((c, s, pa), hp) =>
        simp only [hpop] at h
        have hpp := heappop_pred hpop hInv
        have hex : ExecPath tiles s0 pa s := hpp.1
        by_cases hfin : isFinished s = true
        · rw [if_pos hfin] at h
          injection h with h2
          subst h2
          exact ⟨s, hex, hfin⟩
        · rw [if_neg hfin] at h
          match hg : genSuccs tiles s with
          | .error e => simp only [hg] at h; cases h
          | .ok succs =>
            simp only [hg] at h
            match hps : pushSuccs tiles visited hp c pa succs with
            | .error e => simp only [hps] at h; cases h
            | .ok (v2, h2) =>
              simp only [hps] at h
              refine ih ?_ h
              intro e he
              refine pushSuccs_pred hps hpp.2 ?_ e he
              intro sa hsa
              obtain ⟨s1, a⟩ := sa
              exact execPath_snoc hex ⟨succs, hg, hsa⟩

/-- C4 (amended): whatever `uniform_cost_search` returns with `True` is a
valid solution — a sequence of legal `_generate_new_states` moves from the
initial state to a state with every switch covered.  (The minimality half of
the original claim is refuted by the C4 counterexample: wrapped negative
indices can poison the visited set and make the search return a longer
path.) -/
theorem C4_amended (tiles : List (List Tile)) (s0 : PState) (fuel : Nat)
    (p : List Char) (h : uniformCostSearch tiles s0 fuel = .found p) :
    Solves tiles s0 p := by
  unfold uniformCostSearch at h
  match hc : compress tiles s0 with
  | .error e => simp only [hc] at h; cases h
  | .ok k0 =>
    simp only [hc] at h
    refine ucsLoop_sound ?_ h
    intro e he
    rw [List.mem_singleton] at he
    subst he
    exact ExecPath.nil s0

/-- Witness for the amended C4: the trivial single-cell board with no
switches is solved by the empty path. -/
theorem C4_amended_witness :
    Solves [[Tile.NONE]] ⟨(0, 0), [], []⟩ ([] : List Char) :=
  C4_amended [[Tile.NONE]] ⟨(0, 0), [], []⟩ 1 [] rfl

/-- The C4 board: a left shaft sealed off by walls on rows 1-6 together with
the open top corridor lets "ghost" states whose coordinates have wrapped
below zero mirror real states, so their visited keys collide. -/
def c4maze : Maze := (readInput freshMaze [1] (gridOf ["#@      #", "####### #", "#       #", "# #  $ ##", "# #  .###", "# #######", "# #######"])).1

/-- The tiles of `c4maze`, written out. -/
def c4t : List (List Tile) :=
  [[Tile.BRICK, Tile.NONE, Tile.NONE, Tile.NONE, Tile.NONE, Tile.NONE, Tile.NONE, Tile.NONE, Tile.BRICK],
 [Tile.BRICK, Tile.BRICK, Tile.BRICK, Tile.BRICK, Tile.BRICK, Tile.BRICK, Tile.BRICK, Tile.NONE, Tile.BRICK],
 [Tile.BRICK, Tile.BLANK, Tile.BLANK, Tile.BLANK, Tile.BLANK, Tile.BLANK, Tile.BLANK, Tile.BLANK, Tile.BRICK],
 [Tile.BRICK, Tile.NONE, Tile.BRICK, Tile.BLANK, Tile.BLANK, Tile.BLANK, Tile.BLANK, Tile.BRICK, Tile.BRICK],
 [Tile.BRICK, Tile.NONE, Tile.BRICK, Tile.BLANK, Tile.BLANK, Tile.BLANK, Tile.BRICK, Tile.BRICK, Tile.BRICK],
 [Tile.BRICK, Tile.NONE, Tile.BRICK, Tile.BRICK, Tile.BRICK, Tile.BRICK, Tile.BRICK, Tile.BRICK, Tile.BRICK],
 [Tile.BRICK, Tile.NONE, Tile.BRICK, Tile.BRICK, Tile.BRICK, Tile.BRICK, Tile.BRICK, Tile.BRICK, Tile.BRICK]]

theorem c4t_eq : c4maze.tiles = c4t := rfl

/-- The parsed initial state of the C4 board. -/
def c4sInit : PState := ⟨(0, 1), [((3, 5), 1)], [((4, 5), false)]⟩

theorem c4s_eq : c4maze.state = c4sInit := rfl

def c4k0 : List Char := "#@      #\n####### #\n#       #\n# #  $ ##\n# #  .###\n# #######\n# #######".toList

def c4e0 : Entry := (0, c4sInit, ([] : List Char))

def c4v0 : List (List Char) := [c4k0]

def c4h0 : List Entry := [c4e0]

def c4p0 : List Entry := []
def c4g0 : List (PState × Char) :=
  [(⟨(0, 2), [((3, 5), 1)], [((4, 5), false)]⟩, 'r'),
   (⟨((-1), 1), [((3, 5), 1)], [((4, 5), false)]⟩, 'u')]
def c4k1 : List Char := "# @     #\n####### #\n#       #\n# #  $ ##\n# #  .###\n# #######\n# #######".toList
def c4e1 : Entry := (1, ⟨(0, 2), [((3, 5), 1)], [((4, 5), false)]⟩, ['r'])
def c4k2 : List Char := "#       #\n####### #\n#       #\n# #  $ ##\n# #  .###\n# #######\n#@#######".toList
def c4e2 : Entry := (1, ⟨((-1), 1), [((3, 5), 1)], [((4, 5), false)]⟩, ['u'])
def c4v1 : List (List Char) := ((c4v0 ++ [c4k1]) ++ [c4k2])
def c4h1 : List Entry := [c4e1, c4e2]

def c4p1 : List Entry := [c4e2]
def c4g1 : List (PState × Char) :=
  [(⟨(0, 1), [((3, 5), 1)], [((4, 5), false)]⟩, 'l'),
   (⟨(0, 3), [((3, 5), 1)], [((4, 5), false)]⟩, 'r')]
def c4k3 : List Char := "#  @    #\n####### #\n#       #\n# #  $ ##\n# #  .###\n# #######\n# #######".toList
def c4e3 : Entry := (2, ⟨(0, 3), [((3, 5), 1)], [((4, 5), false)]⟩, ['r', 'r'])
def c4v2 : List (List Char) := (c4v1 ++ [c4k3])
def c4h2 : List Entry := [c4e2, c4e3]

def c4p2 : List Entry := [c4e3]
def c4g2 : List (PState × Char) :=
  [(⟨((-2), 1), [((3, 5), 1)], [((4, 5), false)]⟩, 'u'),
   (⟨(0, 1), [((3, 5), 1)], [((4, 5), false)]⟩, 'd')]
def c4k4 : List Char := "#       #\n####### #\n#       #\n# #  $ ##\n# #  .###\n#@#######\n# #######".toList
def c4e4 : Entry := (2, ⟨((-2), 1), [((3, 5), 1)], [((4, 5), false)]⟩, ['u', 'u'])
def c4v3 : List (List Char) := (c4v2 ++ [c4k4])
def c4h3 : List Entry := [c4e3, c4e4]

def c4p3 : List Entry := [c4e4]
def c4g3 : List (PState × Char) :=
  [(⟨(0, 2), [((3, 5), 1)], [((4, 5), false)]⟩, 'l'),
   (⟨(0, 4), [((3, 5), 1)], [((4, 5), false)]⟩, 'r')]
def c4k5 : List Char := "#   @   #\n####### #\n#       #\n# #  $ ##\n# #  .###\n# #######\n# #######".toList
def c4e5 : Entry := (3, ⟨(0, 4), [((3, 5), 1)], [((4, 5), false)]⟩, ['r', 'r', 'r'])
def c4v4 : List (List Char) := (c4v3 ++ [c4k5])
def c4h4 : List Entry := [c4e4, c4e5]

def c4p4 : List Entry := [c4e5]
def c4g4 : List (PState × Char) :=
  [(⟨((-3), 1), [((3, 5), 1)], [((4, 5), false)]⟩, 'u'),
   (⟨((-1), 1), [((3, 5), 1)], [((4, 5), false)]⟩, 'd')]
def c4k6 : List Char := "#       #\n####### #\n#       #\n# #  $ ##\n#@#  .###\n# #######\n# #######".toList
def c4e6 : Entry := (3, ⟨((-3), 1), [((3, 5), 1)], [((4, 5), false)]⟩, ['u', 'u', 'u'])
def c4v5 : List (List Char) := (c4v4 ++ [c4k6])
def c4h5 : List Entry := [c4e5, c4e6]

def c4p5 : List Entry := [c4e6]
def c4g5 : List (PState × Char) :=
  [(⟨(0, 3), [((3, 5), 1)], [((4, 5), false)]⟩, 'l'),
   (⟨(0, 5), [((3, 5), 1)], [((4, 5), false)]⟩, 'r')]
def c4k7 : List Char := "#    @  #\n####### #\n#       #\n# #  $ ##\n# #  .###\n# #######\n# #######".toList
def c4e7 : Entry := (4, ⟨(0, 5), [((3, 5), 1)], [((4, 5), false)]⟩, ['r', 'r', 'r', 'r'])
def c4v6 : List (List Char) := (c4v5 ++ [c4k7])
def c4h6 : List Entry := [c4e6, c4e7]

def c4p6 : List Entry := [c4e7]
def c4g6 : List (PState × Char) :=
  [(⟨((-4), 1), [((3, 5), 1)], [((4, 5), false)]⟩, 'u'),
   (⟨((-2), 1), [((3, 5), 1)], [((4, 5), false)]⟩, 'd')]
def c4k8 : List Char := "#       #\n####### #\n#       #\n#@#  $ ##\n# #  .###\n# #######\n# #######".toList
def c4e8 : Entry := (4, ⟨((-4), 1), [((3, 5), 1)], [((4, 5), false)]⟩, ['u', 'u', 'u', 'u'])
def c4v7 : List (List Char) := (c4v6 ++ [c4k8])
def c4h7 : List Entry := [c4e7, c4e8]

def c4p7 : List Entry := [c4e8]
def c4g7 : List (PState × Char) :=
  [(⟨(0, 4), [((3, 5), 1)], [((4, 5), false)]⟩, 'l'),
   (⟨(0, 6), [((3, 5), 1)], [((4, 5), false)]⟩, 'r')]
def c4k9 : List Char := "#     @ #\n####### #\n#       #\n# #  $ ##\n# #  .###\n# #######\n# #######".toList
def c4e9 : Entry := (5, ⟨(0, 6), [((3, 5), 1)], [((4, 5), false)]⟩, ['r', 'r', 'r', 'r', 'r'])
def c4v8 : List (List Char) := (c4v7 ++ [c4k9])
def c4h8 : List Entry := [c4e8, c4e9]

def c4p8 : List Entry := [c4e9]
def c4g8 : List (PState × Char) :=
  [(⟨((-5), 1), [((3, 5), 1)], [((4, 5), false)]⟩, 'u'),
   (⟨((-3), 1), [((3, 5), 1)], [((4, 5), false)]⟩, 'd')]
def c4k10 : List Char := "#       #\n####### #\n#@      #\n# #  $ ##\n# #  .###\n# #######\n# #######".toList
def c4e10 : Entry := (5, ⟨((-5), 1), [((3, 5), 1)], [((4, 5), false)]⟩, ['u', 'u', 'u', 'u', 'u'])
def c4v9 : List (List Char) := (c4v8 ++ [c4k10])
def c4h9 : List Entry := [c4e9, c4e10]

def c4p9 : List Entry := [c4e10]
def c4g9 : List (PState × Char) :=
  [(⟨(0, 5), [((3, 5), 1)], [((4, 5), false)]⟩, 'l'),
   (⟨(0, 7), [((3, 5), 1)], [((4, 5), false)]⟩, 'r')]
def c4k11 : List Char := "#      @#\n####### #\n#       #\n# #  $ ##\n# #  .###\n# #######\n# #######".toList
def c4e11 : Entry := (6, ⟨(0, 7), [((3, 5), 1)], [((4, 5), false)]⟩, ['r', 'r', 'r', 'r', 'r', 'r'])
def c4v10 : List (List Char) := (c4v9 ++ [c4k11])
def c4h10 : List Entry := [c4e10, c4e11]

def c4p10 : List Entry := [c4e11]
def c4g10 : List (PState × Char) :=
  [(⟨((-5), 2), [((3, 5), 1)], [((4, 5), false)]⟩, 'r'),
   (⟨((-4), 1), [((3, 5), 1)], [((4, 5), false)]⟩, 'd')]
def c4k12 : List Char := "#       #\n####### #\n# @     #\n# #  $ ##\n# #  .###\n# #######\n# #######".toList
def c4e12 : Entry := (6, ⟨((-5), 2), [((3, 5), 1)], [((4, 5), false)]⟩, ['u', 'u', 'u', 'u', 'u', 'r'])
def c4v11 : List (List Char) := (c4v10 ++ [c4k12])
def c4h11 : List Entry := [c4e11, c4e12]

def c4p11 : List Entry := [c4e12]
def c4g11 : List (PState × Char) :=
  [(⟨(0, 6), [((3, 5), 1)], [((4, 5), false)]⟩, 'l'),
   (⟨(1, 7), [((3, 5), 1)], [((4, 5), false)]⟩, 'd')]
def c4k13 : List Char := "#       #\n#######@#\n#       #\n# #  $ ##\n# #  .###\n# #######\n# #######".toList
def c4e13 : Entry := (7, ⟨(1, 7), [((3, 5), 1)], [((4, 5), false)]⟩, ['r', 'r', 'r', 'r', 'r', 'r', 'd'])
def c4v12 : List (List Char) := (c4v11 ++ [c4k13])
def c4h12 : List Entry := [c4e12, c4e13]

def c4p12 : List Entry := [c4e13]
def c4g12 : List (PState × Char) :=
  [(⟨((-5), 1), [((3, 5), 1)], [((4, 5), false)]⟩, 'l'),
   (⟨((-5), 3), [((3, 5), 1)], [((4, 5), false)]⟩, 'r')]
def c4k14 : List Char := "#       #\n####### #\n#  @    #\n# #  $ ##\n# #  .###\n# #######\n# #######".toList
def c4e14 : Entry := (7, ⟨((-5), 3), [((3, 5), 1)], [((4, 5), false)]⟩, ['u', 'u', 'u', 'u', 'u', 'r', 'r'])
def c4v13 : List (List Char) := (c4v12 ++ [c4k14])
def c4h13 : List Entry := [c4e13, c4e14]

def c4p13 : List Entry := [c4e14]
def c4g13 : List (PState × Char) :=
  [(⟨(0, 7), [((3, 5), 1)], [((4, 5), false)]⟩, 'u'),
   (⟨(2, 7), [((3, 5), 1)], [((4, 5), false)]⟩, 'd')]
def c4k15 : List Char := "#       #\n####### #\n#      @#\n# #  $ ##\n# #  .###\n# #######\n# #######".toList
def c4e15 : Entry := (8, ⟨(2, 7), [((3, 5), 1)], [((4, 5), false)]⟩, ['r', 'r', 'r', 'r', 'r', 'r', 'd', 'd'])
def c4v14 : List (List Char) := (c4v13 ++ [c4k15])
def c4h14 : List Entry := [c4e14, c4e15]

def c4p14 : List Entry := [c4e15]
def c4g14 : List (PState × Char) :=
  [(⟨((-5), 2), [((3, 5), 1)], [((4, 5), false)]⟩, 'l'),
   (⟨((-5), 4), [((3, 5), 1)], [((4, 5), false)]⟩, 'r'),
   (⟨((-4), 3), [((3, 5), 1)], [((4, 5), false)]⟩, 'd')]
def c4k16 : List Char := "#       #\n####### #\n#   @   #\n# #  $ ##\n# #  .###\n# #######\n# #######".toList
def c4e16 : Entry := (8, ⟨((-5), 4), [((3, 5), 1)], [((4, 5), false)]⟩, ['u', 'u', 'u', 'u', 'u', 'r', 'r', 'r'])
def c4k17 : List Char := "#       #\n####### #\n#       #\n# #@ $ ##\n# #  .###\n# #######\n# #######".toList
def c4e17 : Entry := (8, ⟨((-4), 3), [((3, 5), 1)], [((4, 5), false)]⟩, ['u', 'u', 'u', 'u', 'u', 'r', 'r', 'd'])
def c4v15 : List (List Char) := ((c4v14 ++ [c4k16]) ++ [c4k17])
def c4h15 : List Entry := [c4e15, c4e16, c4e17]

def c4p15 : List Entry := [c4e16, c4e17]
def c4g15 : List (PState × Char) :=
  [(⟨(2, 6), [((3, 5), 1)], [((4, 5), false)]⟩, 'l'),
   (⟨(1, 7), [((3, 5), 1)], [((4, 5), false)]⟩, 'u')]
def c4k18 : List Char := "#       #\n####### #\n#     @ #\n# #  $ ##\n# #  .###\n# #######\n# #######".toList
def c4e18 : Entry := (9, ⟨(2, 6), [((3, 5), 1)], [((4, 5), false)]⟩, ['r', 'r', 'r', 'r', 'r', 'r', 'd', 'd', 'l'])
def c4v16 : List (List Char) := (c4v15 ++ [c4k18])
def c4h16 : List Entry := [c4e16, c4e17, c4e18]

def c4p16 : List Entry := [c4e17, c4e18]
def c4g16 : List (PState × Char) :=
  [(⟨((-5), 3), [((3, 5), 1)], [((4, 5), false)]⟩, 'l'),
   (⟨((-5), 5), [((3, 5), 1)], [((4, 5), false)]⟩, 'r'),
   (⟨((-4), 4), [((3, 5), 1)], [((4, 5), false)]⟩, 'd')]
def c4k19 : List Char := "#       #\n####### #\n#    @  #\n# #  $ ##\n# #  .###\n# #######\n# #######".toList
def c4e19 : Entry := (9, ⟨((-5), 5), [((3, 5), 1)], [((4, 5), false)]⟩, ['u', 'u', 'u', 'u', 'u', 'r', 'r', 'r', 'r'])
def c4k20 : List Char := "#       #\n####### #\n#       #\n# # @$ ##\n# #  .###\n# #######\n# #######".toList
def c4e20 : Entry := (9, ⟨((-4), 4), [((3, 5), 1)], [((4, 5), false)]⟩, ['u', 'u', 'u', 'u', 'u', 'r', 'r', 'r', 'd'])
def c4v17 : List (List Char) := ((c4v16 ++ [c4k19]) ++ [c4k20])
def c4h17 : List Entry := [c4e17, c4e18, c4e19, c4e20]

def c4p17 : List Entry := [c4e18, c4e20, c4e19]
def c4g17 : List (PState × Char) :=
  [(⟨((-4), 4), [((3, 5), 1)], [((4, 5), false)]⟩, 'r'),
   (⟨((-5), 3), [((3, 5), 1)], [((4, 5), false)]⟩, 'u'),
   (⟨((-3), 3), [((3, 5), 1)], [((4, 5), false)]⟩, 'd')]
def c4k21 : List Char := "#       #\n####### #\n#       #\n# #  $ ##\n# #@ .###\n# #######\n# #######".toList
def c4e21 : Entry := (9, ⟨((-3), 3), [((3, 5), 1)], [((4, 5), false)]⟩, ['u', 'u', 'u', 'u', 'u', 'r', 'r', 'd', 'd'])
def c4v18 : List (List Char) := (c4v17 ++ [c4k21])
def c4h18 : List Entry := [c4e18, c4e20, c4e19, c4e21]

def c4p18 : List Entry := [c4e19, c4e20, c4e21]
def c4g18 : List (PState × Char) :=
  [(⟨(2, 5), [((3, 5), 1)], [((4, 5), false)]⟩, 'l'),
   (⟨(2, 7), [((3, 5), 1)], [((4, 5), false)]⟩, 'r'),
   (⟨(3, 6), [((3, 5), 1)], [((4, 5), false)]⟩, 'd')]
def c4k22 : List Char := "#       #\n####### #\n#       #\n# #  $@##\n# #  .###\n# #######\n# #######".toList
def c4e22 : Entry := (10, ⟨(3, 6), [((3, 5), 1)], [((4, 5), false)]⟩, ['r', 'r', 'r', 'r', 'r', 'r', 'd', 'd', 'l', 'd'])
def c4v19 : List (List Char) := (c4v18 ++ [c4k22])
def c4h19 : List Entry := [c4e19, c4e20, c4e21, c4e22]

def c4p19 : List Entry := [c4e21, c4e20, c4e22]
def c4g19 : List (PState × Char) :=
  [(⟨((-5), 4), [((3, 5), 1)], [((4, 5), false)]⟩, 'l'),
   (⟨((-5), 6), [((3, 5), 1)], [((4, 5), false)]⟩, 'r'),
   (⟨((-4), 5), [((3, 5), 1)], [((4, 5), false)]⟩, 'd')]
def c4k23 : List Char := "#       #\n####### #\n#       #\n# #  + ##\n# #  .###\n# #######\n# #######".toList
def c4e23 : Entry := (10, ⟨((-4), 5), [((3, 5), 1)], [((4, 5), false)]⟩, ['u', 'u', 'u', 'u', 'u', 'r', 'r', 'r', 'r', 'd'])
def c4v20 : List (List Char) := (c4v19 ++ [c4k23])
def c4h20 : List Entry := [c4e21, c4e20, c4e22, c4e23]

def c4p20 : List Entry := [c4e20, c4e23, c4e22]
def c4g20 : List (PState × Char) :=
  [(⟨((-3), 4), [((3, 5), 1)], [((4, 5), false)]⟩, 'r'),
   (⟨((-4), 3), [((3, 5), 1)], [((4, 5), false)]⟩, 'u')]
def c4k24 : List Char := "#       #\n####### #\n#       #\n# #  $ ##\n# # @.###\n# #######\n# #######".toList
def c4e24 : Entry := (10, ⟨((-3), 4), [((3, 5), 1)], [((4, 5), false)]⟩, ['u', 'u', 'u', 'u', 'u', 'r', 'r', 'd', 'd', 'r'])
def c4v21 : List (List Char) := (c4v20 ++ [c4k24])
def c4h21 : List Entry := [c4e20, c4e23, c4e22, c4e24]

def c4p21 : List Entry := [c4e22, c4e23, c4e24]
def c4g21 : List (PState × Char) :=
  [(⟨((-4), 3), [((3, 5), 1)], [((4, 5), false)]⟩, 'l'),
   (⟨((-4), 5), [((3, 5), 1)], [((4, 5), false)]⟩, 'r'),
   (⟨((-5), 4), [((3, 5), 1)], [((4, 5), false)]⟩, 'u'),
   (⟨((-3), 4), [((3, 5), 1)], [((4, 5), false)]⟩, 'd')]

def c4p22 : List Entry := [c4e23, c4e24]
def c4g22 : List (PState × Char) :=
  [(⟨(3, 5), [((3, 4), 1)], [((4, 5), false)]⟩, 'L'),
   (⟨(2, 6), [((3, 5), 1)], [((4, 5), false)]⟩, 'u')]
def c4k25 : List Char := "#       #\n####### #\n#       #\n# # $@ ##\n# #  .###\n# #######\n# #######".toList
def c4e25 : Entry := (11, ⟨(3, 5), [((3, 4), 1)], [((4, 5), false)]⟩, ['r', 'r', 'r', 'r', 'r', 'r', 'd', 'd', 'l', 'd', 'L'])
def c4v23 : List (List Char) := (c4v21 ++ [c4k25])
def c4h23 : List Entry := [c4e23, c4e24, c4e25]

def c4p23 : List Entry := [c4e24, c4e25]
def c4g23 : List (PState × Char) :=
  [(⟨((-4), 4), [((3, 5), 1)], [((4, 5), false)]⟩, 'l'),
   (⟨((-4), 6), [((3, 5), 1)], [((4, 5), false)]⟩, 'r'),
   (⟨((-5), 5), [((3, 5), 1)], [((4, 5), false)]⟩, 'u'),
   (⟨((-3), 5), [((3, 5), 1)], [((4, 5), false)]⟩, 'd')]
def c4k26 : List Char := "#       #\n####### #\n#       #\n# #  $ ##\n# #  +###\n# #######\n# #######".toList
def c4e26 : Entry := (11, ⟨((-3), 5), [((3, 5), 1)], [((4, 5), false)]⟩, ['u', 'u', 'u', 'u', 'u', 'r', 'r', 'r', 'r', 'd', 'd'])
def c4v24 : List (List Char) := (c4v23 ++ [c4k26])
def c4h24 : List Entry := [c4e24, c4e25, c4e26]

def c4p24 : List Entry := [c4e25, c4e26]
def c4g24 : List (PState × Char) :=
  [(⟨((-3), 3), [((3, 5), 1)], [((4, 5), false)]⟩, 'l'),
   (⟨((-3), 5), [((3, 5), 1)], [((4, 5), false)]⟩, 'r'),
   (⟨((-4), 4), [((3, 5), 1)], [((4, 5), false)]⟩, 'u')]

def c4p25 : List Entry := [c4e26]
def c4g25 : List (PState × Char) :=
  [(⟨(3, 4), [((3, 3), 1)], [((4, 5), false)]⟩, 'L'),
   (⟨(3, 6), [((3, 4), 1)], [((4, 5), false)]⟩, 'r'),
   (⟨(2, 5), [((3, 4), 1)], [((4, 5), false)]⟩, 'u'),
   (⟨(4, 5), [((3, 4), 1)], [((4, 5), false)]⟩, 'd')]
def c4k27 : List Char := "#       #\n####### #\n#       #\n# #$@  ##\n# #  .###\n# #######\n# #######".toList
def c4e27 : Entry := (12, ⟨(3, 4), [((3, 3), 1)], [((4, 5), false)]⟩, ['r', 'r', 'r', 'r', 'r', 'r', 'd', 'd', 'l', 'd', 'L', 'L'])
def c4k28 : List Char := "#       #\n####### #\n#       #\n# # $ @##\n# #  .###\n# #######\n# #######".toList
def c4e28 : Entry := (12, ⟨(3, 6), [((3, 4), 1)], [((4, 5), false)]⟩, ['r', 'r', 'r', 'r', 'r', 'r', 'd', 'd', 'l', 'd', 'L', 'r'])
def c4k29 : List Char := "#       #\n####### #\n#    @  #\n# # $  ##\n# #  .###\n# #######\n# #######".toList
def c4e29 : Entry := (12, ⟨(2, 5), [((3, 4), 1)], [((4, 5), false)]⟩, ['r', 'r', 'r', 'r', 'r', 'r', 'd', 'd', 'l', 'd', 'L', 'u'])
def c4k30 : List Char := "#       #\n####### #\n#       #\n# # $  ##\n# #  +###\n# #######\n# #######".toList
def c4e30 : Entry := (12, ⟨(4, 5), [((3, 4), 1)], [((4, 5), false)]⟩, ['r', 'r', 'r', 'r', 'r', 'r', 'd', 'd', 'l', 'd', 'L', 'd'])
def c4v26 : List (List Char) := ((((c4v24 ++ [c4k27]) ++ [c4k28]) ++ [c4k29]) ++ [c4k30])
def c4h26 : List Entry := [c4e26, c4e29, c4e28, c4e27, c4e30]

def c4p26 : List Entry := [c4e28, c4e29, c4e30, c4e27]
def c4g26 : List (PState × Char) :=
  [(⟨((-3), 4), [((3, 5), 1)], [((4, 5), false)]⟩, 'l'),
   (⟨((-4), 5), [((3, 5), 1)], [((4, 5), false)]⟩, 'u')]

def c4p27 : List Entry := [c4e30, c4e29, c4e27]
def c4g27 : List (PState × Char) :=
  [(⟨(3, 5), [((3, 4), 1)], [((4, 5), false)]⟩, 'l'),
   (⟨(2, 6), [((3, 4), 1)], [((4, 5), false)]⟩, 'u')]
def c4k31 : List Char := "#       #\n####### #\n#     @ #\n# # $  ##\n# #  .###\n# #######\n# #######".toList
def c4e31 : Entry := (13, ⟨(2, 6), [((3, 4), 1)], [((4, 5), false)]⟩, ['r', 'r', 'r', 'r', 'r', 'r', 'd', 'd', 'l', 'd', 'L', 'r', 'u'])
def c4v28 : List (List Char) := (c4v26 ++ [c4k31])
def c4h28 : List Entry := [c4e30, c4e29, c4e27, c4e31]

def c4p28 : List Entry := [c4e29, c4e31, c4e27]
def c4g28 : List (PState × Char) :=
  [(⟨(4, 4), [((3, 4), 1)], [((4, 5), false)]⟩, 'l'),
   (⟨(3, 5), [((3, 4), 1)], [((4, 5), false)]⟩, 'u')]
def c4k32 : List Char := "#       #\n####### #\n#       #\n# # $  ##\n# # @.###\n# #######\n# #######".toList
def c4e32 : Entry := (13, ⟨(4, 4), [((3, 4), 1)], [((4, 5), false)]⟩, ['r', 'r', 'r', 'r', 'r', 'r', 'd', 'd', 'l', 'd', 'L', 'd', 'l'])
def c4v29 : List (List Char) := (c4v28 ++ [c4k32])
def c4h29 : List Entry := [c4e29, c4e32, c4e27, c4e31]

def c4p29 : List Entry := [c4e27, c4e32, c4e31]
def c4g29 : List (PState × Char) :=
  [(⟨(2, 4), [((3, 4), 1)], [((4, 5), false)]⟩, 'l'),
   (⟨(2, 6), [((3, 4), 1)], [((4, 5), false)]⟩, 'r'),
   (⟨(3, 5), [((3, 4), 1)], [((4, 5), false)]⟩, 'd')]
def c4k33 : List Char := "#       #\n####### #\n#   @   #\n# # $  ##\n# #  .###\n# #######\n# #######".toList
def c4e33 : Entry := (13, ⟨(2, 4), [((3, 4), 1)], [((4, 5), false)]⟩, ['r', 'r', 'r', 'r', 'r', 'r', 'd', 'd', 'l', 'd', 'L', 'u', 'l'])
def c4v30 : List (List Char) := (c4v29 ++ [c4k33])
def c4h30 : List Entry := [c4e27, c4e32, c4e31, c4e33]

def c4p30 : List Entry := [c4e32, c4e33, c4e31]
def c4g30 : List (PState × Char) :=
  [(⟨(3, 5), [((3, 3), 1)], [((4, 5), false)]⟩, 'r'),
   (⟨(2, 4), [((3, 3), 1)], [((4, 5), false)]⟩, 'u'),
   (⟨(4, 4), [((3, 3), 1)], [((4, 5), false)]⟩, 'd')]
def c4k34 : List Char := "#       #\n####### #\n#       #\n# #$ @ ##\n# #  .###\n# #######\n# #######".toList
def c4e34 : Entry := (13, ⟨(3, 5), [((3, 3), 1)], [((4, 5), false)]⟩, ['r', 'r', 'r', 'r', 'r', 'r', 'd', 'd', 'l', 'd', 'L', 'L', 'r'])
def c4k35 : List Char := "#       #\n####### #\n#   @   #\n# #$   ##\n# #  .###\n# #######\n# #######".toList
def c4e35 : Entry := (13, ⟨(2, 4), [((3, 3), 1)], [((4, 5), false)]⟩, ['r', 'r', 'r', 'r', 'r', 'r', 'd', 'd', 'l', 'd', 'L', 'L', 'u'])
def c4k36 : List Char := "#       #\n####### #\n#       #\n# #$   ##\n# # @.###\n# #######\n# #######".toList
def c4e36 : Entry := (13, ⟨(4, 4), [((3, 3), 1)], [((4, 5), false)]⟩, ['r', 'r', 'r', 'r', 'r', 'r', 'd', 'd', 'l', 'd', 'L', 'L', 'd'])
def c4v31 : List (List Char) := (((c4v30 ++ [c4k34]) ++ [c4k35]) ++ [c4k36])
def c4h31 : List Entry := [c4e32, c4e33, c4e31, c4e34, c4e35, c4e36]

def c4p31 : List Entry := [c4e33, c4e35, c4e31, c4e34, c4e36]
def c4g31 : List (PState × Char) :=
  [(⟨(4, 3), [((3, 4), 1)], [((4, 5), false)]⟩, 'l'),
   (⟨(4, 5), [((3, 4), 1)], [((4, 5), false)]⟩, 'r'),
   (⟨(3, 4), [((2, 4), 1)], [((4, 5), false)]⟩, 'U')]
def c4k37 : List Char := "#       #\n####### #\n#       #\n# # $  ##\n# #@ .###\n# #######\n# #######".toList
def c4e37 : Entry := (14, ⟨(4, 3), [((3, 4), 1)], [((4, 5), false)]⟩, ['r', 'r', 'r', 'r', 'r', 'r', 'd', 'd', 'l', 'd', 'L', 'd', 'l', 'l'])
def c4k38 : List Char := "#       #\n####### #\n#   $   #\n# # @  ##\n# #  .###\n# #######\n# #######".toList
def c4e38 : Entry := (14, ⟨(3, 4), [((2, 4), 1)], [((4, 5), false)]⟩, ['r', 'r', 'r', 'r', 'r', 'r', 'd', 'd', 'l', 'd', 'L', 'd', 'l', 'U'])
def c4v32 : List (List Char) := ((c4v31 ++ [c4k37]) ++ [c4k38])
def c4h32 : List Entry := [c4e33, c4e35, c4e31, c4e34, c4e36, c4e37, c4e38]

def c4p32 : List Entry := [c4e31, c4e35, c4e37, c4e34, c4e36, c4e38]
def c4g32 : List (PState × Char) :=
  [(⟨(2, 3), [((3, 4), 1)], [((4, 5), false)]⟩, 'l'),
   (⟨(2, 5), [((3, 4), 1)], [((4, 5), false)]⟩, 'r'),
   (⟨(3, 4), [((4, 4), 1)], [((4, 5), false)]⟩, 'D')]
def c4k39 : List Char := "#       #\n####### #\n#  @    #\n# # $  ##\n# #  .###\n# #######\n# #######".toList
def c4e39 : Entry := (14, ⟨(2, 3), [((3, 4), 1)], [((4, 5), false)]⟩, ['r', 'r', 'r', 'r', 'r', 'r', 'd', 'd', 'l', 'd', 'L', 'u', 'l', 'l'])
def c4k40 : List Char := "#       #\n####### #\n#       #\n# # @  ##\n# # $.###\n# #######\n# #######".toList
def c4e40 : Entry := (14, ⟨(3, 4), [((4, 4), 1)], [((4, 5), false)]⟩, ['r', 'r', 'r', 'r', 'r', 'r', 'd', 'd', 'l', 'd', 'L', 'u', 'l', 'D'])
def c4v33 : List (List Char) := ((c4v32 ++ [c4k39]) ++ [c4k40])
def c4h33 : List Entry := [c4e31, c4e35, c4e37, c4e34, c4e36, c4e38, c4e39, c4e40]

def c4p33 : List Entry := [c4e35, c4e36, c4e37, c4e34, c4e40, c4e38, c4e39]
def c4g33 : List (PState × Char) :=
  [(⟨(2, 5), [((3, 4), 1)], [((4, 5), false)]⟩, 'l'),
   (⟨(2, 7), [((3, 4), 1)], [((4, 5), false)]⟩, 'r'),
   (⟨(3, 6), [((3, 4), 1)], [((4, 5), false)]⟩, 'd')]
def c4k41 : List Char := "#       #\n####### #\n#      @#\n# # $  ##\n# #  .###\n# #######\n# #######".toList
def c4e41 : Entry := (14, ⟨(2, 7), [((3, 4), 1)], [((4, 5), false)]⟩, ['r', 'r', 'r', 'r', 'r', 'r', 'd', 'd', 'l', 'd', 'L', 'r', 'u', 'r'])
def c4v34 : List (List Char) := (c4v33 ++ [c4k41])
def c4h34 : List Entry := [c4e35, c4e36, c4e37, c4e34, c4e40, c4e38, c4e39, c4e41]

def c4p34 : List Entry := [c4e36, c4e34, c4e37, c4e41, c4e40, c4e38, c4e39]
def c4g34 : List (PState × Char) :=
  [(⟨(2, 3), [((3, 3), 1)], [((4, 5), false)]⟩, 'l'),
   (⟨(2, 5), [((3, 3), 1)], [((4, 5), false)]⟩, 'r'),
   (⟨(3, 4), [((3, 3), 1)], [((4, 5), false)]⟩, 'd')]
def c4k42 : List Char := "#       #\n####### #\n#  @    #\n# #$   ##\n# #  .###\n# #######\n# #######".toList
def c4e42 : Entry := (14, ⟨(2, 3), [((3, 3), 1)], [((4, 5), false)]⟩, ['r', 'r', 'r', 'r', 'r', 'r', 'd', 'd', 'l', 'd', 'L', 'L', 'u', 'l'])
def c4k43 : List Char := "#       #\n####### #\n#    @  #\n# #$   ##\n# #  .###\n# #######\n# #######".toList
def c4e43 : Entry := (14, ⟨(2, 5), [((3, 3), 1)], [((4, 5), false)]⟩, ['r', 'r', 'r', 'r', 'r', 'r', 'd', 'd', 'l', 'd', 'L', 'L', 'u', 'r'])
def c4v35 : List (List Char) := ((c4v34 ++ [c4k42]) ++ [c4k43])
def c4h35 : List Entry := [c4e36, c4e34, c4e37, c4e42, c4e40, c4e38, c4e39, c4e41, c4e43]

def c4p35 : List Entry := [c4e34, c4e40, c4e37, c4e42, c4e43, c4e38, c4e39, c4e41]
def c4g35 : List (PState × Char) :=
  [(⟨(4, 3), [((3, 3), 1)], [((4, 5), false)]⟩, 'l'),
   (⟨(4, 5), [((3, 3), 1)], [((4, 5), false)]⟩, 'r'),
   (⟨(3, 4), [((3, 3), 1)], [((4, 5), false)]⟩, 'u')]
def c4k44 : List Char := "#       #\n####### #\n#       #\n# #$   ##\n# #@ .###\n# #######\n# #######".toList
def c4e44 : Entry := (14, ⟨(4, 3), [((3, 3), 1)], [((4, 5), false)]⟩, ['r', 'r', 'r', 'r', 'r', 'r', 'd', 'd', 'l', 'd', 'L', 'L', 'd', 'l'])
def c4k45 : List Char := "#       #\n####### #\n#       #\n# #$   ##\n# #  +###\n# #######\n# #######".toList
def c4e45 : Entry := (14, ⟨(4, 5), [((3, 3), 1)], [((4, 5), false)]⟩, ['r', 'r', 'r', 'r', 'r', 'r', 'd', 'd', 'l', 'd', 'L', 'L', 'd', 'r'])
def c4v36 : List (List Char) := ((c4v35 ++ [c4k44]) ++ [c4k45])
def c4h36 : List Entry := [c4e34, c4e40, c4e37, c4e42, c4e43, c4e38, c4e39, c4e41, c4e44, c4e45]

def c4p36 : List Entry := [c4e40, c4e42, c4e37, c4e44, c4e43, c4e38, c4e39, c4e41, c4e45]
def c4g36 : List (PState × Char) :=
  [(⟨(3, 4), [((3, 3), 1)], [((4, 5), false)]⟩, 'l'),
   (⟨(3, 6), [((3, 3), 1)], [((4, 5), false)]⟩, 'r'),
   (⟨(2, 5), [((3, 3), 1)], [((4, 5), false)]⟩, 'u'),
   (⟨(4, 5), [((3, 3), 1)], [((4, 5), false)]⟩, 'd')]
def c4k46 : List Char := "#       #\n####### #\n#       #\n# #$  @##\n# #  .###\n# #######\n# #######".toList
def c4e46 : Entry := (14, ⟨(3, 6), [((3, 3), 1)], [((4, 5), false)]⟩, ['r', 'r', 'r', 'r', 'r', 'r', 'd', 'd', 'l', 'd', 'L', 'L', 'r', 'r'])
def c4v37 : List (List Char) := (c4v36 ++ [c4k46])
def c4h37 : List Entry := [c4e40, c4e42, c4e37, c4e44, c4e43, c4e38, c4e39, c4e41, c4e45, c4e46]

def c4p37 : List Entry := [c4e37, c4e42, c4e39, c4e44, c4e43, c4e38, c4e46, c4e41, c4e45]
def c4g37 : List (PState × Char) :=
  [(⟨(3, 3), [((4, 4), 1)], [((4, 5), false)]⟩, 'l'),
   (⟨(3, 5), [((4, 4), 1)], [((4, 5), false)]⟩, 'r'),
   (⟨(2, 4), [((4, 4), 1)], [((4, 5), false)]⟩, 'u')]
def c4k47 : List Char := "#       #\n####### #\n#       #\n# #@   ##\n# # $.###\n# #######\n# #######".toList
def c4e47 : Entry := (15, ⟨(3, 3), [((4, 4), 1)], [((4, 5), false)]⟩, ['r', 'r', 'r', 'r', 'r', 'r', 'd', 'd', 'l', 'd', 'L', 'u', 'l', 'D', 'l'])
def c4k48 : List Char := "#       #\n####### #\n#       #\n# #  @ ##\n# # $.###\n# #######\n# #######".toList
def c4e48 : Entry := (15, ⟨(3, 5), [((4, 4), 1)], [((4, 5), false)]⟩, ['r', 'r', 'r', 'r', 'r', 'r', 'd', 'd', 'l', 'd', 'L', 'u', 'l', 'D', 'r'])
def c4k49 : List Char := "#       #\n####### #\n#   @   #\n# #    ##\n# # $.###\n# #######\n# #######".toList
def c4e49 : Entry := (15, ⟨(2, 4), [((4, 4), 1)], [((4, 5), false)]⟩, ['r', 'r', 'r', 'r', 'r', 'r', 'd', 'd', 'l', 'd', 'L', 'u', 'l', 'D', 'u'])
def c4v38 : List (List Char) := (((c4v37 ++ [c4k47]) ++ [c4k48]) ++ [c4k49])
def c4h38 : List Entry := [c4e37, c4e42, c4e39, c4e44, c4e43, c4e38, c4e46, c4e41, c4e45, c4e47, c4e48, c4e49]

def c4p38 : List Entry := [c4e39, c4e42, c4e38, c4e44, c4e43, c4e49, c4e46, c4e41, c4e45, c4e47, c4e48]
def c4g38 : List (PState × Char) :=
  [(⟨(4, 4), [((3, 4), 1)], [((4, 5), false)]⟩, 'r'),
   (⟨(3, 3), [((3, 4), 1)], [((4, 5), false)]⟩, 'u')]
def c4k50 : List Char := "#       #\n####### #\n#       #\n# #@$  ##\n# #  .###\n# #######\n# #######".toList
def c4e50 : Entry := (15, ⟨(3, 3), [((3, 4), 1)], [((4, 5), false)]⟩, ['r', 'r', 'r', 'r', 'r', 'r', 'd', 'd', 'l', 'd', 'L', 'd', 'l', 'l', 'u'])
def c4v39 : List (List Char) := (c4v38 ++ [c4k50])
def c4h39 : List Entry := [c4e39, c4e42, c4e38, c4e44, c4e43, c4e49, c4e46, c4e41, c4e45, c4e47, c4e48, c4e50]

def c4p39 : List Entry := [c4e38, c4e42, c4e46, c4e44, c4e43, c4e49, c4e50, c4e41, c4e45, c4e47, c4e48]
def c4g39 : List (PState × Char) :=
  [(⟨(2, 2), [((3, 4), 1)], [((4, 5), false)]⟩, 'l'),
   (⟨(2, 4), [((3, 4), 1)], [((4, 5), false)]⟩, 'r'),
   (⟨(3, 3), [((3, 4), 1)], [((4, 5), false)]⟩, 'd')]
def c4k51 : List Char := "#       #\n####### #\n# @     #\n# # $  ##\n# #  .###\n# #######\n# #######".toList
def c4e51 : Entry := (15, ⟨(2, 2), [((3, 4), 1)], [((4, 5), false)]⟩, ['r', 'r', 'r', 'r', 'r', 'r', 'd', 'd', 'l', 'd', 'L', 'u', 'l', 'l', 'l'])
def c4v40 : List (List Char) := (c4v39 ++ [c4k51])
def c4h40 : List Entry := [c4e38, c4e42, c4e46, c4e44, c4e43, c4e49, c4e50, c4e41, c4e45, c4e47, c4e48, c4e51]

def c4p40 : List Entry := [c4e42, c4e44, c4e46, c4e41, c4e43, c4e49, c4e50, c4e51, c4e45, c4e47, c4e48]
def c4g40 : List (PState × Char) :=
  [(⟨(3, 3), [((2, 4), 1)], [((4, 5), false)]⟩, 'l'),
   (⟨(3, 5), [((2, 4), 1)], [((4, 5), false)]⟩, 'r'),
   (⟨(4, 4), [((2, 4), 1)], [((4, 5), false)]⟩, 'd')]
def c4k52 : List Char := "#       #\n####### #\n#   $   #\n# #@   ##\n# #  .###\n# #######\n# #######".toList
def c4e52 : Entry := (15, ⟨(3, 3), [((2, 4), 1)], [((4, 5), false)]⟩, ['r', 'r', 'r', 'r', 'r', 'r', 'd', 'd', 'l', 'd', 'L', 'd', 'l', 'U', 'l'])
def c4k53 : List Char := "#       #\n####### #\n#   $   #\n# #  @ ##\n# #  .###\n# #######\n# #######".toList
def c4e53 : Entry := (15, ⟨(3, 5), [((2, 4), 1)], [((4, 5), false)]⟩, ['r', 'r', 'r', 'r', 'r', 'r', 'd', 'd', 'l', 'd', 'L', 'd', 'l', 'U', 'r'])
def c4k54 : List Char := "#       #\n####### #\n#   $   #\n# #    ##\n# # @.###\n# #######\n# #######".toList
def c4e54 : Entry := (15, ⟨(4, 4), [((2, 4), 1)], [((4, 5), false)]⟩, ['r', 'r', 'r', 'r', 'r', 'r', 'd', 'd', 'l', 'd', 'L', 'd', 'l', 'U', 'd'])
def c4v41 : List (List Char) := (((c4v40 ++ [c4k52]) ++ [c4k53]) ++ [c4k54])
def c4h41 : List Entry := [c4e42, c4e44, c4e46, c4e41, c4e43, c4e49, c4e50, c4e51, c4e45, c4e47, c4e48, c4e52, c4e53, c4e54]

def c4p41 : List Entry := [c4e44, c4e41, c4e46, c4e45, c4e43, c4e49, c4e50, c4e51, c4e54, c4e47, c4e48, c4e52, c4e53]
def c4g41 : List (PState × Char) :=
  [(⟨(2, 2), [((3, 3), 1)], [((4, 5), false)]⟩, 'l'),
   (⟨(2, 4), [((3, 3), 1)], [((4, 5), false)]⟩, 'r'),
   (⟨(3, 3), [((4, 3), 1)], [((4, 5), false)]⟩, 'D')]
def c4k55 : List Char := "#       #\n####### #\n# @     #\n# #$   ##\n# #  .###\n# #######\n# #######".toList
def c4e55 : Entry := (15, ⟨(2, 2), [((3, 3), 1)], [((4, 5), false)]⟩, ['r', 'r', 'r', 'r', 'r', 'r', 'd', 'd', 'l', 'd', 'L', 'L', 'u', 'l', 'l'])
def c4k56 : List Char := "#       #\n####### #\n#       #\n# #@   ##\n# #$ .###\n# #######\n# #######".toList
def c4e56 : Entry := (15, ⟨(3, 3), [((4, 3), 1)], [((4, 5), false)]⟩, ['r', 'r', 'r', 'r', 'r', 'r', 'd', 'd', 'l', 'd', 'L', 'L', 'u', 'l', 'D'])
def c4v42 : List (List Char) := ((c4v41 ++ [c4k55]) ++ [c4k56])
def c4h42 : List Entry := [c4e44, c4e41, c4e46, c4e45, c4e43, c4e49, c4e50, c4e51, c4e54, c4e47, c4e48, c4e52, c4e53, c4e55, c4e56]

def c4p42 : List Entry := [c4e41, c4e43, c4e46, c4e45, c4e48, c4e49, c4e50, c4e51, c4e54, c4e47, c4e56, c4e52, c4e53, c4e55]
def c4g42 : List (PState × Char) :=
  [(⟨(4, 4), [((3, 3), 1)], [((4, 5), false)]⟩, 'r'),
   (⟨(3, 3), [((2, 3), 1)], [((4, 5), false)]⟩, 'U')]
def c4k57 : List Char := "#       #\n####### #\n#  $    #\n# #@   ##\n# #  .###\n# #######\n# #######".toList
def c4e57 : Entry := (15, ⟨(3, 3), [((2, 3), 1)], [((4, 5), false)]⟩, ['r', 'r', 'r', 'r', 'r', 'r', 'd', 'd', 'l', 'd', 'L', 'L', 'd', 'l', 'U'])
def c4v43 : List (List Char) := (c4v42 ++ [c4k57])
def c4h43 : List Entry := [c4e41, c4e43, c4e46, c4e45, c4e48, c4e49, c4e50, c4e51, c4e54, c4e47, c4e56, c4e52, c4e53, c4e55, c4e57]

def c4p43 : List Entry := [c4e46, c4e43, c4e49, c4e45, c4e48, c4e53, c4e50, c4e51, c4e54, c4e47, c4e56, c4e52, c4e57, c4e55]
def c4g43 : List (PState × Char) :=
  [(⟨(2, 6), [((3, 4), 1)], [((4, 5), false)]⟩, 'l'),
   (⟨(1, 7), [((3, 4), 1)], [((4, 5), false)]⟩, 'u')]
def c4k58 : List Char := "#       #\n#######@#\n#       #\n# # $  ##\n# #  .###\n# #######\n# #######".toList
def c4e58 : Entry := (15, ⟨(1, 7), [((3, 4), 1)], [((4, 5), false)]⟩, ['r', 'r', 'r', 'r', 'r', 'r', 'd', 'd', 'l', 'd', 'L', 'r', 'u', 'r', 'u'])
def c4v44 : List (List Char) := (c4v43 ++ [c4k58])
def c4h44 : List Entry := [c4e46, c4e43, c4e49, c4e45, c4e48, c4e53, c4e50, c4e51, c4e54, c4e47, c4e56, c4e52, c4e57, c4e55, c4e58]

def c4p44 : List Entry := [c4e43, c4e45, c4e49, c4e51, c4e48, c4e53, c4e50, c4e58, c4e54, c4e47, c4e56, c4e52, c4e57, c4e55]
def c4g44 : List (PState × Char) :=
  [(⟨(3, 5), [((3, 3), 1)], [((4, 5), false)]⟩, 'l'),
   (⟨(2, 6), [((3, 3), 1)], [((4, 5), false)]⟩, 'u')]
def c4k59 : List Char := "#       #\n####### #\n#     @ #\n# #$   ##\n# #  .###\n# #######\n# #######".toList
def c4e59 : Entry := (15, ⟨(2, 6), [((3, 3), 1)], [((4, 5), false)]⟩, ['r', 'r', 'r', 'r', 'r', 'r', 'd', 'd', 'l', 'd', 'L', 'L', 'r', 'r', 'u'])
def c4v45 : List (List Char) := (c4v44 ++ [c4k59])
def c4h45 : List Entry := [c4e43, c4e45, c4e49, c4e51, c4e48, c4e53, c4e50, c4e58, c4e54, c4e47, c4e56, c4e52, c4e57, c4e55, c4e59]

def c4p45 : List Entry := [c4e45, c4e48, c4e49, c4e51, c4e47, c4e53, c4e50, c4e58, c4e54, c4e59, c4e56, c4e52, c4e57, c4e55]
def c4g45 : List (PState × Char) :=
  [(⟨(2, 4), [((3, 3), 1)], [((4, 5), false)]⟩, 'l'),
   (⟨(2, 6), [((3, 3), 1)], [((4, 5), false)]⟩, 'r'),
   (⟨(3, 5), [((3, 3), 1)], [((4, 5), false)]⟩, 'd')]

def c4p46 : List Entry := [c4e49, c4e48, c4e50, c4e51, c4e47, c4e53, c4e55, c4e58, c4e54, c4e59, c4e56, c4e52, c4e57]
def c4g46 : List (PState × Char) :=
  [(⟨(4, 4), [((3, 3), 1)], [((4, 5), false)]⟩, 'l'),
   (⟨(3, 5), [((3, 3), 1)], [((4, 5), false)]⟩, 'u')]

def c4p47 : List Entry := [c4e48, c4e47, c4e50, c4e51, c4e56, c4e53, c4e55, c4e58, c4e54, c4e59, c4e57, c4e52]
def c4g47 : List (PState × Char) :=
  [(⟨(2, 3), [((4, 4), 1)], [((4, 5), false)]⟩, 'l'),
   (⟨(2, 5), [((4, 4), 1)], [((4, 5), false)]⟩, 'r'),
   (⟨(3, 4), [((4, 4), 1)], [((4, 5), false)]⟩, 'd')]
def c4k60 : List Char := "#       #\n####### #\n#  @    #\n# #    ##\n# # $.###\n# #######\n# #######".toList
def c4e60 : Entry := (16, ⟨(2, 3), [((4, 4), 1)], [((4, 5), false)]⟩, ['r', 'r', 'r', 'r', 'r', 'r', 'd', 'd', 'l', 'd', 'L', 'u', 'l', 'D', 'u', 'l'])
def c4k61 : List Char := "#       #\n####### #\n#    @  #\n# #    ##\n# # $.###\n# #######\n# #######".toList
def c4e61 : Entry := (16, ⟨(2, 5), [((4, 4), 1)], [((4, 5), false)]⟩, ['r', 'r', 'r', 'r', 'r', 'r', 'd', 'd', 'l', 'd', 'L', 'u', 'l', 'D', 'u', 'r'])
def c4v48 : List (List Char) := ((c4v45 ++ [c4k60]) ++ [c4k61])
def c4h48 : List Entry := [c4e48, c4e47, c4e50, c4e51, c4e56, c4e53, c4e55, c4e58, c4e54, c4e59, c4e57, c4e52, c4e60, c4e61]

def c4p48 : List Entry := [c4e47, c4e56, c4e50, c4e51, c4e57, c4e53, c4e55, c4e58, c4e54, c4e59, c4e61, c4e52, c4e60]
def c4g48 : List (PState × Char) :=
  [(⟨(3, 4), [((4, 4), 1)], [((4, 5), false)]⟩, 'l'),
   (⟨(3, 6), [((4, 4), 1)], [((4, 5), false)]⟩, 'r'),
   (⟨(2, 5), [((4, 4), 1)], [((4, 5), false)]⟩, 'u'),
   (⟨(4, 5), [((4, 4), 1)], [((4, 5), false)]⟩, 'd')]
def c4k62 : List Char := "#       #\n####### #\n#       #\n# #   @##\n# # $.###\n# #######\n# #######".toList
def c4e62 : Entry := (16, ⟨(3, 6), [((4, 4), 1)], [((4, 5), false)]⟩, ['r', 'r', 'r', 'r', 'r', 'r', 'd', 'd', 'l', 'd', 'L', 'u', 'l', 'D', 'r', 'r'])
def c4k63 : List Char := "#       #\n####### #\n#       #\n# #    ##\n# # $+###\n# #######\n# #######".toList
def c4e63 : Entry := (16, ⟨(4, 5), [((4, 4), 1)], [((4, 5), false)]⟩, ['r', 'r', 'r', 'r', 'r', 'r', 'd', 'd', 'l', 'd', 'L', 'u', 'l', 'D', 'r', 'd'])
def c4v49 : List (List Char) := ((c4v48 ++ [c4k62]) ++ [c4k63])
def c4h49 : List Entry := [c4e47, c4e56, c4e50, c4e51, c4e57, c4e53, c4e55, c4e58, c4e54, c4e59, c4e61, c4e52, c4e60, c4e62, c4e63]

def c4p49 : List Entry := [c4e50, c4e56, c4e55, c4e51, c4e57, c4e53, c4e63, c4e58, c4e54, c4e59, c4e61, c4e52, c4e60, c4e62]
def c4g49 : List (PState × Char) :=
  [(⟨(3, 4), [((4, 4), 1)], [((4, 5), false)]⟩, 'r'),
   (⟨(2, 3), [((4, 4), 1)], [((4, 5), false)]⟩, 'u'),
   (⟨(4, 3), [((4, 4), 1)], [((4, 5), false)]⟩, 'd')]
def c4k64 : List Char := "#       #\n####### #\n#       #\n# #    ##\n# #@$.###\n# #######\n# #######".toList
def c4e64 : Entry := (16, ⟨(4, 3), [((4, 4), 1)], [((4, 5), false)]⟩, ['r', 'r', 'r', 'r', 'r', 'r', 'd', 'd', 'l', 'd', 'L', 'u', 'l', 'D', 'l', 'd'])
def c4v50 : List (List Char) := (c4v49 ++ [c4k64])
def c4h50 : List Entry := [c4e50, c4e56, c4e55, c4e51, c4e57, c4e53, c4e63, c4e58, c4e54, c4e59, c4e61, c4e52, c4e60, c4e62, c4e64]

def c4p50 : List Entry := [c4e56, c4e51, c4e55, c4e54, c4e57, c4e53, c4e63, c4e58, c4e64, c4e59, c4e61, c4e52, c4e60, c4e62]
def c4g50 : List (PState × Char) :=
  [(⟨(3, 4), [((3, 5), 1)], [((4, 5), false)]⟩, 'R'),
   (⟨(2, 3), [((3, 4), 1)], [((4, 5), false)]⟩, 'u'),
   (⟨(4, 3), [((3, 4), 1)], [((4, 5), false)]⟩, 'd')]

def c4p51 : List Entry := [c4e51, c4e54, c4e55, c4e58, c4e57, c4e53, c4e63, c4e62, c4e64, c4e59, c4e61, c4e52, c4e60]
def c4g51 : List (PState × Char) :=
  [(⟨(3, 4), [((4, 3), 1)], [((4, 5), false)]⟩, 'r'),
   (⟨(2, 3), [((4, 3), 1)], [((4, 5), false)]⟩, 'u')]
def c4k65 : List Char := "#       #\n####### #\n#       #\n# # @  ##\n# #$ .###\n# #######\n# #######".toList
def c4e65 : Entry := (16, ⟨(3, 4), [((4, 3), 1)], [((4, 5), false)]⟩, ['r', 'r', 'r', 'r', 'r', 'r', 'd', 'd', 'l', 'd', 'L', 'L', 'u', 'l', 'D', 'r'])
def c4k66 : List Char := "#       #\n####### #\n#  @    #\n# #    ##\n# #$ .###\n# #######\n# #######".toList
def c4e66 : Entry := (16, ⟨(2, 3), [((4, 3), 1)], [((4, 5), false)]⟩, ['r', 'r', 'r', 'r', 'r', 'r', 'd', 'd', 'l', 'd', 'L', 'L', 'u', 'l', 'D', 'u'])
def c4v52 : List (List Char) := ((c4v50 ++ [c4k65]) ++ [c4k66])
def c4h52 : List Entry := [c4e51, c4e54, c4e55, c4e58, c4e57, c4e53, c4e63, c4e62, c4e64, c4e59, c4e61, c4e52, c4e60, c4e65, c4e66]

def c4p52 : List Entry := [c4e55, c4e54, c4e53, c4e58, c4e57, c4e52, c4e63, c4e62, c4e64, c4e59, c4e61, c4e66, c4e60, c4e65]
def c4g52 : List (PState × Char) :=
  [(⟨(2, 1), [((3, 4), 1)], [((4, 5), false)]⟩, 'l'),
   (⟨(2, 3), [((3, 4), 1)], [((4, 5), false)]⟩, 'r')]
def c4k67 : List Char := "#       #\n####### #\n#@      #\n# # $  ##\n# #  .###\n# #######\n# #######".toList
def c4e67 : Entry := (16, ⟨(2, 1), [((3, 4), 1)], [((4, 5), false)]⟩, ['r', 'r', 'r', 'r', 'r', 'r', 'd', 'd', 'l', 'd', 'L', 'u', 'l', 'l', 'l', 'l'])
def c4v53 : List (List Char) := (c4v52 ++ [c4k67])
def c4h53 : List Entry := [c4e55, c4e54, c4e53, c4e58, c4e57, c4e52, c4e63, c4e62, c4e64, c4e59, c4e61, c4e66, c4e60, c4e65, c4e67]

def c4p53 : List Entry := [c4e53, c4e54, c4e52, c4e58, c4e57, c4e60, c4e63, c4e62, c4e64, c4e59, c4e61, c4e66, c4e67, c4e65]
def c4g53 : List (PState × Char) :=
  [(⟨(2, 1), [((3, 3), 1)], [((4, 5), false)]⟩, 'l'),
   (⟨(2, 3), [((3, 3), 1)], [((4, 5), false)]⟩, 'r')]
def c4k68 : List Char := "#       #\n####### #\n#@      #\n# #$   ##\n# #  .###\n# #######\n# #######".toList
def c4e68 : Entry := (16, ⟨(2, 1), [((3, 3), 1)], [((4, 5), false)]⟩, ['r', 'r', 'r', 'r', 'r', 'r', 'd', 'd', 'l', 'd', 'L', 'L', 'u', 'l', 'l', 'l'])
def c4v54 : List (List Char) := (c4v53 ++ [c4k68])
def c4h54 : List Entry := [c4e53, c4e54, c4e52, c4e58, c4e57, c4e60, c4e63, c4e62, c4e64, c4e59, c4e61, c4e66, c4e67, c4e65, c4e68]

def c4p54 : List Entry := [c4e52, c4e54, c4e63, c4e58, c4e57, c4e60, c4e65, c4e62, c4e64, c4e59, c4e61, c4e66, c4e67, c4e68]
def c4g54 : List (PState × Char) :=
  [(⟨(3, 4), [((2, 4), 1)], [((4, 5), false)]⟩, 'l'),
   (⟨(3, 6), [((2, 4), 1)], [((4, 5), false)]⟩, 'r'),
   (⟨(2, 5), [((2, 4), 1)], [((4, 5), false)]⟩, 'u'),
   (⟨(4, 5), [((2, 4), 1)], [((4, 5), false)]⟩, 'd')]
def c4k69 : List Char := "#       #\n####### #\n#   $   #\n# #   @##\n# #  .###\n# #######\n# #######".toList
def c4e69 : Entry := (16, ⟨(3, 6), [((2, 4), 1)], [((4, 5), false)]⟩, ['r', 'r', 'r', 'r', 'r', 'r', 'd', 'd', 'l', 'd', 'L', 'd', 'l', 'U', 'r', 'r'])
def c4k70 : List Char := "#       #\n####### #\n#   $@  #\n# #    ##\n# #  .###\n# #######\n# #######".toList
def c4e70 : Entry := (16, ⟨(2, 5), [((2, 4), 1)], [((4, 5), false)]⟩, ['r', 'r', 'r', 'r', 'r', 'r', 'd', 'd', 'l', 'd', 'L', 'd', 'l', 'U', 'r', 'u'])
def c4k71 : List Char := "#       #\n####### #\n#   $   #\n# #    ##\n# #  +###\n# #######\n# #######".toList
def c4e71 : Entry := (16, ⟨(4, 5), [((2, 4), 1)], [((4, 5), false)]⟩, ['r', 'r', 'r', 'r', 'r', 'r', 'd', 'd', 'l', 'd', 'L', 'd', 'l', 'U', 'r', 'd'])
def c4v55 : List (List Char) := (((c4v54 ++ [c4k69]) ++ [c4k70]) ++ [c4k71])
def c4h55 : List Entry := [c4e52, c4e54, c4e63, c4e58, c4e57, c4e60, c4e65, c4e62, c4e64, c4e59, c4e61, c4e66, c4e67, c4e68, c4e69, c4e70, c4e71]

def c4p55 : List Entry := [c4e54, c4e57, c4e63, c4e58, c4e59, c4e60, c4e65, c4e62, c4e64, c4e71, c4e61, c4e66, c4e67, c4e68, c4e69, c4e70]
def c4g55 : List (PState × Char) :=
  [(⟨(3, 4), [((2, 4), 1)], [((4, 5), false)]⟩, 'r'),
   (⟨(2, 3), [((2, 4), 1)], [((4, 5), false)]⟩, 'u'),
   (⟨(4, 3), [((2, 4), 1)], [((4, 5), false)]⟩, 'd')]
def c4k72 : List Char := "#       #\n####### #\n#  @$   #\n# #    ##\n# #  .###\n# #######\n# #######".toList
def c4e72 : Entry := (16, ⟨(2, 3), [((2, 4), 1)], [((4, 5), false)]⟩, ['r', 'r', 'r', 'r', 'r', 'r', 'd', 'd', 'l', 'd', 'L', 'd', 'l', 'U', 'l', 'u'])
def c4k73 : List Char := "#       #\n####### #\n#   $   #\n# #    ##\n# #@ .###\n# #######\n# #######".toList
def c4e73 : Entry := (16, ⟨(4, 3), [((2, 4), 1)], [((4, 5), false)]⟩, ['r', 'r', 'r', 'r', 'r', 'r', 'd', 'd', 'l', 'd', 'L', 'd', 'l', 'U', 'l', 'd'])
def c4v56 : List (List Char) := ((c4v55 ++ [c4k72]) ++ [c4k73])
def c4h56 : List Entry := [c4e54, c4e57, c4e63, c4e58, c4e59, c4e60, c4e65, c4e62, c4e64, c4e71, c4e61, c4e66, c4e67, c4e68, c4e69, c4e70, c4e72, c4e73]

def c4p56 : List Entry := [c4e57, c4e58, c4e63, c4e64, c4e59, c4e60, c4e65, c4e62, c4e73, c4e71, c4e61, c4e66, c4e67, c4e68, c4e69, c4e70, c4e72]
def c4g56 : List (PState × Char) :=
  [(⟨(4, 3), [((2, 4), 1)], [((4, 5), false)]⟩, 'l'),
   (⟨(4, 5), [((2, 4), 1)], [((4, 5), false)]⟩, 'r'),
   (⟨(3, 4), [((2, 4), 1)], [((4, 5), false)]⟩, 'u')]

def c4p57 : List Entry := [c4e58, c4e59, c4e63, c4e64, c4e61, c4e60, c4e65, c4e62, c4e73, c4e71, c4e72, c4e66, c4e67, c4e68, c4e69, c4e70]
def c4g57 : List (PState × Char) :=
  [(⟨(3, 4), [((2, 3), 1)], [((4, 5), false)]⟩, 'r'),
   (⟨(4, 3), [((2, 3), 1)], [((4, 5), false)]⟩, 'd')]
def c4k74 : List Char := "#       #\n####### #\n#  $    #\n# # @  ##\n# #  .###\n# #######\n# #######".toList
def c4e74 : Entry := (16, ⟨(3, 4), [((2, 3), 1)], [((4, 5), false)]⟩, ['r', 'r', 'r', 'r', 'r', 'r', 'd', 'd', 'l', 'd', 'L', 'L', 'd', 'l', 'U', 'r'])
def c4k75 : List Char := "#       #\n####### #\n#  $    #\n# #    ##\n# #@ .###\n# #######\n# #######".toList
def c4e75 : Entry := (16, ⟨(4, 3), [((2, 3), 1)], [((4, 5), false)]⟩, ['r', 'r', 'r', 'r', 'r', 'r', 'd', 'd', 'l', 'd', 'L', 'L', 'd', 'l', 'U', 'd'])
def c4v58 : List (List Char) := ((c4v56 ++ [c4k74]) ++ [c4k75])
def c4h58 : List Entry := [c4e58, c4e59, c4e63, c4e64, c4e61, c4e60, c4e65, c4e62, c4e73, c4e71, c4e72, c4e66, c4e67, c4e68, c4e69, c4e70, c4e74, c4e75]

def c4p58 : List Entry := [c4e59, c4e64, c4e63, c4e62, c4e61, c4e60, c4e65, c4e70, c4e73, c4e71, c4e72, c4e66, c4e67, c4e68, c4e69, c4e75, c4e74]
def c4g58 : List (PState × Char) :=
  [(⟨(0, 7), [((3, 4), 1)], [((4, 5), false)]⟩, 'u'),
   (⟨(2, 7), [((3, 4), 1)], [((4, 5), false)]⟩, 'd')]
def c4k76 : List Char := "#      @#\n####### #\n#       #\n# # $  ##\n# #  .###\n# #######\n# #######".toList
def c4e76 : Entry := (16, ⟨(0, 7), [((3, 4), 1)], [((4, 5), false)]⟩, ['r', 'r', 'r', 'r', 'r', 'r', 'd', 'd', 'l', 'd', 'L', 'r', 'u', 'r', 'u', 'u'])
def c4v59 : List (List Char) := (c4v58 ++ [c4k76])
def c4h59 : List Entry := [c4e59, c4e64, c4e63, c4e62, c4e61, c4e60, c4e65, c4e70, c4e73, c4e71, c4e72, c4e66, c4e67, c4e68, c4e69, c4e75, c4e74, c4e76]

def c4p59 : List Entry := [c4e63, c4e64, c4e60, c4e62, c4e61, c4e66, c4e65, c4e70, c4e73, c4e71, c4e72, c4e76, c4e67, c4e68, c4e69, c4e75, c4e74]
def c4g59 : List (PState × Char) :=
  [(⟨(2, 5), [((3, 3), 1)], [((4, 5), false)]⟩, 'l'),
   (⟨(2, 7), [((3, 3), 1)], [((4, 5), false)]⟩, 'r'),
   (⟨(3, 6), [((3, 3), 1)], [((4, 5), false)]⟩, 'd')]
def c4k77 : List Char := "#       #\n####### #\n#      @#\n# #$   ##\n# #  .###\n# #######\n# #######".toList
def c4e77 : Entry := (16, ⟨(2, 7), [((3, 3), 1)], [((4, 5), false)]⟩, ['r', 'r', 'r', 'r', 'r', 'r', 'd', 'd', 'l', 'd', 'L', 'L', 'r', 'r', 'u', 'r'])
def c4v60 : List (List Char) := (c4v59 ++ [c4k77])
def c4h60 : List Entry := [c4e63, c4e64, c4e60, c4e62, c4e61, c4e66, c4e65, c4e70, c4e73, c4e71, c4e72, c4e76, c4e67, c4e68, c4e69, c4e75, c4e74, c4e77]

def c4p60 : List Entry := [c4e64, c4e61, c4e60, c4e62, c4e72, c4e66, c4e65, c4e70, c4e73, c4e71, c4e77, c4e76, c4e67, c4e68, c4e69, c4e75, c4e74]
def c4g60 : List (PState × Char) :=
  [(⟨(4, 4), [((4, 3), 1)], [((4, 5), false)]⟩, 'L'),
   (⟨(3, 5), [((4, 4), 1)], [((4, 5), false)]⟩, 'u')]
def c4k78 : List Char := "#       #\n####### #\n#       #\n# #    ##\n# #$@.###\n# #######\n# #######".toList
def c4e78 : Entry := (17, ⟨(4, 4), [((4, 3), 1)], [((4, 5), false)]⟩, ['r', 'r', 'r', 'r', 'r', 'r', 'd', 'd', 'l', 'd', 'L', 'u', 'l', 'D', 'r', 'd', 'L'])
def c4v61 : List (List Char) := (c4v60 ++ [c4k78])
def c4h61 : List Entry := [c4e64, c4e61, c4e60, c4e62, c4e72, c4e66, c4e65, c4e70, c4e73, c4e71, c4e77, c4e76, c4e67, c4e68, c4e69, c4e75, c4e74, c4e78]

def c4p61 : List Entry := [c4e60, c4e61, c4e65, c4e62, c4e72, c4e66, c4e69, c4e70, c4e73, c4e71, c4e77, c4e76, c4e67, c4e68, c4e78, c4e75, c4e74]
def c4g61 : List (PState × Char) :=
  [(⟨(4, 4), [((4, 5), 1)], [((4, 5), true)]⟩, 'R'),
   (⟨(3, 3), [((4, 4), 1)], [((4, 5), false)]⟩, 'u')]
def c4k79 : List Char := "#       #\n####### #\n#       #\n# #    ##\n# # @*###\n# #######\n# #######".toList
def c4e79 : Entry := (17, ⟨(4, 4), [((4, 5), 1)], [((4, 5), true)]⟩, ['r', 'r', 'r', 'r', 'r', 'r', 'd', 'd', 'l', 'd', 'L', 'u', 'l', 'D', 'l', 'd', 'R'])
def c4v62 : List (List Char) := (c4v61 ++ [c4k79])
def c4h62 : List Entry := [c4e60, c4e61, c4e65, c4e62, c4e72, c4e66, c4e69, c4e70, c4e73, c4e71, c4e77, c4e76, c4e67, c4e68, c4e78, c4e75, c4e74, c4e79]

def c4p62 : List Entry := [c4e61, c4e62, c4e65, c4e70, c4e72, c4e66, c4e69, c4e74, c4e73, c4e71, c4e77, c4e76, c4e67, c4e68, c4e78, c4e75, c4e79]
def c4g62 : List (PState × Char) :=
  [(⟨(2, 2), [((4, 4), 1)], [((4, 5), false)]⟩, 'l'),
   (⟨(2, 4), [((4, 4), 1)], [((4, 5), false)]⟩, 'r'),
   (⟨(3, 3), [((4, 4), 1)], [((4, 5), false)]⟩, 'd')]
def c4k80 : List Char := "#       #\n####### #\n# @     #\n# #    ##\n# # $.###\n# #######\n# #######".toList
def c4e80 : Entry := (17, ⟨(2, 2), [((4, 4), 1)], [((4, 5), false)]⟩, ['r', 'r', 'r', 'r', 'r', 'r', 'd', 'd', 'l', 'd', 'L', 'u', 'l', 'D', 'u', 'l', 'l'])
def c4v63 : List (List Char) := (c4v62 ++ [c4k80])
def c4h63 : List Entry := [c4e61, c4e62, c4e65, c4e70, c4e72, c4e66, c4e69, c4e74, c4e73, c4e71, c4e77, c4e76, c4e67, c4e68, c4e78, c4e75, c4e79, c4e80]

def c4p63 : List Entry := [c4e62, c4e72, c4e65, c4e70, c4e71, c4e66, c4e69, c4e74, c4e73, c4e80, c4e77, c4e76, c4e67, c4e68, c4e78, c4e75, c4e79]
def c4g63 : List (PState × Char) :=
  [(⟨(2, 4), [((4, 4), 1)], [((4, 5), false)]⟩, 'l'),
   (⟨(2, 6), [((4, 4), 1)], [((4, 5), false)]⟩, 'r'),
   (⟨(3, 5), [((4, 4), 1)], [((4, 5), false)]⟩, 'd')]
def c4k81 : List Char := "#       #\n####### #\n#     @ #\n# #    ##\n# # $.###\n# #######\n# #######".toList
def c4e81 : Entry := (17, ⟨(2, 6), [((4, 4), 1)], [((4, 5), false)]⟩, ['r', 'r', 'r', 'r', 'r', 'r', 'd', 'd', 'l', 'd', 'L', 'u', 'l', 'D', 'u', 'r', 'r'])
def c4v64 : List (List Char) := (c4v63 ++ [c4k81])
def c4h64 : List Entry := [c4e62, c4e72, c4e65, c4e70, c4e71, c4e66, c4e69, c4e74, c4e73, c4e80, c4e77, c4e76, c4e67, c4e68, c4e78, c4e75, c4e79, c4e81]

def c4p64 : List Entry := [c4e65, c4e72, c4e66, c4e70, c4e71, c4e67, c4e69, c4e74, c4e73, c4e80, c4e77, c4e76, c4e81, c4e68, c4e78, c4e75, c4e79]
def c4g64 : List (PState × Char) :=
  [(⟨(3, 5), [((4, 4), 1)], [((4, 5), false)]⟩, 'l'),
   (⟨(2, 6), [((4, 4), 1)], [((4, 5), false)]⟩, 'u')]

def c4p65 : List Entry := [c4e66, c4e72, c4e67, c4e70, c4e71, c4e76, c4e69, c4e74, c4e73, c4e80, c4e77, c4e79, c4e81, c4e68, c4e78, c4e75]
def c4g65 : List (PState × Char) :=
  [(⟨(3, 3), [((4, 3), 1)], [((4, 5), false)]⟩, 'l'),
   (⟨(3, 5), [((4, 3), 1)], [((4, 5), false)]⟩, 'r'),
   (⟨(2, 4), [((4, 3), 1)], [((4, 5), false)]⟩, 'u'),
   (⟨(4, 4), [((4, 3), 1)], [((4, 5), false)]⟩, 'd')]
def c4k82 : List Char := "#       #\n####### #\n#       #\n# #  @ ##\n# #$ .###\n# #######\n# #######".toList
def c4e82 : Entry := (17, ⟨(3, 5), [((4, 3), 1)], [((4, 5), false)]⟩, ['r', 'r', 'r', 'r', 'r', 'r', 'd', 'd', 'l', 'd', 'L', 'L', 'u', 'l', 'D', 'r', 'r'])
def c4k83 : List Char := "#       #\n####### #\n#   @   #\n# #    ##\n# #$ .###\n# #######\n# #######".toList
def c4e83 : Entry := (17, ⟨(2, 4), [((4, 3), 1)], [((4, 5), false)]⟩, ['r', 'r', 'r', 'r', 'r', 'r', 'd', 'd', 'l', 'd', 'L', 'L', 'u', 'l', 'D', 'r', 'u'])
def c4v66 : List (List Char) := ((c4v64 ++ [c4k82]) ++ [c4k83])
def c4h66 : List Entry := [c4e66, c4e72, c4e67, c4e70, c4e71, c4e76, c4e69, c4e74, c4e73, c4e80, c4e77, c4e79, c4e81, c4e68, c4e78, c4e75, c4e82, c4e83]

def c4p66 : List Entry := [c4e72, c4e70, c4e67, c4e73, c4e71, c4e76, c4e69, c4e74, c4e83, c4e80, c4e77, c4e79, c4e81, c4e68, c4e78, c4e75, c4e82]
def c4g66 : List (PState × Char) :=
  [(⟨(2, 2), [((4, 3), 1)], [((4, 5), false)]⟩, 'l'),
   (⟨(2, 4), [((4, 3), 1)], [((4, 5), false)]⟩, 'r'),
   (⟨(3, 3), [((4, 3), 1)], [((4, 5), false)]⟩, 'd')]
def c4k84 : List Char := "#       #\n####### #\n# @     #\n# #    ##\n# #$ .###\n# #######\n# #######".toList
def c4e84 : Entry := (17, ⟨(2, 2), [((4, 3), 1)], [((4, 5), false)]⟩, ['r', 'r', 'r', 'r', 'r', 'r', 'd', 'd', 'l', 'd', 'L', 'L', 'u', 'l', 'D', 'u', 'l'])
def c4v67 : List (List Char) := (c4v66 ++ [c4k84])
def c4h67 : List Entry := [c4e72, c4e70, c4e67, c4e73, c4e71, c4e76, c4e69, c4e74, c4e83, c4e80, c4e77, c4e79, c4e81, c4e68, c4e78, c4e75, c4e82, c4e84]

def c4p67 : List Entry := [c4e70, c4e71, c4e67, c4e73, c4e77, c4e76, c4e69, c4e74, c4e83, c4e80, c4e84, c4e79, c4e81, c4e68, c4e78, c4e75, c4e82]
def c4g67 : List (PState × Char) :=
  [(⟨(2, 2), [((2, 4), 1)], [((4, 5), false)]⟩, 'l'),
   (⟨(2, 4), [((2, 5), 1)], [((4, 5), false)]⟩, 'R'),
   (⟨(3, 3), [((2, 4), 1)], [((4, 5), false)]⟩, 'd')]
def c4k85 : List Char := "#       #\n####### #\n# @ $   #\n# #    ##\n# #  .###\n# #######\n# #######".toList
def c4e85 : Entry := (17, ⟨(2, 2), [((2, 4), 1)], [((4, 5), false)]⟩, ['r', 'r', 'r', 'r', 'r', 'r', 'd', 'd', 'l', 'd', 'L', 'd', 'l', 'U', 'l', 'u', 'l'])
def c4k86 : List Char := "#       #\n####### #\n#   @$  #\n# #    ##\n# #  .###\n# #######\n# #######".toList
def c4e86 : Entry := (17, ⟨(2, 4), [((2, 5), 1)], [((4, 5), false)]⟩, ['r', 'r', 'r', 'r', 'r', 'r', 'd', 'd', 'l', 'd', 'L', 'd', 'l', 'U', 'l', 'u', 'R'])
def c4v68 : List (List Char) := ((c4v67 ++ [c4k85]) ++ [c4k86])
def c4h68 : List Entry := [c4e70, c4e71, c4e67, c4e73, c4e77, c4e76, c4e69, c4e74, c4e86, c4e80, c4e84, c4e79, c4e81, c4e68, c4e78, c4e75, c4e82, c4e85, c4e83]

def c4p68 : List Entry := [c4e67, c4e71, c4e69, c4e73, c4e77, c4e76, c4e68, c4e74, c4e86, c4e80, c4e84, c4e79, c4e81, c4e83, c4e78, c4e75, c4e82, c4e85]
def c4g68 : List (PState × Char) :=
  [(⟨(2, 4), [((2, 3), 1)], [((4, 5), false)]⟩, 'L'),
   (⟨(2, 6), [((2, 4), 1)], [((4, 5), false)]⟩, 'r'),
   (⟨(3, 5), [((2, 4), 1)], [((4, 5), false)]⟩, 'd')]
def c4k87 : List Char := "#       #\n####### #\n#  $@   #\n# #    ##\n# #  .###\n# #######\n# #######".toList
def c4e87 : Entry := (17, ⟨(2, 4), [((2, 3), 1)], [((4, 5), false)]⟩, ['r', 'r', 'r', 'r', 'r', 'r', 'd', 'd', 'l', 'd', 'L', 'd', 'l', 'U', 'r', 'u', 'L'])
def c4k88 : List Char := "#       #\n####### #\n#   $ @ #\n# #    ##\n# #  .###\n# #######\n# #######".toList
def c4e88 : Entry := (17, ⟨(2, 6), [((2, 4), 1)], [((4, 5), false)]⟩, ['r', 'r', 'r', 'r', 'r', 'r', 'd', 'd', 'l', 'd', 'L', 'd', 'l', 'U', 'r', 'u', 'r'])
def c4v69 : List (List Char) := ((c4v68 ++ [c4k87]) ++ [c4k88])
def c4h69 : List Entry := [c4e67, c4e71, c4e69, c4e73, c4e77, c4e76, c4e68, c4e74, c4e86, c4e80, c4e84, c4e79, c4e81, c4e83, c4e78, c4e75, c4e82, c4e85, c4e87, c4e88]

def c4p69 : List Entry := [c4e69, c4e71, c4e68, c4e73, c4e77, c4e76, c4e78, c4e74, c4e86, c4e80, c4e84, c4e79, c4e81, c4e83, c4e88, c4e75, c4e82, c4e85, c4e87]
def c4g69 : List (PState × Char) :=
  [(⟨(2, 2), [((3, 4), 1)], [((4, 5), false)]⟩, 'r'),
   (⟨(3, 1), [((3, 4), 1)], [((4, 5), false)]⟩, 'd')]
def c4k89 : List Char := "#       #\n####### #\n#       #\n#@# $  ##\n# #  .###\n# #######\n# #######".toList
def c4e89 : Entry := (17, ⟨(3, 1), [((3, 4), 1)], [((4, 5), false)]⟩, ['r', 'r', 'r', 'r', 'r', 'r', 'd', 'd', 'l', 'd', 'L', 'u', 'l', 'l', 'l', 'l', 'd'])
def c4v70 : List (List Char) := (c4v69 ++ [c4k89])
def c4h70 : List Entry := [c4e69, c4e71, c4e68, c4e73, c4e77, c4e76, c4e78, c4e74, c4e86, c4e80, c4e84, c4e79, c4e81, c4e83, c4e88, c4e75, c4e82, c4e85, c4e87, c4e89]

def c4p70 : List Entry := [c4e68, c4e71, c4e76, c4e73, c4e77, c4e79, c4e78, c4e74, c4e86, c4e80, c4e84, c4e89, c4e81, c4e83, c4e88, c4e75, c4e82, c4e85, c4e87]
def c4g70 : List (PState × Char) :=
  [(⟨(3, 5), [((2, 4), 1)], [((4, 5), false)]⟩, 'l'),
   (⟨(2, 6), [((2, 4), 1)], [((4, 5), false)]⟩, 'u')]

def c4p71 : List Entry := [c4e71, c4e73, c4e76, c4e74, c4e77, c4e79, c4e78, c4e75, c4e86, c4e80, c4e84, c4e89, c4e81, c4e83, c4e88, c4e87, c4e82, c4e85]
def c4g71 : List (PState × Char) :=
  [(⟨(2, 2), [((3, 3), 1)], [((4, 5), false)]⟩, 'r'),
   (⟨(3, 1), [((3, 3), 1)], [((4, 5), false)]⟩, 'd')]
def c4k90 : List Char := "#       #\n####### #\n#       #\n#@#$   ##\n# #  .###\n# #######\n# #######".toList
def c4e90 : Entry := (17, ⟨(3, 1), [((3, 3), 1)], [((4, 5), false)]⟩, ['r', 'r', 'r', 'r', 'r', 'r', 'd', 'd', 'l', 'd', 'L', 'L', 'u', 'l', 'l', 'l', 'd'])
def c4v72 : List (List Char) := (c4v70 ++ [c4k90])
def c4h72 : List Entry := [c4e71, c4e73, c4e76, c4e74, c4e77, c4e79, c4e78, c4e75, c4e86, c4e80, c4e84, c4e89, c4e81, c4e83, c4e88, c4e87, c4e82, c4e85, c4e90]

def c4p72 : List Entry := [c4e73, c4e74, c4e76, c4e75, c4e77, c4e79, c4e78, c4e82, c4e86, c4e80, c4e84, c4e89, c4e81, c4e83, c4e88, c4e87, c4e90, c4e85]
def c4g72 : List (PState × Char) :=
  [(⟨(4, 4), [((2, 4), 1)], [((4, 5), false)]⟩, 'l'),
   (⟨(3, 5), [((2, 4), 1)], [((4, 5), false)]⟩, 'u')]

def c4p73 : List Entry := [c4e76, c4e74, c4e79, c4e75, c4e77, c4e81, c4e78, c4e82, c4e86, c4e80, c4e84, c4e89, c4e85, c4e83, c4e88, c4e87, c4e90]
def c4g73 : List (PState × Char) :=
  [(⟨(4, 4), [((2, 4), 1)], [((4, 5), false)]⟩, 'r'),
   (⟨(3, 3), [((2, 4), 1)], [((4, 5), false)]⟩, 'u')]

def c4p74 : List Entry := [c4e74, c4e75, c4e79, c4e86, c4e77, c4e81, c4e78, c4e82, c4e90, c4e80, c4e84, c4e89, c4e85, c4e83, c4e88, c4e87]
def c4g74 : List (PState × Char) :=
  [(⟨(0, 6), [((3, 4), 1)], [((4, 5), false)]⟩, 'l'),
   (⟨(1, 7), [((3, 4), 1)], [((4, 5), false)]⟩, 'd')]
def c4k91 : List Char := "#     @ #\n####### #\n#       #\n# # $  ##\n# #  .###\n# #######\n# #######".toList
def c4e91 : Entry := (17, ⟨(0, 6), [((3, 4), 1)], [((4, 5), false)]⟩, ['r', 'r', 'r', 'r', 'r', 'r', 'd', 'd', 'l', 'd', 'L', 'r', 'u', 'r', 'u', 'u', 'l'])
def c4v75 : List (List Char) := (c4v72 ++ [c4k91])
def c4h75 : List Entry := [c4e74, c4e75, c4e79, c4e86, c4e77, c4e81, c4e78, c4e82, c4e90, c4e80, c4e84, c4e89, c4e85, c4e83, c4e88, c4e87, c4e91]

def c4p75 : List Entry := [c4e75, c4e77, c4e79, c4e86, c4e80, c4e81, c4e78, c4e82, c4e90, c4e91, c4e84, c4e89, c4e85, c4e83, c4e88, c4e87]
def c4g75 : List (PState × Char) :=
  [(⟨(3, 3), [((2, 3), 1)], [((4, 5), false)]⟩, 'l'),
   (⟨(3, 5), [((2, 3), 1)], [((4, 5), false)]⟩, 'r'),
   (⟨(2, 4), [((2, 3), 1)], [((4, 5), false)]⟩, 'u'),
   (⟨(4, 4), [((2, 3), 1)], [((4, 5), false)]⟩, 'd')]
def c4k92 : List Char := "#       #\n####### #\n#  $    #\n# #  @ ##\n# #  .###\n# #######\n# #######".toList
def c4e92 : Entry := (17, ⟨(3, 5), [((2, 3), 1)], [((4, 5), false)]⟩, ['r', 'r', 'r', 'r', 'r', 'r', 'd', 'd', 'l', 'd', 'L', 'L', 'd', 'l', 'U', 'r', 'r'])
def c4k93 : List Char := "#       #\n####### #\n#  $    #\n# #    ##\n# # @.###\n# #######\n# #######".toList
def c4e93 : Entry := (17, ⟨(4, 4), [((2, 3), 1)], [((4, 5), false)]⟩, ['r', 'r', 'r', 'r', 'r', 'r', 'd', 'd', 'l', 'd', 'L', 'L', 'd', 'l', 'U', 'r', 'd'])
def c4v76 : List (List Char) := ((c4v75 ++ [c4k92]) ++ [c4k93])
def c4h76 : List Entry := [c4e75, c4e77, c4e79, c4e86, c4e80, c4e81, c4e78, c4e82, c4e90, c4e91, c4e84, c4e89, c4e85, c4e83, c4e88, c4e87, c4e92, c4e93]

def c4p76 : List Entry := [c4e77, c4e86, c4e79, c4e82, c4e80, c4e81, c4e78, c4e87, c4e90, c4e91, c4e84, c4e89, c4e85, c4e83, c4e88, c4e93, c4e92]
def c4g76 : List (PState × Char) :=
  [(⟨(4, 4), [((2, 3), 1)], [((4, 5), false)]⟩, 'r'),
   (⟨(3, 3), [((2, 3), 1)], [((4, 5), false)]⟩, 'u')]

def c4p77 : List Entry := [c4e79, c4e86, c4e78, c4e82, c4e80, c4e81, c4e83, c4e87, c4e90, c4e91, c4e84, c4e89, c4e85, c4e92, c4e88, c4e93]
def c4g77 : List (PState × Char) :=
  [(⟨(2, 6), [((3, 3), 1)], [((4, 5), false)]⟩, 'l'),
   (⟨(1, 7), [((3, 3), 1)], [((4, 5), false)]⟩, 'u')]
def c4k94 : List Char := "#       #\n#######@#\n#       #\n# #$   ##\n# #  .###\n# #######\n# #######".toList
def c4e94 : Entry := (17, ⟨(1, 7), [((3, 3), 1)], [((4, 5), false)]⟩, ['r', 'r', 'r', 'r', 'r', 'r', 'd', 'd', 'l', 'd', 'L', 'L', 'r', 'r', 'u', 'r', 'u'])
def c4v78 : List (List Char) := (c4v76 ++ [c4k94])
def c4h78 : List Entry := [c4e79, c4e86, c4e78, c4e82, c4e80, c4e81, c4e83, c4e87, c4e90, c4e91, c4e84, c4e89, c4e85, c4e92, c4e88, c4e93, c4e94]

def c4p78 : List Entry := [c4e78, c4e86, c4e81, c4e82, c4e80, c4e89, c4e83, c4e87, c4e90, c4e91, c4e84, c4e94, c4e85, c4e92, c4e88, c4e93]
theorem c4step0 :
    ucsLoop c4t 100 c4v0 c4h0 = ucsLoop c4t 99 c4v1 c4h1 :=
  ucsLoop_step c4t 99 c4v0 c4h0 0 ⟨(0, 1), [((3, 5), 1)], [((4, 5), false)]⟩
    ([] : List Char) c4p0 c4g0 c4v1 c4h1 rfl rfl rfl rfl rfl

theorem c4step1 :
    ucsLoop c4t 99 c4v1 c4h1 = ucsLoop c4t 98 c4v2 c4h2 :=
  ucsLoop_step c4t 98 c4v1 c4h1 1 ⟨(0, 2), [((3, 5), 1)], [((4, 5), false)]⟩
    ['r'] c4p1 c4g1 c4v2 c4h2 rfl rfl rfl rfl rfl

theorem c4step2 :
    ucsLoop c4t 98 c4v2 c4h2 = ucsLoop c4t 97 c4v3 c4h3 :=
  ucsLoop_step c4t 97 c4v2 c4h2 1 ⟨((-1), 1), [((3, 5), 1)], [((4, 5), false)]⟩
    ['u'] c4p2 c4g2 c4v3 c4h3 rfl rfl rfl rfl rfl

theorem c4step3 :
    ucsLoop c4t 97 c4v3 c4h3 = ucsLoop c4t 96 c4v4 c4h4 :=
  ucsLoop_step c4t 96 c4v3 c4h3 2 ⟨(0, 3), [((3, 5), 1)], [((4, 5), false)]⟩
    ['r', 'r'] c4p3 c4g3 c4v4 c4h4 rfl rfl rfl rfl rfl

theorem c4step4 :
    ucsLoop c4t 96 c4v4 c4h4 = ucsLoop c4t 95 c4v5 c4h5 :=
  ucsLoop_step c4t 95 c4v4 c4h4 2 ⟨((-2), 1), [((3, 5), 1)], [((4, 5), false)]⟩
    ['u', 'u'] c4p4 c4g4 c4v5 c4h5 rfl rfl rfl rfl rfl

theorem c4step5 :
    ucsLoop c4t 95 c4v5 c4h5 = ucsLoop c4t 94 c4v6 c4h6 :=
  ucsLoop_step c4t 94 c4v5 c4h5 3 ⟨(0, 4), [((3, 5), 1)], [((4, 5), false)]⟩
    ['r', 'r', 'r'] c4p5 c4g5 c4v6 c4h6 rfl rfl rfl rfl rfl

theorem c4step6 :
    ucsLoop c4t 94 c4v6 c4h6 = ucsLoop c4t 93 c4v7 c4h7 :=
  ucsLoop_step c4t 93 c4v6 c4h6 3 ⟨((-3), 1), [((3, 5), 1)], [((4, 5), false)]⟩
    ['u', 'u', 'u'] c4p6 c4g6 c4v7 c4h7 rfl rfl rfl rfl rfl

theorem c4step7 :
    ucsLoop c4t 93 c4v7 c4h7 = ucsLoop c4t 92 c4v8 c4h8 :=
  ucsLoop_step c4t 92 c4v7 c4h7 4 ⟨(0, 5), [((3, 5), 1)], [((4, 5), false)]⟩
    ['r', 'r', 'r', 'r'] c4p7 c4g7 c4v8 c4h8 rfl rfl rfl rfl rfl

theorem c4step8 :
    ucsLoop c4t 92 c4v8 c4h8 = ucsLoop c4t 91 c4v9 c4h9 :=
  ucsLoop_step c4t 91 c4v8 c4h8 4 ⟨((-4), 1), [((3, 5), 1)], [((4, 5), false)]⟩
    ['u', 'u', 'u', 'u'] c4p8 c4g8 c4v9 c4h9 rfl rfl rfl rfl rfl

theorem c4step9 :
    ucsLoop c4t 91 c4v9 c4h9 = ucsLoop c4t 90 c4v10 c4h10 :=
  ucsLoop_step c4t 90 c4v9 c4h9 5 ⟨(0, 6), [((3, 5), 1)], [((4, 5), false)]⟩
    ['r', 'r', 'r', 'r', 'r'] c4p9 c4g9 c4v10 c4h10 rfl rfl rfl rfl rfl

theorem c4step10 :
    ucsLoop c4t 90 c4v10 c4h10 = ucsLoop c4t 89 c4v11 c4h11 :=
  ucsLoop_step c4t 89 c4v10 c4h10 5 ⟨((-5), 1), [((3, 5), 1)], [((4, 5), false)]⟩
    ['u', 'u', 'u', 'u', 'u'] c4p10 c4g10 c4v11 c4h11 rfl rfl rfl rfl rfl

theorem c4step11 :
    ucsLoop c4t 89 c4v11 c4h11 = ucsLoop c4t 88 c4v12 c4h12 :=
  ucsLoop_step c4t 88 c4v11 c4h11 6 ⟨(0, 7), [((3, 5), 1)], [((4, 5), false)]⟩
    ['r', 'r', 'r', 'r', 'r', 'r'] c4p11 c4g11 c4v12 c4h12 rfl rfl rfl rfl rfl

theorem c4step12 :
    ucsLoop c4t 88 c4v12 c4h12 = ucsLoop c4t 87 c4v13 c4h13 :=
  ucsLoop_step c4t 87 c4v12 c4h12 6 ⟨((-5), 2), [((3, 5), 1)], [((4, 5), false)]⟩
    ['u', 'u', 'u', 'u', 'u', 'r'] c4p12 c4g12 c4v13 c4h13 rfl rfl rfl rfl rfl

theorem c4step13 :
    ucsLoop c4t 87 c4v13 c4h13 = ucsLoop c4t 86 c4v14 c4h14 :=
  ucsLoop_step c4t 86 c4v13 c4h13 7 ⟨(1, 7), [((3, 5), 1)], [((4, 5), false)]⟩
    ['r', 'r', 'r', 'r', 'r', 'r', 'd'] c4p13 c4g13 c4v14 c4h14 rfl rfl rfl rfl rfl

theorem c4step14 :
    ucsLoop c4t 86 c4v14 c4h14 = ucsLoop c4t 85 c4v15 c4h15 :=
  ucsLoop_step c4t 85 c4v14 c4h14 7 ⟨((-5), 3), [((3, 5), 1)], [((4, 5), false)]⟩
    ['u', 'u', 'u', 'u', 'u', 'r', 'r'] c4p14 c4g14 c4v15 c4h15 rfl rfl rfl rfl rfl

theorem c4step15 :
    ucsLoop c4t 85 c4v15 c4h15 = ucsLoop c4t 84 c4v16 c4h16 :=
  ucsLoop_step c4t 84 c4v15 c4h15 8 ⟨(2, 7), [((3, 5), 1)], [((4, 5), false)]⟩
    ['r', 'r', 'r', 'r', 'r', 'r', 'd', 'd'] c4p15 c4g15 c4v16 c4h16 rfl rfl rfl rfl rfl

theorem c4step16 :
    ucsLoop c4t 84 c4v16 c4h16 = ucsLoop c4t 83 c4v17 c4h17 :=
  ucsLoop_step c4t 83 c4v16 c4h16 8 ⟨((-5), 4), [((3, 5), 1)], [((4, 5), false)]⟩
    ['u', 'u', 'u', 'u', 'u', 'r', 'r', 'r'] c4p16 c4g16 c4v17 c4h17 rfl rfl rfl rfl rfl

theorem c4step17 :
    ucsLoop c4t 83 c4v17 c4h17 = ucsLoop c4t 82 c4v18 c4h18 :=
  ucsLoop_step c4t 82 c4v17 c4h17 8 ⟨((-4), 3), [((3, 5), 1)], [((4, 5), false)]⟩
    ['u', 'u', 'u', 'u', 'u', 'r', 'r', 'd'] c4p17 c4g17 c4v18 c4h18 rfl rfl rfl rfl rfl

theorem c4step18 :
    ucsLoop c4t 82 c4v18 c4h18 = ucsLoop c4t 81 c4v19 c4h19 :=
  ucsLoop_step c4t 81 c4v18 c4h18 9 ⟨(2, 6), [((3, 5), 1)], [((4, 5), false)]⟩
    ['r', 'r', 'r', 'r', 'r', 'r', 'd', 'd', 'l'] c4p18 c4g18 c4v19 c4h19 rfl rfl rfl rfl rfl

theorem c4step19 :
    ucsLoop c4t 81 c4v19 c4h19 = ucsLoop c4t 80 c4v20 c4h20 :=
  ucsLoop_step c4t 80 c4v19 c4h19 9 ⟨((-5), 5), [((3, 5), 1)], [((4, 5), false)]⟩
    ['u', 'u', 'u', 'u', 'u', 'r', 'r', 'r', 'r'] c4p19 c4g19 c4v20 c4h20 rfl rfl rfl rfl rfl

theorem c4step20 :
    ucsLoop c4t 80 c4v20 c4h20 = ucsLoop c4t 79 c4v21 c4h21 :=
  ucsLoop_step c4t 79 c4v20 c4h20 9 ⟨((-3), 3), [((3, 5), 1)], [((4, 5), false)]⟩
    ['u', 'u', 'u', 'u', 'u', 'r', 'r', 'd', 'd'] c4p20 c4g20 c4v21 c4h21 rfl rfl rfl rfl rfl

theorem c4step21 :
    ucsLoop c4t 79 c4v21 c4h21 = ucsLoop c4t 78 c4v21 c4p21 :=
  ucsLoop_step c4t 78 c4v21 c4h21 9 ⟨((-4), 4), [((3, 5), 1)], [((4, 5), false)]⟩
    ['u', 'u', 'u', 'u', 'u', 'r', 'r', 'r', 'd'] c4p21 c4g21 c4v21 c4p21 rfl rfl rfl rfl rfl

theorem c4step22 :
    ucsLoop c4t 78 c4v21 c4p21 = ucsLoop c4t 77 c4v23 c4h23 :=
  ucsLoop_step c4t 77 c4v21 c4p21 10 ⟨(3, 6), [((3, 5), 1)], [((4, 5), false)]⟩
    ['r', 'r', 'r', 'r', 'r', 'r', 'd', 'd', 'l', 'd'] c4p22 c4g22 c4v23 c4h23 rfl rfl rfl rfl rfl

theorem c4step23 :
    ucsLoop c4t 77 c4v23 c4h23 = ucsLoop c4t 76 c4v24 c4h24 :=
  ucsLoop_step c4t 76 c4v23 c4h23 10 ⟨((-4), 5), [((3, 5), 1)], [((4, 5), false)]⟩
    ['u', 'u', 'u', 'u', 'u', 'r', 'r', 'r', 'r', 'd'] c4p23 c4g23 c4v24 c4h24 rfl rfl rfl rfl rfl

theorem c4step24 :
    ucsLoop c4t 76 c4v24 c4h24 = ucsLoop c4t 75 c4v24 c4p24 :=
  ucsLoop_step c4t 75 c4v24 c4h24 10 ⟨((-3), 4), [((3, 5), 1)], [((4, 5), false)]⟩
    ['u', 'u', 'u', 'u', 'u', 'r', 'r', 'd', 'd', 'r'] c4p24 c4g24 c4v24 c4p24 rfl rfl rfl rfl rfl

theorem c4step25 :
    ucsLoop c4t 75 c4v24 c4p24 = ucsLoop c4t 74 c4v26 c4h26 :=
  ucsLoop_step c4t 74 c4v24 c4p24 11 ⟨(3, 5), [((3, 4), 1)], [((4, 5), false)]⟩
    ['r', 'r', 'r', 'r', 'r', 'r', 'd', 'd', 'l', 'd', 'L'] c4p25 c4g25 c4v26 c4h26 rfl rfl rfl rfl rfl

theorem c4step26 :
    ucsLoop c4t 74 c4v26 c4h26 = ucsLoop c4t 73 c4v26 c4p26 :=
  ucsLoop_step c4t 73 c4v26 c4h26 11 ⟨((-3), 5), [((3, 5), 1)], [((4, 5), false)]⟩
    ['u', 'u', 'u', 'u', 'u', 'r', 'r', 'r', 'r', 'd', 'd'] c4p26 c4g26 c4v26 c4p26 rfl rfl rfl rfl rfl

theorem c4step27 :
    ucsLoop c4t 73 c4v26 c4p26 = ucsLoop c4t 72 c4v28 c4h28 :=
  ucsLoop_step c4t 72 c4v26 c4p26 12 ⟨(3, 6), [((3, 4), 1)], [((4, 5), false)]⟩
    ['r', 'r', 'r', 'r', 'r', 'r', 'd', 'd', 'l', 'd', 'L', 'r'] c4p27 c4g27 c4v28 c4h28 rfl rfl rfl rfl rfl

theorem c4step28 :
    ucsLoop c4t 72 c4v28 c4h28 = ucsLoop c4t 71 c4v29 c4h29 :=
  ucsLoop_step c4t 71 c4v28 c4h28 12 ⟨(4, 5), [((3, 4), 1)], [((4, 5), false)]⟩
    ['r', 'r', 'r', 'r', 'r', 'r', 'd', 'd', 'l', 'd', 'L', 'd'] c4p28 c4g28 c4v29 c4h29 rfl rfl rfl rfl rfl

theorem c4step29 :
    ucsLoop c4t 71 c4v29 c4h29 = ucsLoop c4t 70 c4v30 c4h30 :=
  ucsLoop_step c4t 70 c4v29 c4h29 12 ⟨(2, 5), [((3, 4), 1)], [((4, 5), false)]⟩
    ['r', 'r', 'r', 'r', 'r', 'r', 'd', 'd', 'l', 'd', 'L', 'u'] c4p29 c4g29 c4v30 c4h30 rfl rfl rfl rfl rfl

theorem c4step30 :
    ucsLoop c4t 70 c4v30 c4h30 = ucsLoop c4t 69 c4v31 c4h31 :=
  ucsLoop_step c4t 69 c4v30 c4h30 12 ⟨(3, 4), [((3, 3), 1)], [((4, 5), false)]⟩
    ['r', 'r', 'r', 'r', 'r', 'r', 'd', 'd', 'l', 'd', 'L', 'L'] c4p30 c4g30 c4v31 c4h31 rfl rfl rfl rfl rfl

theorem c4step31 :
    ucsLoop c4t 69 c4v31 c4h31 = ucsLoop c4t 68 c4v32 c4h32 :=
  ucsLoop_step c4t 68 c4v31 c4h31 13 ⟨(4, 4), [((3, 4), 1)], [((4, 5), false)]⟩
    ['r', 'r', 'r', 'r', 'r', 'r', 'd', 'd', 'l', 'd', 'L', 'd', 'l'] c4p31 c4g31 c4v32 c4h32 rfl rfl rfl rfl rfl

theorem c4step32 :
    ucsLoop c4t 68 c4v32 c4h32 = ucsLoop c4t 67 c4v33 c4h33 :=
  ucsLoop_step c4t 67 c4v32 c4h32 13 ⟨(2, 4), [((3, 4), 1)], [((4, 5), false)]⟩
    ['r', 'r', 'r', 'r', 'r', 'r', 'd', 'd', 'l', 'd', 'L', 'u', 'l'] c4p32 c4g32 c4v33 c4h33 rfl rfl rfl rfl rfl

theorem c4step33 :
    ucsLoop c4t 67 c4v33 c4h33 = ucsLoop c4t 66 c4v34 c4h34 :=
  ucsLoop_step c4t 66 c4v33 c4h33 13 ⟨(2, 6), [((3, 4), 1)], [((4, 5), false)]⟩
    ['r', 'r', 'r', 'r', 'r', 'r', 'd', 'd', 'l', 'd', 'L', 'r', 'u'] c4p33 c4g33 c4v34 c4h34 rfl rfl rfl rfl rfl

theorem c4step34 :
    ucsLoop c4t 66 c4v34 c4h34 = ucsLoop c4t 65 c4v35 c4h35 :=
  ucsLoop_step c4t 65 c4v34 c4h34 13 ⟨(2, 4), [((3, 3), 1)], [((4, 5), false)]⟩
    ['r', 'r', 'r', 'r', 'r', 'r', 'd', 'd', 'l', 'd', 'L', 'L', 'u'] c4p34 c4g34 c4v35 c4h35 rfl rfl rfl rfl rfl

theorem c4step35 :
    ucsLoop c4t 65 c4v35 c4h35 = ucsLoop c4t 64 c4v36 c4h36 :=
  ucsLoop_step c4t 64 c4v35 c4h35 13 ⟨(4, 4), [((3, 3), 1)], [((4, 5), false)]⟩
    ['r', 'r', 'r', 'r', 'r', 'r', 'd', 'd', 'l', 'd', 'L', 'L', 'd'] c4p35 c4g35 c4v36 c4h36 rfl rfl rfl rfl rfl

theorem c4step36 :
    ucsLoop c4t 64 c4v36 c4h36 = ucsLoop c4t 63 c4v37 c4h37 :=
  ucsLoop_step c4t 63 c4v36 c4h36 13 ⟨(3, 5), [((3, 3), 1)], [((4, 5), false)]⟩
    ['r', 'r', 'r', 'r', 'r', 'r', 'd', 'd', 'l', 'd', 'L', 'L', 'r'] c4p36 c4g36 c4v37 c4h37 rfl rfl rfl rfl rfl

theorem c4step37 :
    ucsLoop c4t 63 c4v37 c4h37 = ucsLoop c4t 62 c4v38 c4h38 :=
  ucsLoop_step c4t 62 c4v37 c4h37 14 ⟨(3, 4), [((4, 4), 1)], [((4, 5), false)]⟩
    ['r', 'r', 'r', 'r', 'r', 'r', 'd', 'd', 'l', 'd', 'L', 'u', 'l', 'D'] c4p37 c4g37 c4v38 c4h38 rfl rfl rfl rfl rfl

theorem c4step38 :
    ucsLoop c4t 62 c4v38 c4h38 = ucsLoop c4t 61 c4v39 c4h39 :=
  ucsLoop_step c4t 61 c4v38 c4h38 14 ⟨(4, 3), [((3, 4), 1)], [((4, 5), false)]⟩
    ['r', 'r', 'r', 'r', 'r', 'r', 'd', 'd', 'l', 'd', 'L', 'd', 'l', 'l'] c4p38 c4g38 c4v39 c4h39 rfl rfl rfl rfl rfl

theorem c4step39 :
    ucsLoop c4t 61 c4v39 c4h39 = ucsLoop c4t 60 c4v40 c4h40 :=
  ucsLoop_step c4t 60 c4v39 c4h39 14 ⟨(2, 3), [((3, 4), 1)], [((4, 5), false)]⟩
    ['r', 'r', 'r', 'r', 'r', 'r', 'd', 'd', 'l', 'd', 'L', 'u', 'l', 'l'] c4p39 c4g39 c4v40 c4h40 rfl rfl rfl rfl rfl

theorem c4step40 :
    ucsLoop c4t 60 c4v40 c4h40 = ucsLoop c4t 59 c4v41 c4h41 :=
  ucsLoop_step c4t 59 c4v40 c4h40 14 ⟨(3, 4), [((2, 4), 1)], [((4, 5), false)]⟩
    ['r', 'r', 'r', 'r', 'r', 'r', 'd', 'd', 'l', 'd', 'L', 'd', 'l', 'U'] c4p40 c4g40 c4v41 c4h41 rfl rfl rfl rfl rfl

theorem c4step41 :
    ucsLoop c4t 59 c4v41 c4h41 = ucsLoop c4t 58 c4v42 c4h42 :=
  ucsLoop_step c4t 58 c4v41 c4h41 14 ⟨(2, 3), [((3, 3), 1)], [((4, 5), false)]⟩
    ['r', 'r', 'r', 'r', 'r', 'r', 'd', 'd', 'l', 'd', 'L', 'L', 'u', 'l'] c4p41 c4g41 c4v42 c4h42 rfl rfl rfl rfl rfl

theorem c4step42 :
    ucsLoop c4t 58 c4v42 c4h42 = ucsLoop c4t 57 c4v43 c4h43 :=
  ucsLoop_step c4t 57 c4v42 c4h42 14 ⟨(4, 3), [((3, 3), 1)], [((4, 5), false)]⟩
    ['r', 'r', 'r', 'r', 'r', 'r', 'd', 'd', 'l', 'd', 'L', 'L', 'd', 'l'] c4p42 c4g42 c4v43 c4h43 rfl rfl rfl rfl rfl

theorem c4step43 :
    ucsLoop c4t 57 c4v43 c4h43 = ucsLoop c4t 56 c4v44 c4h44 :=
  ucsLoop_step c4t 56 c4v43 c4h43 14 ⟨(2, 7), [((3, 4), 1)], [((4, 5), false)]⟩
    ['r', 'r', 'r', 'r', 'r', 'r', 'd', 'd', 'l', 'd', 'L', 'r', 'u', 'r'] c4p43 c4g43 c4v44 c4h44 rfl rfl rfl rfl rfl

theorem c4step44 :
    ucsLoop c4t 56 c4v44 c4h44 = ucsLoop c4t 55 c4v45 c4h45 :=
  ucsLoop_step c4t 55 c4v44 c4h44 14 ⟨(3, 6), [((3, 3), 1)], [((4, 5), false)]⟩
    ['r', 'r', 'r', 'r', 'r', 'r', 'd', 'd', 'l', 'd', 'L', 'L', 'r', 'r'] c4p44 c4g44 c4v45 c4h45 rfl rfl rfl rfl rfl

theorem c4step45 :
    ucsLoop c4t 55 c4v45 c4h45 = ucsLoop c4t 54 c4v45 c4p45 :=
  ucsLoop_step c4t 54 c4v45 c4h45 14 ⟨(2, 5), [((3, 3), 1)], [((4, 5), false)]⟩
    ['r', 'r', 'r', 'r', 'r', 'r', 'd', 'd', 'l', 'd', 'L', 'L', 'u', 'r'] c4p45 c4g45 c4v45 c4p45 rfl rfl rfl rfl rfl

theorem c4step46 :
    ucsLoop c4t 54 c4v45 c4p45 = ucsLoop c4t 53 c4v45 c4p46 :=
  ucsLoop_step c4t 53 c4v45 c4p45 14 ⟨(4, 5), [((3, 3), 1)], [((4, 5), false)]⟩
    ['r', 'r', 'r', 'r', 'r', 'r', 'd', 'd', 'l', 'd', 'L', 'L', 'd', 'r'] c4p46 c4g46 c4v45 c4p46 rfl rfl rfl rfl rfl

theorem c4step47 :
    ucsLoop c4t 53 c4v45 c4p46 = ucsLoop c4t 52 c4v48 c4h48 :=
  ucsLoop_step c4t 52 c4v45 c4p46 15 ⟨(2, 4), [((4, 4), 1)], [((4, 5), false)]⟩
    ['r', 'r', 'r', 'r', 'r', 'r', 'd', 'd', 'l', 'd', 'L', 'u', 'l', 'D', 'u'] c4p47 c4g47 c4v48 c4h48 rfl rfl rfl rfl rfl

theorem c4step48 :
    ucsLoop c4t 52 c4v48 c4h48 = ucsLoop c4t 51 c4v49 c4h49 :=
  ucsLoop_step c4t 51 c4v48 c4h48 15 ⟨(3, 5), [((4, 4), 1)], [((4, 5), false)]⟩
    ['r', 'r', 'r', 'r', 'r', 'r', 'd', 'd', 'l', 'd', 'L', 'u', 'l', 'D', 'r'] c4p48 c4g48 c4v49 c4h49 rfl rfl rfl rfl rfl

theorem c4step49 :
    ucsLoop c4t 51 c4v49 c4h49 = ucsLoop c4t 50 c4v50 c4h50 :=
  ucsLoop_step c4t 50 c4v49 c4h49 15 ⟨(3, 3), [((4, 4), 1)], [((4, 5), false)]⟩
    ['r', 'r', 'r', 'r', 'r', 'r', 'd', 'd', 'l', 'd', 'L', 'u', 'l', 'D', 'l'] c4p49 c4g49 c4v50 c4h50 rfl rfl rfl rfl rfl

theorem c4step50 :
    ucsLoop c4t 50 c4v50 c4h50 = ucsLoop c4t 49 c4v50 c4p50 :=
  ucsLoop_step c4t 49 c4v50 c4h50 15 ⟨(3, 3), [((3, 4), 1)], [((4, 5), false)]⟩
    ['r', 'r', 'r', 'r', 'r', 'r', 'd', 'd', 'l', 'd', 'L', 'd', 'l', 'l', 'u'] c4p50 c4g50 c4v50 c4p50 rfl rfl rfl rfl rfl

theorem c4step51 :
    ucsLoop c4t 49 c4v50 c4p50 = ucsLoop c4t 48 c4v52 c4h52 :=
  ucsLoop_step c4t 48 c4v50 c4p50 15 ⟨(3, 3), [((4, 3), 1)], [((4, 5), false)]⟩
    ['r', 'r', 'r', 'r', 'r', 'r', 'd', 'd', 'l', 'd', 'L', 'L', 'u', 'l', 'D'] c4p51 c4g51 c4v52 c4h52 rfl rfl rfl rfl rfl

theorem c4step52 :
    ucsLoop c4t 48 c4v52 c4h52 = ucsLoop c4t 47 c4v53 c4h53 :=
  ucsLoop_step c4t 47 c4v52 c4h52 15 ⟨(2, 2), [((3, 4), 1)], [((4, 5), false)]⟩
    ['r', 'r', 'r', 'r', 'r', 'r', 'd', 'd', 'l', 'd', 'L', 'u', 'l', 'l', 'l'] c4p52 c4g52 c4v53 c4h53 rfl rfl rfl rfl rfl

theorem c4step53 :
    ucsLoop c4t 47 c4v53 c4h53 = ucsLoop c4t 46 c4v54 c4h54 :=
  ucsLoop_step c4t 46 c4v53 c4h53 15 ⟨(2, 2), [((3, 3), 1)], [((4, 5), false)]⟩
    ['r', 'r', 'r', 'r', 'r', 'r', 'd', 'd', 'l', 'd', 'L', 'L', 'u', 'l', 'l'] c4p53 c4g53 c4v54 c4h54 rfl rfl rfl rfl rfl

theorem c4step54 :
    ucsLoop c4t 46 c4v54 c4h54 = ucsLoop c4t 45 c4v55 c4h55 :=
  ucsLoop_step c4t 45 c4v54 c4h54 15 ⟨(3, 5), [((2, 4), 1)], [((4, 5), false)]⟩
    ['r', 'r', 'r', 'r', 'r', 'r', 'd', 'd', 'l', 'd', 'L', 'd', 'l', 'U', 'r'] c4p54 c4g54 c4v55 c4h55 rfl rfl rfl rfl rfl

theorem c4step55 :
    ucsLoop c4t 45 c4v55 c4h55 = ucsLoop c4t 44 c4v56 c4h56 :=
  ucsLoop_step c4t 44 c4v55 c4h55 15 ⟨(3, 3), [((2, 4), 1)], [((4, 5), false)]⟩
    ['r', 'r', 'r', 'r', 'r', 'r', 'd', 'd', 'l', 'd', 'L', 'd', 'l', 'U', 'l'] c4p55 c4g55 c4v56 c4h56 rfl rfl rfl rfl rfl

theorem c4step56 :
    ucsLoop c4t 44 c4v56 c4h56 = ucsLoop c4t 43 c4v56 c4p56 :=
  ucsLoop_step c4t 43 c4v56 c4h56 15 ⟨(4, 4), [((2, 4), 1)], [((4, 5), false)]⟩
    ['r', 'r', 'r', 'r', 'r', 'r', 'd', 'd', 'l', 'd', 'L', 'd', 'l', 'U', 'd'] c4p56 c4g56 c4v56 c4p56 rfl rfl rfl rfl rfl

theorem c4step57 :
    ucsLoop c4t 43 c4v56 c4p56 = ucsLoop c4t 42 c4v58 c4h58 :=
  ucsLoop_step c4t 42 c4v56 c4p56 15 ⟨(3, 3), [((2, 3), 1)], [((4, 5), false)]⟩
    ['r', 'r', 'r', 'r', 'r', 'r', 'd', 'd', 'l', 'd', 'L', 'L', 'd', 'l', 'U'] c4p57 c4g57 c4v58 c4h58 rfl rfl rfl rfl rfl

theorem c4step58 :
    ucsLoop c4t 42 c4v58 c4h58 = ucsLoop c4t 41 c4v59 c4h59 :=
  ucsLoop_step c4t 41 c4v58 c4h58 15 ⟨(1, 7), [((3, 4), 1)], [((4, 5), false)]⟩
    ['r', 'r', 'r', 'r', 'r', 'r', 'd', 'd', 'l', 'd', 'L', 'r', 'u', 'r', 'u'] c4p58 c4g58 c4v59 c4h59 rfl rfl rfl rfl rfl

theorem c4step59 :
    ucsLoop c4t 41 c4v59 c4h59 = ucsLoop c4t 40 c4v60 c4h60 :=
  ucsLoop_step c4t 40 c4v59 c4h59 15 ⟨(2, 6), [((3, 3), 1)], [((4, 5), false)]⟩
    ['r', 'r', 'r', 'r', 'r', 'r', 'd', 'd', 'l', 'd', 'L', 'L', 'r', 'r', 'u'] c4p59 c4g59 c4v60 c4h60 rfl rfl rfl rfl rfl

theorem c4step60 :
    ucsLoop c4t 40 c4v60 c4h60 = ucsLoop c4t 39 c4v61 c4h61 :=
  ucsLoop_step c4t 39 c4v60 c4h60 16 ⟨(4, 5), [((4, 4), 1)], [((4, 5), false)]⟩
    ['r', 'r', 'r', 'r', 'r', 'r', 'd', 'd', 'l', 'd', 'L', 'u', 'l', 'D', 'r', 'd'] c4p60 c4g60 c4v61 c4h61 rfl rfl rfl rfl rfl

theorem c4step61 :
    ucsLoop c4t 39 c4v61 c4h61 = ucsLoop c4t 38 c4v62 c4h62 :=
  ucsLoop_step c4t 38 c4v61 c4h61 16 ⟨(4, 3), [((4, 4), 1)], [((4, 5), false)]⟩
    ['r', 'r', 'r', 'r', 'r', 'r', 'd', 'd', 'l', 'd', 'L', 'u', 'l', 'D', 'l', 'd'] c4p61 c4g61 c4v62 c4h62 rfl rfl rfl rfl rfl

theorem c4step62 :
    ucsLoop c4t 38 c4v62 c4h62 = ucsLoop c4t 37 c4v63 c4h63 :=
  ucsLoop_step c4t 37 c4v62 c4h62 16 ⟨(2, 3), [((4, 4), 1)], [((4, 5), false)]⟩
    ['r', 'r', 'r', 'r', 'r', 'r', 'd', 'd', 'l', 'd', 'L', 'u', 'l', 'D', 'u', 'l'] c4p62 c4g62 c4v63 c4h63 rfl rfl rfl rfl rfl

theorem c4step63 :
    ucsLoop c4t 37 c4v63 c4h63 = ucsLoop c4t 36 c4v64 c4h64 :=
  ucsLoop_step c4t 36 c4v63 c4h63 16 ⟨(2, 5), [((4, 4), 1)], [((4, 5), false)]⟩
    ['r', 'r', 'r', 'r', 'r', 'r', 'd', 'd', 'l', 'd', 'L', 'u', 'l', 'D', 'u', 'r'] c4p63 c4g63 c4v64 c4h64 rfl rfl rfl rfl rfl

theorem c4step64 :
    ucsLoop c4t 36 c4v64 c4h64 = ucsLoop c4t 35 c4v64 c4p64 :=
  ucsLoop_step c4t 35 c4v64 c4h64 16 ⟨(3, 6), [((4, 4), 1)], [((4, 5), false)]⟩
    ['r', 'r', 'r', 'r', 'r', 'r', 'd', 'd', 'l', 'd', 'L', 'u', 'l', 'D', 'r', 'r'] c4p64 c4g64 c4v64 c4p64 rfl rfl rfl rfl rfl

theorem c4step65 :
    ucsLoop c4t 35 c4v64 c4p64 = ucsLoop c4t 34 c4v66 c4h66 :=
  ucsLoop_step c4t 34 c4v64 c4p64 16 ⟨(3, 4), [((4, 3), 1)], [((4, 5), false)]⟩
    ['r', 'r', 'r', 'r', 'r', 'r', 'd', 'd', 'l', 'd', 'L', 'L', 'u', 'l', 'D', 'r'] c4p65 c4g65 c4v66 c4h66 rfl rfl rfl rfl rfl

theorem c4step66 :
    ucsLoop c4t 34 c4v66 c4h66 = ucsLoop c4t 33 c4v67 c4h67 :=
  ucsLoop_step c4t 33 c4v66 c4h66 16 ⟨(2, 3), [((4, 3), 1)], [((4, 5), false)]⟩
    ['r', 'r', 'r', 'r', 'r', 'r', 'd', 'd', 'l', 'd', 'L', 'L', 'u', 'l', 'D', 'u'] c4p66 c4g66 c4v67 c4h67 rfl rfl rfl rfl rfl

theorem c4step67 :
    ucsLoop c4t 33 c4v67 c4h67 = ucsLoop c4t 32 c4v68 c4h68 :=
  ucsLoop_step c4t 32 c4v67 c4h67 16 ⟨(2, 3), [((2, 4), 1)], [((4, 5), false)]⟩
    ['r', 'r', 'r', 'r', 'r', 'r', 'd', 'd', 'l', 'd', 'L', 'd', 'l', 'U', 'l', 'u'] c4p67 c4g67 c4v68 c4h68 rfl rfl rfl rfl rfl

theorem c4step68 :
    ucsLoop c4t 32 c4v68 c4h68 = ucsLoop c4t 31 c4v69 c4h69 :=
  ucsLoop_step c4t 31 c4v68 c4h68 16 ⟨(2, 5), [((2, 4), 1)], [((4, 5), false)]⟩
    ['r', 'r', 'r', 'r', 'r', 'r', 'd', 'd', 'l', 'd', 'L', 'd', 'l', 'U', 'r', 'u'] c4p68 c4g68 c4v69 c4h69 rfl rfl rfl rfl rfl

theorem c4step69 :
    ucsLoop c4t 31 c4v69 c4h69 = ucsLoop c4t 30 c4v70 c4h70 :=
  ucsLoop_step c4t 30 c4v69 c4h69 16 ⟨(2, 1), [((3, 4), 1)], [((4, 5), false)]⟩
    ['r', 'r', 'r', 'r', 'r', 'r', 'd', 'd', 'l', 'd', 'L', 'u', 'l', 'l', 'l', 'l'] c4p69 c4g69 c4v70 c4h70 rfl rfl rfl rfl rfl

theorem c4step70 :
    ucsLoop c4t 30 c4v70 c4h70 = ucsLoop c4t 29 c4v70 c4p70 :=
  ucsLoop_step c4t 29 c4v70 c4h70 16 ⟨(3, 6), [((2, 4), 1)], [((4, 5), false)]⟩
    ['r', 'r', 'r', 'r', 'r', 'r', 'd', 'd', 'l', 'd', 'L', 'd', 'l', 'U', 'r', 'r'] c4p70 c4g70 c4v70 c4p70 rfl rfl rfl rfl rfl

theorem c4step71 :
    ucsLoop c4t 29 c4v70 c4p70 = ucsLoop c4t 28 c4v72 c4h72 :=
  ucsLoop_step c4t 28 c4v70 c4p70 16 ⟨(2, 1), [((3, 3), 1)], [((4, 5), false)]⟩
    ['r', 'r', 'r', 'r', 'r', 'r', 'd', 'd', 'l', 'd', 'L', 'L', 'u', 'l', 'l', 'l'] c4p71 c4g71 c4v72 c4h72 rfl rfl rfl rfl rfl

theorem c4step72 :
    ucsLoop c4t 28 c4v72 c4h72 = ucsLoop c4t 27 c4v72 c4p72 :=
  ucsLoop_step c4t 27 c4v72 c4h72 16 ⟨(4, 5), [((2, 4), 1)], [((4, 5), false)]⟩
    ['r', 'r', 'r', 'r', 'r', 'r', 'd', 'd', 'l', 'd', 'L', 'd', 'l', 'U', 'r', 'd'] c4p72 c4g72 c4v72 c4p72 rfl rfl rfl rfl rfl

theorem c4step73 :
    ucsLoop c4t 27 c4v72 c4p72 = ucsLoop c4t 26 c4v72 c4p73 :=
  ucsLoop_step c4t 26 c4v72 c4p72 16 ⟨(4, 3), [((2, 4), 1)], [((4, 5), false)]⟩
    ['r', 'r', 'r', 'r', 'r', 'r', 'd', 'd', 'l', 'd', 'L', 'd', 'l', 'U', 'l', 'd'] c4p73 c4g73 c4v72 c4p73 rfl rfl rfl rfl rfl

theorem c4step74 :
    ucsLoop c4t 26 c4v72 c4p73 = ucsLoop c4t 25 c4v75 c4h75 :=
  ucsLoop_step c4t 25 c4v72 c4p73 16 ⟨(0, 7), [((3, 4), 1)], [((4, 5), false)]⟩
    ['r', 'r', 'r', 'r', 'r', 'r', 'd', 'd', 'l', 'd', 'L', 'r', 'u', 'r', 'u', 'u'] c4p74 c4g74 c4v75 c4h75 rfl rfl rfl rfl rfl

theorem c4step75 :
    ucsLoop c4t 25 c4v75 c4h75 = ucsLoop c4t 24 c4v76 c4h76 :=
  ucsLoop_step c4t 24 c4v75 c4h75 16 ⟨(3, 4), [((2, 3), 1)], [((4, 5), false)]⟩
    ['r', 'r', 'r', 'r', 'r', 'r', 'd', 'd', 'l', 'd', 'L', 'L', 'd', 'l', 'U', 'r'] c4p75 c4g75 c4v76 c4h76 rfl rfl rfl rfl rfl

theorem c4step76 :
    ucsLoop c4t 24 c4v76 c4h76 = ucsLoop c4t 23 c4v76 c4p76 :=
  ucsLoop_step c4t 23 c4v76 c4h76 16 ⟨(4, 3), [((2, 3), 1)], [((4, 5), false)]⟩
    ['r', 'r', 'r', 'r', 'r', 'r', 'd', 'd', 'l', 'd', 'L', 'L', 'd', 'l', 'U', 'd'] c4p76 c4g76 c4v76 c4p76 rfl rfl rfl rfl rfl

theorem c4step77 :
    ucsLoop c4t 23 c4v76 c4p76 = ucsLoop c4t 22 c4v78 c4h78 :=
  ucsLoop_step c4t 22 c4v76 c4p76 16 ⟨(2, 7), [((3, 3), 1)], [((4, 5), false)]⟩
    ['r', 'r', 'r', 'r', 'r', 'r', 'd', 'd', 'l', 'd', 'L', 'L', 'r', 'r', 'u', 'r'] c4p77 c4g77 c4v78 c4h78 rfl rfl rfl rfl rfl

theorem c4step78 :
    ucsLoop c4t 22 c4v78 c4h78 = SearchResult.found ['r', 'r', 'r', 'r', 'r', 'r', 'd', 'd', 'l', 'd', 'L', 'u', 'l', 'D', 'l', 'd', 'R'] :=
  ucsLoop_found c4t 21 c4v78 c4h78 17 ⟨(4, 4), [((4, 5), 1)], [((4, 5), true)]⟩
    ['r', 'r', 'r', 'r', 'r', 'r', 'd', 'd', 'l', 'd', 'L', 'u', 'l', 'D', 'l', 'd', 'R'] c4p78 rfl rfl rfl

theorem c4start : uniformCostSearch c4t c4sInit 100 =
    ucsLoop c4t 100 c4v0 c4h0 := by
  have hc : compress c4t c4sInit = Except.ok c4k0 := rfl
  simp only [uniformCostSearch, hc]
  rw [show c4v0 = [c4k0] from rfl, show c4h0 = [c4e0] from rfl,
    show c4e0 = ((0 : Nat), c4sInit, ([] : List Char)) from rfl]

theorem c4run : uniformCostSearch c4t c4sInit 100 =
    SearchResult.found ['r', 'r', 'r', 'r', 'r', 'r', 'd', 'd', 'l', 'd', 'L', 'u', 'l', 'D', 'l', 'd', 'R'] :=
  c4start.trans (c4step0.trans (c4step1.trans (c4step2.trans (c4step3.trans (c4step4.trans (c4step5.trans (c4step6.trans (c4step7.trans (c4step8.trans (c4step9.trans (c4step10.trans (c4step11.trans (c4step12.trans (c4step13.trans (c4step14.trans (c4step15.trans (c4step16.trans (c4step17.trans (c4step18.trans (c4step19.trans (c4step20.trans (c4step21.trans (c4step22.trans (c4step23.trans (c4step24.trans (c4step25.trans (c4step26.trans (c4step27.trans (c4step28.trans (c4step29.trans (c4step30.trans (c4step31.trans (c4step32.trans (c4step33.trans (c4step34.trans (c4step35.trans (c4step36.trans (c4step37.trans (c4step38.trans (c4step39.trans (c4step40.trans (c4step41.trans (c4step42.trans (c4step43.trans (c4step44.trans (c4step45.trans (c4step46.trans (c4step47.trans (c4step48.trans (c4step49.trans (c4step50.trans (c4step51.trans (c4step52.trans (c4step53.trans (c4step54.trans (c4step55.trans (c4step56.trans (c4step57.trans (c4step58.trans (c4step59.trans (c4step60.trans (c4step61.trans (c4step62.trans (c4step63.trans (c4step64.trans (c4step65.trans (c4step66.trans (c4step67.trans (c4step68.trans (c4step69.trans (c4step70.trans (c4step71.trans (c4step72.trans (c4step73.trans (c4step74.trans (c4step75.trans (c4step76.trans (c4step77.trans (c4step78)))))))))))))))))))))))))))))))))))))))))))))))))))))))))))))))))))))))))))))))

-- the 11-step solution the search misses
def c4w0 : List (PState × Char) :=
  [(⟨(0, 2), [((3, 5), 1)], [((4, 5), false)]⟩, 'r'),
   (⟨((-1), 1), [((3, 5), 1)], [((4, 5), false)]⟩, 'u')]
def c4w1 : List (PState × Char) :=
  [(⟨(0, 1), [((3, 5), 1)], [((4, 5), false)]⟩, 'l'),
   (⟨(0, 3), [((3, 5), 1)], [((4, 5), false)]⟩, 'r')]
def c4w2 : List (PState × Char) :=
  [(⟨(0, 2), [((3, 5), 1)], [((4, 5), false)]⟩, 'l'),
   (⟨(0, 4), [((3, 5), 1)], [((4, 5), false)]⟩, 'r')]
def c4w3 : List (PState × Char) :=
  [(⟨(0, 3), [((3, 5), 1)], [((4, 5), false)]⟩, 'l'),
   (⟨(0, 5), [((3, 5), 1)], [((4, 5), false)]⟩, 'r')]
def c4w4 : List (PState × Char) :=
  [(⟨(0, 4), [((3, 5), 1)], [((4, 5), false)]⟩, 'l'),
   (⟨(0, 6), [((3, 5), 1)], [((4, 5), false)]⟩, 'r')]
def c4w5 : List (PState × Char) :=
  [(⟨(0, 5), [((3, 5), 1)], [((4, 5), false)]⟩, 'l'),
   (⟨(0, 7), [((3, 5), 1)], [((4, 5), false)]⟩, 'r')]
def c4w6 : List (PState × Char) :=
  [(⟨(0, 6), [((3, 5), 1)], [((4, 5), false)]⟩, 'l'),
   (⟨(1, 7), [((3, 5), 1)], [((4, 5), false)]⟩, 'd')]
def c4w7 : List (PState × Char) :=
  [(⟨(0, 7), [((3, 5), 1)], [((4, 5), false)]⟩, 'u'),
   (⟨(2, 7), [((3, 5), 1)], [((4, 5), false)]⟩, 'd')]
def c4w8 : List (PState × Char) :=
  [(⟨(2, 6), [((3, 5), 1)], [((4, 5), false)]⟩, 'l'),
   (⟨(1, 7), [((3, 5), 1)], [((4, 5), false)]⟩, 'u')]
def c4w9 : List (PState × Char) :=
  [(⟨(2, 5), [((3, 5), 1)], [((4, 5), false)]⟩, 'l'),
   (⟨(2, 7), [((3, 5), 1)], [((4, 5), false)]⟩, 'r'),
   (⟨(3, 6), [((3, 5), 1)], [((4, 5), false)]⟩, 'd')]
def c4w10 : List (PState × Char) :=
  [(⟨(2, 4), [((3, 5), 1)], [((4, 5), false)]⟩, 'l'),
   (⟨(2, 6), [((3, 5), 1)], [((4, 5), false)]⟩, 'r'),
   (⟨(3, 5), [((4, 5), 1)], [((4, 5), true)]⟩, 'D')]

def c4q1 : PState := ⟨(0, 2), [((3, 5), 1)], [((4, 5), false)]⟩
def c4q2 : PState := ⟨(0, 3), [((3, 5), 1)], [((4, 5), false)]⟩
def c4q3 : PState := ⟨(0, 4), [((3, 5), 1)], [((4, 5), false)]⟩
def c4q4 : PState := ⟨(0, 5), [((3, 5), 1)], [((4, 5), false)]⟩
def c4q5 : PState := ⟨(0, 6), [((3, 5), 1)], [((4, 5), false)]⟩
def c4q6 : PState := ⟨(0, 7), [((3, 5), 1)], [((4, 5), false)]⟩
def c4q7 : PState := ⟨(1, 7), [((3, 5), 1)], [((4, 5), false)]⟩
def c4q8 : PState := ⟨(2, 7), [((3, 5), 1)], [((4, 5), false)]⟩
def c4q9 : PState := ⟨(2, 6), [((3, 5), 1)], [((4, 5), false)]⟩
def c4q10 : PState := ⟨(2, 5), [((3, 5), 1)], [((4, 5), false)]⟩
def c4q11 : PState := ⟨(3, 5), [((4, 5), 1)], [((4, 5), true)]⟩

theorem c4leg0 : LegalStep c4t c4sInit 'r' c4q1 :=
  ⟨c4w0, rfl, by decide⟩
theorem c4leg1 : LegalStep c4t c4q1 'r' c4q2 :=
  ⟨c4w1, rfl, by decide⟩
theorem c4leg2 : LegalStep c4t c4q2 'r' c4q3 :=
  ⟨c4w2, rfl, by decide⟩
theorem c4leg3 : LegalStep c4t c4q3 'r' c4q4 :=
  ⟨c4w3, rfl, by decide⟩
theorem c4leg4 : LegalStep c4t c4q4 'r' c4q5 :=
  ⟨c4w4, rfl, by decide⟩
theorem c4leg5 : LegalStep c4t c4q5 'r' c4q6 :=
  ⟨c4w5, rfl, by decide⟩
theorem c4leg6 : LegalStep c4t c4q6 'd' c4q7 :=
  ⟨c4w6, rfl, by decide⟩
theorem c4leg7 : LegalStep c4t c4q7 'd' c4q8 :=
  ⟨c4w7, rfl, by decide⟩
theorem c4leg8 : LegalStep c4t c4q8 'l' c4q9 :=
  ⟨c4w8, rfl, by decide⟩
theorem c4leg9 : LegalStep c4t c4q9 'l' c4q10 :=
  ⟨c4w9, rfl, by decide⟩
theorem c4leg10 : LegalStep c4t c4q10 'D' c4q11 :=
  ⟨c4w10, rfl, by decide⟩

theorem c4solves : Solves c4maze.tiles c4maze.state ['r', 'r', 'r', 'r', 'r', 'r', 'd', 'd', 'l', 'l', 'D'] := by
  rw [c4t_eq, c4s_eq]
  exact ⟨c4q11, (ExecPath.cons c4leg0 (ExecPath.cons c4leg1 (ExecPath.cons c4leg2 (ExecPath.cons c4leg3 (ExecPath.cons c4leg4 (ExecPath.cons c4leg5 (ExecPath.cons c4leg6 (ExecPath.cons c4leg7 (ExecPath.cons c4leg8 (ExecPath.cons c4leg9 (ExecPath.cons c4leg10 (ExecPath.nil c4q11)))))))))))), rfl⟩

/-- C4 counterexample: on the parsed C4 board, `uniform_cost_search`
succeeds and returns a 17-action path, yet an 11-action legal solution
exists: wrapped negative indices make a "ghost" copy of the search spill
back onto the real board and poison the visited set with the keys of real
cells before the true frontier reaches them, so the claimed minimality
fails. -/
theorem C4_counterexample :
    uniformCostSearch c4maze.tiles c4maze.state 100 =
      SearchResult.found ['r', 'r', 'r', 'r', 'r', 'r', 'd', 'd', 'l', 'd', 'L', 'u', 'l', 'D', 'l', 'd', 'R'] ∧
    Solves c4maze.tiles c4maze.state ['r', 'r', 'r', 'r', 'r', 'r', 'd', 'd', 'l', 'l', 'D'] ∧
    (['r', 'r', 'r', 'r', 'r', 'r', 'd', 'd', 'l', 'l', 'D'] : List Char).length <
      (['r', 'r', 'r', 'r', 'r', 'r', 'd', 'd', 'l', 'd', 'L', 'u', 'l', 'D', 'l', 'd', 'R'] : List Char).length := by
  refine ⟨?_, c4solves, by decide⟩
  rw [c4t_eq, c4s_eq]
  exact c4run
